import Mathlib

/-!
# Yeelight LED device: session protocol and colour encoding

A shallow embedding of `libsrc/leddevice/dev_net/LedDeviceYeelight.cpp`.

* A `YeelightLight` object is a record of its data members; every member function is a
  function from the record (and the behaviour of the sockets during the call) to the
  updated record, the return value, the socket calls performed and the commands built.
* C++ `int` members are `Int`. Where the code computes with them (the correlation counter,
  the sum of two durations, the conversion of the brightness product to `int`) the result
  is brought back into the range of `int` as the two's complement build does; in C++ these
  overflows are undefined behaviour. `double` is modelled by `Double` below (finite
  binary64 values).
* Qt's JSON classes are modelled by `JsonValue`; a line read from a socket is given by what
  `QJsonDocument::fromJson` makes of it.
* Logging has no effect on the state and is left out.
-/

namespace Yeelight

/-! ## JSON values -/

/-- A `QJsonValue`. JSON numbers are exact rationals (Qt stores them as doubles). -/
inductive JsonValue where
  | null : JsonValue
  | bool (b : Bool) : JsonValue
  | number (q : ℚ) : JsonValue
  | string (s : String) : JsonValue
  | array (items : List JsonValue) : JsonValue
  | object (members : List (String × JsonValue)) : JsonValue

instance : Inhabited JsonValue := ⟨JsonValue.null⟩

/-- A `QJsonObject`: key/value members, looked up by the first matching key. -/
abbrev JsonObject := List (String × JsonValue)

/-- Qt function `QJsonValue::isNull`. -/
def JsonValue.isNull : JsonValue → Bool
  | .null => true
  | _ => false

/-- Qt function `QJsonValue::isArray`. -/
def JsonValue.isArray : JsonValue → Bool
  | .array _ => true
  | _ => false

/-- Qt function `QJsonValue::isObject`. -/
def JsonValue.isObject : JsonValue → Bool
  | .object _ => true
  | _ => false

/-- Qt function `QJsonValue::toArray`: the items of an array, the empty array for any other value.
-/
def JsonValue.toArray : JsonValue → List JsonValue
  | .array items => items
  | _ => []

/-- Qt function `QJsonValue::toObject` and `QJsonDocument::object`: the members of an object, the
empty object for any other value. -/
def JsonValue.toObject : JsonValue → JsonObject
  | .object members => members
  | _ => []

/-- Qt function `QJsonValue::toString`: the string, or the empty string for any other value. -/
def JsonValue.toString : JsonValue → String
  | .string s => s
  | _ => ""

/-- Qt function `QJsonValue::toInt()`: the number when it is an integer that fits an `int`, else the
default `0`. -/
def JsonValue.toInt : JsonValue → Int
  | .number q => if q.den = 1 ∧ -2147483648 ≤ q.num ∧ q.num ≤ 2147483647 then q.num else 0
  | _ => 0

/-- Qt function `QJsonObject::contains`. -/
def JsonObject.contains (o : JsonObject) (key : String) : Bool :=
  (o.lookup key).isSome

/-- Qt function `QJsonObject::value` and the const `operator[]`: `none` stands for
`QJsonValue::Undefined`. -/
def JsonObject.value (o : JsonObject) (key : String) : Option JsonValue :=
  o.lookup key

/-- The non-const `QJsonObject::operator[]`, as used on the local `jsonObj` of
`handleResponse`: a missing key is inserted with the value null and reads as null. -/
def JsonObject.at (o : JsonObject) (key : String) : JsonValue :=
  (o.lookup key).getD JsonValue.null

/-! ## Strings and variants -/

/-- Value of a string of decimal digits, `none` when a character is not a digit. -/
def digitsValue : List Char → Nat → Option Nat
  | [], acc => some acc
  | c :: cs, acc => if c.isDigit then digitsValue cs (10 * acc + (c.toNat - 48)) else none

/-- Decimal integer denoted by a string: optional sign and at least one digit, surrounding
white space ignored; `none` when the text is not of that form. -/
def parseInteger (s : String) : Option Int :=
  let trimmed := ((s.toList.dropWhile Char.isWhitespace).reverse.dropWhile Char.isWhitespace).reverse
  match trimmed with
  | [] => none
  | '-' :: [] => none
  | '+' :: [] => none
  | '-' :: cs => (digitsValue cs 0).map (fun n => - (n : Int))
  | '+' :: cs => (digitsValue cs 0).map (fun n => (n : Int))
  | cs => (digitsValue cs 0).map (fun n => (n : Int))

/-- Qt function `QString::toInt()`: the integer when the text denotes one that fits an `int`, else
`0`. -/
def qStringToInt (s : String) : Int :=
  match parseInteger s with
  | some n => if -2147483648 ≤ n ∧ n ≤ 2147483647 then n else 0
  | none => 0

/-- The value of an integer as a C++ `int` on the two's complement build: the low 32 bits.
It is the conversion of a 64-bit integer to `int` and the result of `int` arithmetic that
leaves the range of `int`. -/
def wrapInt32 (n : Int) : Int :=
  (n + 2147483648) % 4294967296 - 2147483648

/-- The value is in the range of a C++ `int`. -/
def isInt32 (n : Int) : Prop := -2147483648 ≤ n ∧ n ≤ 2147483647

instance (n : Int) : Decidable (isInt32 n) :=
  inferInstanceAs (Decidable (-2147483648 ≤ n ∧ n ≤ 2147483647))

/-- Qt function `QVariantMap::value(key).toInt()` on the map made by
`QJsonValue::toVariant().toMap()`: a missing entry, null, arrays and objects give 0; a number is
rounded to the nearest integer (`qRound64`); a string is parsed as a 64-bit decimal integer. -/
def variantToInt : Option JsonValue → Int
  | some (.bool b) => if b then 1 else 0
  | some (.number q) => wrapInt32 (Rat.floor (q + 1 / 2))
  | some (.string s) =>
    match parseInteger s with
    | some n => if -9223372036854775808 ≤ n ∧ n ≤ 9223372036854775807 then wrapInt32 n else 0
    | none => 0
  | _ => 0

/-! ## Doubles -/

/-- A finite binary64 value `mant * 2 ^ exp`. -/
structure Double where
  mant : Int
  exp : Int
deriving DecidableEq, Repr

/-- Number of low bits that have to be dropped from `n` for it to fit the 53-bit significand
of a binary64 value (the first argument bounds the search; `n` itself is always enough). -/
def excessBits : Nat → Nat → Nat
  | 0, _ => 0
  | fuel + 1, n => if n < 2 ^ 53 then 0 else excessBits fuel (n / 2) + 1

/-- The integer nearest to `n / 2 ^ k`, ties going to the even one. -/
def roundHalfEven (n k : Nat) : Nat :=
  let q := n / 2 ^ k
  let r := n % 2 ^ k
  if 2 * r < 2 ^ k then q
  else if 2 ^ k < 2 * r then q + 1
  else if q % 2 = 0 then q else q + 1

/-- The product `f * x` of a double and an `int` as C++ computes it: `x` converts to double
exactly and the exact product is rounded to the nearest binary64 value, ties to even
(exponent overflow and subnormal results are outside the model). -/
def Double.mulInt (f : Double) (x : Int) : Double :=
  let p := f.mant * x
  let k := excessBits p.natAbs p.natAbs
  ⟨p.sign * roundHalfEven p.natAbs k, f.exp + k⟩

/-- The value of a double truncated toward zero, as a mathematical integer. -/
def Double.trunc (d : Double) : Int :=
  if 0 ≤ d.exp then d.mant * 2 ^ d.exp.toNat else Int.tdiv d.mant (2 ^ (-d.exp).toNat)

/-- The truncated value of the double lies in the range of a C++ `int`. -/
def Double.fitsInt (d : Double) : Prop := -2147483648 ≤ d.trunc ∧ d.trunc ≤ 2147483647

instance (d : Double) : Decidable d.fitsInt :=
  inferInstanceAs (Decidable (-2147483648 ≤ d.trunc ∧ d.trunc ≤ 2147483647))

/-- The conversion `static_cast<int>(d)`: truncation toward zero when the truncated value lies
in the range of `int`. For a value outside that range the conversion is undefined in C++; the
conversion instruction of the x86-64 build then delivers `-2147483648`, which is the value
taken here. -/
def Double.toInt (d : Double) : Int :=
  if d.fitsInt then d.trunc else -2147483648

/-- The double `1.0`. -/
def Double.one : Double := ⟨1, 0⟩

/-- The double is not negative. -/
def Double.nonneg (f : Double) : Prop := 0 ≤ f.mant

/-- The double is at least `1.0`. -/
def Double.oneLe (f : Double) : Prop := (2 : Int) ^ (-f.exp).toNat ≤ f.mant * 2 ^ f.exp.toNat

instance (f : Double) : Decidable f.nonneg := inferInstanceAs (Decidable (0 ≤ f.mant))

instance (f : Double) : Decidable f.oneLe :=
  inferInstanceAs (Decidable ((2 : Int) ^ (-f.exp).toNat ≤ f.mant * 2 ^ f.exp.toNat))

/-! ## Constants of the device protocol -/

/-- Device read timeout in ms. -/
def READ_TIMEOUT : Int := 1000

/-- Default port of the Yeelight API. -/
def API_DEFAULT_PORT : Nat := 55443

def API_COMMAND_METHOD : String := "method"
def API_COMMAND_PARAMS : String := "params"
def API_COMMAND_PROPS : String := "props"
def API_PARAM_CLASS_COLOR : String := "color"
def API_PARAM_CLASS_HSV : String := "hsv"
def API_PROP_NAME : String := "name"
def API_PROP_MODEL : String := "model"
def API_PROP_FWVER : String := "fw_ver"
def API_PROP_POWER : String := "power"
def API_PROP_MUSIC : String := "music_on"
def API_PROP_RGB : String := "rgb"
def API_PROP_CT : String := "ct"
def API_PROP_BRIGHT : String := "bright"
def API_RESULT_ID : String := "id"
def API_RESULT : String := "result"
def API_ERROR : String := "error"
def API_ERROR_CODE : String := "code"
def API_METHOD_POWER : String := "set_power"
def API_METHOD_POWER_ON : String := "on"
def API_METHOD_POWER_OFF : String := "off"
def API_METHOD_MUSIC_MODE : String := "set_music"
def API_METHOD_MUSIC_MODE_ON : Int := 1
def API_METHOD_MUSIC_MODE_OFF : Int := 0
def API_METHOD_SETSCENE : String := "set_scene"
def API_METHOD_GETPROP : String := "get_prop"
def API_PARAM_EFFECT_SUDDEN : String := "sudden"
def API_PARAM_EFFECT_SMOOTH : String := "smooth"
def API_PARAM_DURATION : Int := 50
def API_PARAM_DURATION_POWERONOFF : Int := 1000

/-- The transition effects of the API. -/
inductive API_EFFECT where
  | API_EFFECT_SMOOTH
  | API_EFFECT_SUDDEN
deriving DecidableEq, Repr

/-- The power-on modes of the API, in the order of the C++ enumeration. -/
inductive API_MODE where
  | API_TURN_ON_MODE
  | API_CT_MODE
  | API_RGB_MODE
  | API_HSV_MODE
  | API_COLOR_FLOW_MODE
  | API_NIGHT_LIGHT_MODE
deriving DecidableEq, Repr

/-- Integer value of an `API_MODE` enumerator. -/
def API_MODE.toInt : API_MODE → Int
  | .API_TURN_ON_MODE => 0
  | .API_CT_MODE => 1
  | .API_RGB_MODE => 2
  | .API_HSV_MODE => 3
  | .API_COLOR_FLOW_MODE => 4
  | .API_NIGHT_LIGHT_MODE => 5

/-- The parameter string of a transition effect. -/
def effectParam (effect : API_EFFECT) : String :=
  if effect = API_EFFECT.API_EFFECT_SMOOTH then API_PARAM_EFFECT_SMOOTH else API_PARAM_EFFECT_SUDDEN

/-! ## Data model -/

/-- An RGB colour with 8-bit channels (`ColorRgb`, three `uint8_t`). -/
structure ColorRgb where
  red : Fin 256
  green : Fin 256
  blue : Fin 256
deriving DecidableEq, Repr

/-- A command document built by `getCommand`: the JSON object with members id, method and
params. -/
structure Command where
  id : Int
  method : String
  params : List JsonValue

/-- A line read from a socket as `QJsonDocument::fromJson` sees it: `none` when the line does
not parse, else the parsed document. -/
abbrev ResponseLine := Option JsonValue

/-- What a socket does during one command: whether it is open, what `write` returns, whether
the bytes get written in time, and the complete lines that become readable, grouped by the
successful `waitForReadyRead` call that makes them available (no further entry: the wait
times out). -/
structure SocketScript where
  isOpen : Bool
  bytesWritten : Int
  waitForBytesWritten : Bool
  readyRead : List (List ResponseLine)

/-- The calls made on the sockets; `stream` tells the stream socket from the control socket. -/
inductive SocketEvent where
  | connectToHost (host : String) (port : Nat)
  | close (stream : Bool)
  | write (stream : Bool) (command : Command)
  | waitForBytesWritten (stream : Bool)
  | waitForReadyRead (msecs : Int)
  | readLine (line : ResponseLine)

/-- The data members of a `YeelightLight`. `_tcpSocket` tells whether the control socket has
been allocated, `_tcpStreamSocket` holds the handle of the stream socket if one is set, and
`_color` is `none` for the invalid default `QColor`. -/
structure YeelightLight where
  _debugLevel : Int
  _isInError : Bool
  _host : String
  _port : Nat
  _tcpSocket : Bool
  _correlationID : Int
  _tcpStreamSocket : Option Nat
  _name : String
  _colorRgbValue : Int
  _bright : Int
  _ct : Int
  _color : Option ColorRgb
  _transitionEffect : API_EFFECT
  _transitionDuration : Int
  _extraTimeDarkness : Int
  _brightnessMin : Int
  _isBrightnessSwitchOffMinimum : Bool
  _brightnessMax : Int
  _brightnessFactor : Double
  _transitionEffectParam : String
  _model : String
  _power : String
  _fw_ver : String
  _isOn : Bool
  _isInMusicMode : Bool
  _properties : List (String × String)

/-- Return value, updated light, socket calls and built commands of a member function. -/
structure Outcome (α : Type) where
  rc : α
  light : YeelightLight
  events : List SocketEvent
  built : List Command

/-- Return value, result array, updated light and socket calls of `writeCommand`. -/
structure WriteOutcome where
  rc : Bool
  result : List JsonValue
  light : YeelightLight
  events : List SocketEvent

namespace YeelightLight

/-- The constructor `YeelightLight::YeelightLight`. The constant `API_PARAM_EXTRA_TIME_DARKNESS`
is not declared in the sources at hand and is a parameter; the members the constructor leaves
uninitialised (`_bright`, `_ct`) are 0 and the strings it does not set are empty. -/
def ctor (API_PARAM_EXTRA_TIME_DARKNESS : Int) (hostname : String) (port : Nat) :
    YeelightLight :=
  { _debugLevel := 0
    _isInError := false
    _host := hostname
    _port := port
    _tcpSocket := false
    _correlationID := 0
    _tcpStreamSocket := none
    _name := hostname
    _colorRgbValue := 0
    _bright := 0
    _ct := 0
    _color := none
    _transitionEffect := API_EFFECT.API_EFFECT_SMOOTH
    _transitionDuration := API_PARAM_DURATION
    _extraTimeDarkness := API_PARAM_EXTRA_TIME_DARKNESS
    _brightnessMin := 0
    _isBrightnessSwitchOffMinimum := false
    _brightnessMax := 100
    _brightnessFactor := Double.one
    _transitionEffectParam := API_PARAM_EFFECT_SMOOTH
    _model := ""
    _power := ""
    _fw_ver := ""
    _isOn := false
    _isInMusicMode := false
    _properties := [] }

/-- Member function `setInError` (lines 384-388): raises the error flag (the message is only
logged). -/
def setInError (s : YeelightLight) : YeelightLight :=
  { s with _isInError := true }

/-- Member function `isReady` (header, line 96). -/
def isReady (s : YeelightLight) : Bool := !s._isInError

/-- Member function `setHostname` (lines 104-109). -/
def setHostname (s : YeelightLight) (hostname : String) (port : Nat) : YeelightLight :=
  { s with _host := hostname, _port := port }

/-- Member function `setStreamSocket` (lines 111-115). -/
def setStreamSocket (s : YeelightLight) (socket : Option Nat) : YeelightLight :=
  { s with _tcpStreamSocket := socket }

/-- Member function `setDebuglevel` (header, line 106). -/
def setDebuglevel (s : YeelightLight) (level : Int) : YeelightLight :=
  { s with _debugLevel := level }

/-- Member function `getCommand` (lines 390-401): increments the correlation id and builds the
command document with it. The counter is a C++ `int`: the increment of `2147483647` is a signed
overflow, which gives `-2147483648` on the two's complement build (`wrapInt32`). -/
def getCommand (s : YeelightLight) (method : String) (params : List JsonValue) :
    Command × YeelightLight :=
  let s1 := { s with _correlationID := wrapInt32 (s._correlationID + 1) }
  (⟨s1._correlationID, method, params⟩, s1)

/-- Member function `handleResponse` (lines 279-382): the result array of the response and the
updated light. A line that does not parse raises the error flag; a document with a non-null member
"method" is a notification (it is only logged); any other document is a response, checked against
`correlationID`. -/
def handleResponse (s : YeelightLight) (correlationID : Int) (response : ResponseLine) :
    List JsonValue × YeelightLight :=
  match response with
  | none => ([], s.setInError)
  | some jsonDoc =>
    let jsonObj := jsonDoc.toObject
    if !(jsonObj.at API_COMMAND_METHOD).isNull then
      ([], s)
    else
      let id := (jsonObj.at API_RESULT_ID).toInt
      if id ≠ correlationID then
        ([], s.setInError)
      else if jsonObj.contains API_RESULT && (jsonObj.at API_RESULT).isArray then
        ((jsonObj.at API_RESULT).toArray, s)
      else if jsonObj.contains API_ERROR && (jsonObj.at API_ERROR).isObject then
        let errorCode := variantToInt ((jsonObj.at API_ERROR).toObject.value API_ERROR_CODE)
        if errorCode ≠ -1 then ([], s.setInError) else ([], s)
      else
        ([], s.setInError)

/-- The inner loop of `writeCommand`: while a line can be read, read it and assign the outcome
of `handleResponse` to `result`. -/
def readLines : List ResponseLine → YeelightLight → List JsonValue →
    List JsonValue × YeelightLight × List SocketEvent
  | [], s, result => (result, s, [])
  | response :: rest, s, _ =>
    let handled := handleResponse s s._correlationID response
    let more := readLines rest handled.2 handled.1
    (more.1, more.2.1, SocketEvent.readLine response :: more.2.2)

/-- The do-while loop of `writeCommand`: read the lines at hand, then wait 500 ms for more and
go on while the wait succeeds. -/
def readBatches : List (List ResponseLine) → List ResponseLine → YeelightLight →
    List JsonValue → List JsonValue × YeelightLight × List SocketEvent
  | [], batch, s, result =>
    let done := readLines batch s result
    (done.1, done.2.1, done.2.2 ++ [SocketEvent.waitForReadyRead 500])
  | next :: later, batch, s, result =>
    let done := readLines batch s result
    let more := readBatches later next done.2.1 done.1
    (more.1, more.2.1, done.2.2 ++ SocketEvent.waitForReadyRead 500 :: more.2.2)

/-- Member function `writeCommand(command, result)` (lines 174-235) on the control socket. The
control socket must have been allocated by `open` when the light is not in error. -/
def writeCommand (s : YeelightLight) (sock : SocketScript) (command : Command) : WriteOutcome :=
  if !s._isInError && sock.isOpen then
    if sock.bytesWritten = -1 then
      ⟨false, [], s.setInError, [SocketEvent.write false command]⟩
    else
      let s1 := if !sock.waitForBytesWritten then s.setInError else s
      let read :=
        match sock.readyRead with
        | [] => (([] : List JsonValue), s1, [SocketEvent.waitForReadyRead READ_TIMEOUT])
        | batch :: later =>
          let r := readBatches later batch s1 []
          (r.1, r.2.1, SocketEvent.waitForReadyRead READ_TIMEOUT :: r.2.2)
      ⟨!read.2.1._isInError, read.1, read.2.1,
        SocketEvent.write false command :: SocketEvent.waitForBytesWritten false :: read.2.2⟩
  else
    ⟨false, [], s, []⟩

/-- Member function `streamCommand(command)` (lines 237-277) on the stream socket: no response is
read. -/
def streamCommand (s : YeelightLight) (sock : SocketScript) (command : Command) : WriteOutcome :=
  if !s._isInError && sock.isOpen then
    if sock.bytesWritten = -1 then
      ⟨false, [], s.setInError, [SocketEvent.write true command]⟩
    else if !sock.waitForBytesWritten then
      ⟨false, [], s.setInError,
        [SocketEvent.write true command, SocketEvent.waitForBytesWritten true]⟩
    else
      ⟨true, [], s, [SocketEvent.write true command, SocketEvent.waitForBytesWritten true]⟩
  else
    ⟨false, [], s, []⟩

/-- Member function `close` (lines 152-166): closes the control socket and, when set, the stream
socket. -/
def close (s : YeelightLight) : Outcome Bool :=
  ⟨true, s, SocketEvent.close false :: (if s._tcpStreamSocket.isSome then [SocketEvent.close true] else []), []⟩

end YeelightLight

/-- Member function `open` (lines 117-150): `waitForConnected` and `connected` tell whether the
connection is made within the connect timeout and whether the socket is in the connected state
afterwards. -/
def YeelightLight.open (s : YeelightLight) (waitForConnected connected : Bool) : Outcome Bool :=
  let s1 := { s with _isInError := false, _tcpSocket := true }
  let events := [SocketEvent.connectToHost s._host s._port]
  if waitForConnected then
    if !connected then ⟨false, s1.setInError, events, []⟩
    else ⟨true, s1, events, []⟩
  else
    ⟨false, s1.setInError, events, []⟩

/-- C++ division of `int` values: the quotient is truncated toward zero. -/
def cDiv (a b : Int) : Int := Int.tdiv a b

/-- Qt function `QMap::insert` on the property bag: the value of an existing key is replaced. -/
def qMapInsert : List (String × String) → String → String → List (String × String)
  | [], key, value => [(key, value)]
  | (k, v) :: rest, key, value =>
    if k = key then (key, value) :: rest else (k, v) :: qMapInsert rest key value

/-- The const `QMap::operator[]`: the empty string for a missing key. -/
def qMapValue (m : List (String × String)) (key : String) : String :=
  (m.lookup key).getD ""

namespace YeelightLight

/-- Member function `mapProperties` (lines 477-497). -/
def mapProperties (s : YeelightLight) (propertyList : List (String × String)) : YeelightLight :=
  let name :=
    if s._name.isEmpty then
      (if (qMapValue propertyList API_PROP_NAME).isEmpty then s._host
       else qMapValue propertyList API_PROP_NAME)
    else s._name
  { s with
    _name := name
    _model := qMapValue propertyList API_PROP_MODEL
    _fw_ver := qMapValue propertyList API_PROP_FWVER
    _power := qMapValue propertyList API_PROP_POWER
    _colorRgbValue := qStringToInt (qMapValue propertyList API_PROP_RGB)
    _bright := qStringToInt (qMapValue propertyList API_PROP_BRIGHT)
    _ct := qStringToInt (qMapValue propertyList API_PROP_CT) }

/-- The loop of `getProperties` over the result array: item number `i` is stored under the
name at position `i` of the requested list (`QJsonArray::at` past the end reads as the empty
string). -/
def insertProperties (propertylist : List JsonValue) :
    Nat → List JsonValue → List (String × String) → List (String × String)
  | _, [], properties => properties
  | i, item :: rest, properties =>
    insertProperties propertylist (i + 1) rest
      (qMapInsert properties (propertylist.getD i JsonValue.null).toString item.toString)

/-- Member function `getProperties` (lines 403-432). -/
def getProperties (s : YeelightLight) (sock : SocketScript) : Outcome Bool :=
  let propertylist := [JsonValue.string API_PROP_NAME, JsonValue.string API_PROP_MODEL,
    JsonValue.string API_PROP_POWER, JsonValue.string API_PROP_RGB,
    JsonValue.string API_PROP_BRIGHT, JsonValue.string API_PROP_CT,
    JsonValue.string API_PROP_FWVER]
  let built := s.getCommand API_METHOD_GETPROP propertylist
  let w := built.2.writeCommand sock built.1
  let properties := insertProperties propertylist 0 w.result w.light._properties
  let s2 := { w.light with _properties := properties }
  ⟨w.rc, s2.mapProperties properties, w.events, [built.1]⟩

/-- Member function `isInMusicMode(deviceCheck)` (lines 434-475); `streamConnected` tells whether
the stream socket is in the connected state. -/
def isInMusicMode (s : YeelightLight) (deviceCheck : Bool) (sock : SocketScript)
    (streamConnected : Bool) : Outcome Bool :=
  if deviceCheck then
    let built := s.getCommand API_METHOD_GETPROP [JsonValue.string API_PROP_MUSIC]
    let w := built.2.writeCommand sock built.1
    let inMusicMode :=
      if w.rc && !w.result.isEmpty then
        decide ((w.result.getD 0 JsonValue.null).toString = "1")
      else false
    ⟨inMusicMode, { w.light with _isInMusicMode := inMusicMode }, w.events, [built.1]⟩
  else
    let inMusicMode := s._tcpStreamSocket.isSome && streamConnected
    ⟨inMusicMode, { s with _isInMusicMode := inMusicMode }, [], []⟩

/-- Member function `setPower(on, effect, duration, mode)` (lines 504-527). -/
def setPower (s : YeelightLight) (onFlag : Bool) (effect : API_EFFECT) (duration : Int)
    (mode : API_MODE) (sock : SocketScript) : Outcome Bool :=
  let powerParam := if onFlag then API_METHOD_POWER_ON else API_METHOD_POWER_OFF
  let paramlist := [JsonValue.string powerParam, JsonValue.string (effectParam effect),
    JsonValue.number duration, JsonValue.number mode.toInt]
  let built := s.getCommand API_METHOD_POWER paramlist
  let w := built.2.writeCommand sock built.1
  if w.rc then
    ⟨true, { w.light with _isOn := onFlag, _isInMusicMode := if onFlag = false then false else w.light._isInMusicMode },
      w.events, [built.1]⟩
  else
    ⟨false, w.light, w.events, [built.1]⟩

/-- The sending step of `setColorRGB` and `setColorHSV`: the command goes to the stream socket
by `streamCommand` in music mode and to the control socket by `writeCommand` otherwise; `sock`
is the behaviour of the socket used. -/
def sendScene (s : YeelightLight) (sock : SocketScript) (command : Command) : WriteOutcome :=
  if s._isInMusicMode then s.streamCommand sock command else s.writeCommand sock command

/-- The colour parameter of `setColorRGB`: the packed colour, with 0 replaced by 1. -/
def rgbColorParam (color : ColorRgb) : Int :=
  let colorParam : Int :=
    (color.red.val : Int) * 65536 + (color.green.val : Int) * 256 + (color.blue.val : Int)
  if colorParam = 0 then 1 else colorParam

/-- The first value of `bri` in `setColorRGB`: `std::max(red, green, blue) * 100 / 255`. -/
def rgbRaw (color : ColorRgb) : Int :=
  cDiv (((max color.red.val (max color.green.val color.blue.val) : Nat) : Int) * 100) 255

/-- The final value of `bri` in `setColorRGB`, from its first value `bri`. -/
def rgbBri (s : YeelightLight) (bri : Int) : Int :=
  if bri < s._brightnessMin then
    (if s._isBrightnessSwitchOffMinimum then 0 else s._brightnessMin)
  else
    min s._brightnessMax (s._brightnessFactor.mulInt (max s._brightnessMin bri)).toInt

/-- The value of `duration` in `setColorRGB`, from the first value `bri`. The sum of line 552
is a sum of two C++ `int` values: outside the range of `int` it is a signed overflow, which
wraps on the two's complement build (`wrapInt32`). -/
def rgbDuration (s : YeelightLight) (bri : Int) : Int :=
  if bri < s._brightnessMin then
    (if s._isBrightnessSwitchOffMinimum then
      wrapInt32 (s._transitionDuration + s._extraTimeDarkness)
     else s._transitionDuration)
  else s._transitionDuration

/-- The parameter list of the command of `setColorRGB`. -/
def rgbParamlist (s : YeelightLight) (color : ColorRgb) : List JsonValue :=
  [JsonValue.string API_PARAM_CLASS_COLOR, JsonValue.number (rgbColorParam color),
    JsonValue.number (rgbBri s (rgbRaw color)), JsonValue.string s._transitionEffectParam,
    JsonValue.number (rgbDuration s (rgbRaw color))]

/-- Member function `setColorRGB` (lines 529-590); `sock` is the behaviour of the socket the
command is sent to. -/
def setColorRGB (s : YeelightLight) (color : ColorRgb) (sock : SocketScript) : Outcome Bool :=
  if rgbColorParam color ≠ s._colorRgbValue then
    let built := s.getCommand API_METHOD_SETSCENE (rgbParamlist s color)
    let w := built.2.sendScene sock built.1
    if w.rc then
      ⟨true, { w.light with _colorRgbValue := rgbColorParam color }, w.events, [built.1]⟩
    else
      ⟨false, w.light, w.events, [built.1]⟩
  else
    ⟨true, s, [], []⟩

/-- The hue sent by `setColorHSV`: the undefined hue `-1` becomes 0. -/
def hsvHue (hue : Int) : Int := if hue = -1 then 0 else hue

/-- The rescaling `* 100 / 255` of saturation and value in `setColorHSV`. -/
def hsvScale (v : Int) : Int := cDiv (v * 100) 255

/-- The final value of `bri` in `setColorHSV`, from the rescaled value `bri`. -/
def hsvBri (s : YeelightLight) (bri : Int) : Int :=
  if bri < s._brightnessMin then
    (if s._isBrightnessSwitchOffMinimum then 0 else s._brightnessMin)
  else
    min s._brightnessMax (s._brightnessFactor.mulInt (max s._brightnessMin bri)).toInt

/-- The value of `duration` in `setColorHSV`, from the rescaled value `bri`; the sum of line
619 is a sum of two C++ `int` values, as in `rgbDuration`. -/
def hsvDuration (s : YeelightLight) (bri : Int) : Int :=
  if bri < s._brightnessMin then
    (if s._isBrightnessSwitchOffMinimum then
      wrapInt32 (s._transitionDuration + s._extraTimeDarkness)
     else s._transitionDuration)
  else s._transitionDuration

/-- The parameter list of the command of `setColorHSV`, from the triple given by `getHsv`. -/
def hsvParamlist (s : YeelightLight) (hsv : Int × Int × Int) : List JsonValue :=
  [JsonValue.string API_PARAM_CLASS_HSV, JsonValue.number (hsvHue hsv.1),
    JsonValue.number (hsvScale hsv.2.1), JsonValue.number (hsvBri s (hsvScale hsv.2.2)),
    JsonValue.string s._transitionEffectParam,
    JsonValue.number (hsvDuration s (hsvScale hsv.2.2))]

/-- Member function `setColorHSV` (lines 592-667). The conversion `QColor::getHsv` of Qt is the
parameter `getHsv`, giving hue (`-1` when undefined), saturation and value of a colour. -/
def setColorHSV (getHsv : ColorRgb → Int × Int × Int) (s : YeelightLight) (colorRGB : ColorRgb)
    (sock : SocketScript) : Outcome Bool :=
  if some colorRGB ≠ s._color then
    let bri := hsvBri s (hsvScale (getHsv colorRGB).2.2)
    let built := s.getCommand API_METHOD_SETSCENE (hsvParamlist s (getHsv colorRGB))
    let w := built.2.sendScene sock built.1
    if w.rc then
      ⟨true, { w.light with
          _isOn := if bri = 0 then false else true
          _isInMusicMode := if bri = 0 then false else w.light._isInMusicMode
          _color := some colorRGB },
        w.events, [built.1]⟩
    else
      ⟨false, w.light, w.events, [built.1]⟩
  else
    ⟨true, s, [], []⟩

/-- Member function `setTransitionEffect` (lines 670-683). -/
def setTransitionEffect (s : YeelightLight) (effect : API_EFFECT) (duration : Int) :
    YeelightLight :=
  let s1 :=
    if effect ≠ s._transitionEffect then
      { s with _transitionEffect := effect, _transitionEffectParam := effectParam effect }
    else s
  if duration ≠ s1._transitionDuration then { s1 with _transitionDuration := duration } else s1

/-- Member function `setBrightnessConfig` (lines 685-692). -/
def setBrightnessConfig (s : YeelightLight) (min max : Int) (switchoff : Bool) (extraTime : Int)
    (factor : Double) : YeelightLight :=
  { s with
    _brightnessMin := min
    _isBrightnessSwitchOffMinimum := switchoff
    _brightnessMax := max
    _brightnessFactor := factor
    _extraTimeDarkness := extraTime }

/-- Member function `setMusicMode(on, ipAddress, port)` (lines 694-714). -/
def setMusicMode (s : YeelightLight) (onFlag : Bool) (ipAddress : String) (port : Nat)
    (sock : SocketScript) : Outcome Bool :=
  let musicModeParam := if onFlag then API_METHOD_MUSIC_MODE_ON else API_METHOD_MUSIC_MODE_OFF
  let paramlist :=
    JsonValue.number musicModeParam ::
      (if onFlag then [JsonValue.string ipAddress, JsonValue.number port] else [])
  let built := s.getCommand API_METHOD_MUSIC_MODE paramlist
  let w := built.2.writeCommand sock built.1
  if w.rc then
    ⟨true, { w.light with _isInMusicMode := onFlag }, w.events, [built.1]⟩
  else
    ⟨false, w.light, w.events, [built.1]⟩

end YeelightLight

/-! ## Sequences of calls on one light, and lights in an array -/

/-- A call of a public member function of `YeelightLight`, with its arguments and the
behaviour of the sockets during the call. -/
inductive Op where
  | callOpen (waitForConnected connected : Bool)
  | callClose
  | callWriteCommand (sock : SocketScript) (command : Command)
  | callStreamCommand (sock : SocketScript) (command : Command)
  | callSetHostname (hostname : String) (port : Nat)
  | callSetStreamSocket (socket : Option Nat)
  | callSetPower (onFlag : Bool) (effect : API_EFFECT) (duration : Int) (mode : API_MODE)
      (sock : SocketScript)
  | callSetColorRGB (color : ColorRgb) (sock : SocketScript)
  | callSetColorHSV (color : ColorRgb) (sock : SocketScript)
  | callSetTransitionEffect (effect : API_EFFECT) (duration : Int)
  | callSetBrightnessConfig (min max : Int) (switchoff : Bool) (extraTime : Int)
      (factor : Double)
  | callSetMusicMode (onFlag : Bool) (ipAddress : String) (port : Nat) (sock : SocketScript)
  | callGetProperties (sock : SocketScript)
  | callIsInMusicMode (deviceCheck : Bool) (sock : SocketScript) (streamConnected : Bool)
  | callSetInError
  | callSetDebuglevel (level : Int)

/-- The light, the socket calls and the built commands after one call. -/
structure Trace where
  light : YeelightLight
  events : List SocketEvent
  built : List Command

/-- The effect of an `Outcome` on a trace. -/
def Trace.ofOutcome {α : Type} (o : Outcome α) : Trace := ⟨o.light, o.events, o.built⟩

/-- One call on a light. -/
def Op.apply (getHsv : ColorRgb → Int × Int × Int) (s : YeelightLight) : Op → Trace
  | .callOpen waitForConnected connected => Trace.ofOutcome (s.open waitForConnected connected)
  | .callClose => Trace.ofOutcome s.close
  | .callWriteCommand sock command =>
    ⟨(s.writeCommand sock command).light, (s.writeCommand sock command).events, []⟩
  | .callStreamCommand sock command =>
    ⟨(s.streamCommand sock command).light, (s.streamCommand sock command).events, []⟩
  | .callSetHostname hostname port => ⟨s.setHostname hostname port, [], []⟩
  | .callSetStreamSocket socket => ⟨s.setStreamSocket socket, [], []⟩
  | .callSetPower onFlag effect duration mode sock =>
    Trace.ofOutcome (s.setPower onFlag effect duration mode sock)
  | .callSetColorRGB color sock => Trace.ofOutcome (s.setColorRGB color sock)
  | .callSetColorHSV color sock => Trace.ofOutcome (s.setColorHSV getHsv color sock)
  | .callSetTransitionEffect effect duration => ⟨s.setTransitionEffect effect duration, [], []⟩
  | .callSetBrightnessConfig min max switchoff extraTime factor =>
    ⟨s.setBrightnessConfig min max switchoff extraTime factor, [], []⟩
  | .callSetMusicMode onFlag ipAddress port sock =>
    Trace.ofOutcome (s.setMusicMode onFlag ipAddress port sock)
  | .callGetProperties sock => Trace.ofOutcome (s.getProperties sock)
  | .callIsInMusicMode deviceCheck sock streamConnected =>
    Trace.ofOutcome (s.isInMusicMode deviceCheck sock streamConnected)
  | .callSetInError => ⟨s.setInError, [], []⟩
  | .callSetDebuglevel level => ⟨s.setDebuglevel level, [], []⟩

/-- A sequence of calls on a light, one after the other. -/
def run (getHsv : ColorRgb → Int × Int × Int) : YeelightLight → List Op → Trace
  | s, [] => ⟨s, [], []⟩
  | s, op :: ops =>
    let first := op.apply getHsv s
    let others := run getHsv first.light ops
    ⟨others.light, first.events ++ others.events, first.built ++ others.built⟩

/-- What calls do to the correlation counter, starting from the value `c`: it grows by the
number of commands built, and the command built at position `i` carries `c + i + 1`, both as
C++ `int` values (`wrapInt32`). -/
def IdsFrom (c : Int) (t : Trace) : Prop :=
  t.light._correlationID = wrapInt32 (c + t.built.length) ∧
    ∀ (i : Nat) (cmd : Command), t.built[i]? = some cmd → cmd.id = wrapInt32 (c + i + 1)

/-- Number of `write` calls among socket calls: the commands put on the network. -/
def writeCount : List SocketEvent → Nat
  | [] => 0
  | SocketEvent.write _ _ :: rest => writeCount rest + 1
  | _ :: rest => writeCount rest

/-- The lights of a device (`_lights`) after a response line is handled by the light at
position `i`: `handleResponse` is a member function and works on that light. -/
def handleResponseAt (lights : List YeelightLight) (i : Nat) (correlationID : Int)
    (response : ResponseLine) : List YeelightLight :=
  match lights[i]? with
  | some s => lights.set i (s.handleResponse correlationID response).2
  | none => lights

/-! ## The device: an array of lights -/

/-- The pieces of a text between separators, empty pieces included. -/
def splitParts (sep : Char) : List Char → List (List Char)
  | [] => [[]]
  | c :: cs =>
    if c = sep then [] :: splitParts sep cs
    else
      match splitParts sep cs with
      | [] => [[c]]
      | part :: parts => (c :: part) :: parts

/-- Qt function `QString::split(sep, QString::SkipEmptyParts)`. -/
def qSplitSkipEmpty (s : String) (sep : Char) : List String :=
  ((splitParts sep s.toList).filter (fun part => !part.isEmpty)).map String.mk

/-- Qt function `QString::toUShort()`: the number when the text denotes an integer that fits an
`unsigned short`, else `0`. -/
def qStringToUShort (s : String) : Nat :=
  match parseInteger s with
  | some n => if 0 ≤ n ∧ n ≤ 65535 then n.toNat else 0
  | none => 0

/-- Modelled from the spec: the type `yeelightAddress` is not declared in the sources at hand;
it holds the host and the port of a light, and two addresses are equal when both are. -/
structure yeelightAddress where
  host : String
  port : Nat
deriving DecidableEq, Repr

/-- The address parsing of `init` (lines 871-885) and `discoverDevice` (lines 1031-1045): the
text is split at colons, the first part is the host and the second, when there is one, the
port; `none` stands for the access `addressparts[0]` to an empty list, which the C++ does not
guard. -/
def parseAddress (address : String) : Option yeelightAddress :=
  match qSplitSkipEmpty address ':' with
  | [] => none
  | hostAddress :: rest =>
    some ⟨hostAddress,
      match rest with
      | [] => API_DEFAULT_PORT
      | apiPort :: _ => qStringToUShort apiPort⟩

/-- The values `init` reads from the configuration (lines 789-829): the settings of the
device and the array of configured lights, each an object with the members ip and name. -/
structure DeviceConfig where
  colorModel : Int
  transEffect : API_EFFECT
  transTime : Int
  extraTimeDarkness : Int
  brightnessMin : Int
  brightnessSwitchOff : Bool
  brightnessMax : Int
  brightnessFactor : Double
  debugLevel : Int
  lights : List JsonValue

/-- The data members of a `LedDeviceYeelight`. The first five are members of the base class
`LedDevice`; the music mode server address is the empty text when null, and
`_tcpMusicModeServer` tells whether the server object has been allocated. -/
structure LedDeviceYeelight where
  _devConfig : DeviceConfig
  _ledCount : Nat
  _deviceReady : Bool
  _enabled : Bool
  _deviceInError : Bool
  _lightsAddressList : List yeelightAddress
  _lights : List YeelightLight
  _lightsCount : Nat
  _outputColorModel : Int
  _transitionEffect : API_EFFECT
  _transitionDuration : Int
  _extraTimeDarkness : Int
  _brightnessMin : Int
  _isBrightnessSwitchOffMinimum : Bool
  _brightnessMax : Int
  _brightnessFactor : Double
  _debuglevel : Int
  _musicModeServerAddress : String
  _musicModeServerPort : Nat
  _tcpMusicModeServer : Bool

/-- What the collaborators of `init` deliver: the return value of `LedDevice::init` and the LED
count it leaves, the address found by the discovery (the empty text when no device is found),
and the constant `API_PARAM_EXTRA_TIME_DARKNESS` used by the constructor of the lights. -/
structure InitScript where
  isInitOK : Bool
  ledCount : Nat
  discovered : String
  extraTimeDarkness : Int

/-- What the music mode server does in `openMusicModeServer`: whether `listen` succeeds, the
first local IPv4 address that is not the local host, if any, and the server port. -/
structure ServerScript where
  listen : Bool
  address : Option String
  port : Nat

/-- What the sockets of one light do while the device is opened. -/
structure OpenScript where
  waitForConnected : Bool
  connected : Bool
  properties : SocketScript

/-- What happens around one light during one `write`: whether its stream socket is in the
connected state, the behaviour of the control socket for the `set_music` command, the
connection the music mode server accepts within the streaming timeout (`none`: the wait
times out), and the behaviour of the socket that takes the colour command. -/
structure FrameScript where
  streamConnected : Bool
  music : SocketScript
  newConnection : Option Nat
  color : SocketScript

/-- Outcome of `LedDeviceYeelight::write`: the return value (`none` when `ledValues.at` throws
`std::out_of_range`), the lights, the socket calls and the built commands. -/
structure WriteFrame where
  rc : Option Int
  lights : List YeelightLight
  events : List SocketEvent
  built : List Command

namespace LedDeviceYeelight

/-- The constructor `LedDeviceYeelight::LedDeviceYeelight` (lines 736-752); the base class
starts with no LEDs, not enabled and not in error. -/
def ctor (deviceConfig : DeviceConfig) : LedDeviceYeelight :=
  { _devConfig := deviceConfig
    _ledCount := 0
    _deviceReady := false
    _enabled := false
    _deviceInError := false
    _lightsAddressList := []
    _lights := []
    _lightsCount := 0
    _outputColorModel := 0
    _transitionEffect := API_EFFECT.API_EFFECT_SMOOTH
    _transitionDuration := API_PARAM_DURATION
    _extraTimeDarkness := 0
    _brightnessMin := 0
    _isBrightnessSwitchOffMinimum := false
    _brightnessMax := 100
    _brightnessFactor := Double.one
    _debuglevel := 0
    _musicModeServerAddress := ""
    _musicModeServerPort := 0
    _tcpMusicModeServer := false }

/-- Modelled from the spec: `LedDevice::setInError` of the base class is not in the sources;
it puts the array in error, so that it is neither ready nor enabled. -/
def setInError (dev : LedDeviceYeelight) : LedDeviceYeelight :=
  { dev with _deviceInError := true, _deviceReady := false, _enabled := false }

/-- Modelled from the spec: `LedDevice::setEnable` of the base class is not in the sources; it
sets the enable/disable flag the base class exposes. -/
def setEnable (dev : LedDeviceYeelight) (enable : Bool) : LedDeviceYeelight :=
  { dev with _enabled := enable }

/-- Modelled from the spec: `LedDevice::getLedCount` of the base class is not in the sources;
it returns the member `_ledCount`, which `discoverDevice` assigns. -/
def getLedCount (dev : LedDeviceYeelight) : Nat := dev._ledCount

/-- Member function `discoverDevice` (lines 1008-1060); `address` is what the discovery
returns. The result is `none` when the address parsing fails. -/
def discoverDevice (dev : LedDeviceYeelight) (address : String) :
    Option (Bool × LedDeviceYeelight) :=
  if address.isEmpty then some (false, dev)
  else
    match parseAddress address with
    | none => none
    | some found =>
      let list := ([] : List yeelightAddress) ++ [found]
      let dev1 := { dev with _lightsAddressList := list, _ledCount := list.length }
      let dev2 := if dev1.getLedCount = 0 then dev1.setInError else dev1
      some (true, dev2)

/-- Member function `updateLights` (lines 1062-1089): when the address list is not empty, the
lights are rebuilt, one new light for every address of the list that `list` contains. -/
def updateLights (extraTimeDarkness : Int) (dev : LedDeviceYeelight)
    (list : List yeelightAddress) : LedDeviceYeelight :=
  if !dev._lightsAddressList.isEmpty then
    let lights := dev._lightsAddressList.filterMap (fun address =>
      if list.contains address then
        some (YeelightLight.ctor extraTimeDarkness address.host address.port)
      else none)
    { dev with _lights := lights, _lightsCount := lights.length }
  else dev

/-- The text `configuredYeelightLights[i].toObject().value("ip").toString()` of `init`
(line 869). -/
def configuredAddress (configured : List JsonValue) (i : Nat) : String :=
  (((configured.getD i JsonValue.null).toObject.value "ip").getD JsonValue.null).toString

/-- The loop of `init` over the configured lights (lines 867-886): the addresses of the lights
at the positions `i`, `i + 1`, ... (`count` of them) are parsed and appended to the list. -/
def appendConfigured (configured : List JsonValue) :
    Nat → Nat → List yeelightAddress → Option (List yeelightAddress)
  | _, 0, list => some list
  | i, count + 1, list =>
    match parseAddress (configuredAddress configured i) with
    | none => none
    | some address => appendConfigured configured (i + 1) count (list ++ [address])

/-- Modelled from the spec: `LedDevice::init` of the base class is not in the sources; it
returns `isInitOK` and leaves the LED count of the configuration in `_ledCount`. -/
def baseInit (dev : LedDeviceYeelight) (script : InitScript) : Bool × LedDeviceYeelight :=
  (script.isInitOK, { dev with _ledCount := script.ledCount })

/-- The assignments of `init` from the configuration (lines 789-811): colour model, transition
and debug level come from the argument, the brightness settings from `_devConfig`. -/
def readConfig (dev : LedDeviceYeelight) (deviceConfig : DeviceConfig) : LedDeviceYeelight :=
  { dev with
    _outputColorModel := deviceConfig.colorModel
    _transitionEffect := deviceConfig.transEffect
    _transitionDuration := deviceConfig.transTime
    _extraTimeDarkness := dev._devConfig.extraTimeDarkness
    _brightnessMin := dev._devConfig.brightnessMin
    _isBrightnessSwitchOffMinimum := dev._devConfig.brightnessSwitchOff
    _brightnessMax := dev._devConfig.brightnessMax
    _brightnessFactor := dev._devConfig.brightnessFactor
    _debuglevel := deviceConfig.debugLevel }

/-- Member function `init` (lines 767-892): the return value and the device afterwards, `none`
when an address parsing fails. -/
def init (dev : LedDeviceYeelight) (deviceConfig : DeviceConfig) (script : InitScript) :
    Option (Bool × LedDeviceYeelight) :=
  let base := dev.baseInit script
  let isInitOK := base.1
  let dev1 := base.2.readConfig deviceConfig
  let configuredYeelightLights := dev1._devConfig.lights
  let configuredYeelightsCount := configuredYeelightLights.length
  match (if isInitOK then (dev1.discoverDevice script.discovered).map (fun r => r.2)
      else some dev1) with
  | none => none
  | some dev2 =>
    let configuredLedCount := dev2.getLedCount
    if configuredYeelightsCount < configuredLedCount then
      some (false, dev2.setInError)
    else
      match appendConfigured configuredYeelightLights 0 configuredLedCount
          dev2._lightsAddressList with
      | none => none
      | some list =>
        let dev3 := { dev2 with _lightsAddressList := list }
        some (isInitOK, updateLights script.extraTimeDarkness dev3 dev3._lightsAddressList)

/-- Member function `openMusicModeServer` (lines 894-933). -/
def openMusicModeServer (dev : LedDeviceYeelight) (server : ServerScript) :
    Bool × LedDeviceYeelight :=
  let dev1 := { dev with _tcpMusicModeServer := true }
  if !server.listen then (false, dev1)
  else
    let dev2 :=
      match server.address with
      | some address => { dev1 with _musicModeServerAddress := address }
      | none => dev1
    if dev2._musicModeServerAddress.isEmpty then (false, dev2)
    else (true, { dev2 with _musicModeServerPort := server.port })

/-- The body of the loop of `open` over the lights (lines 950-967): the light is configured
and opened and, when it is ready, its properties are read. -/
def openLight (dev : LedDeviceYeelight) (light : YeelightLight) (script : OpenScript) :
    YeelightLight :=
  let configured := ((light.setTransitionEffect dev._transitionEffect dev._transitionDuration
    ).setBrightnessConfig dev._brightnessMin dev._brightnessMax
      dev._isBrightnessSwitchOffMinimum dev._extraTimeDarkness dev._brightnessFactor
    ).setDebuglevel dev._debuglevel
  let opened := (configured.open script.waitForConnected script.connected).light
  if opened.isReady then (opened.getProperties script.properties).light else opened

/-- The loop of `open` over the lights, the light at position `i` with the script `scripts i`. -/
def openLights (dev : LedDeviceYeelight) (scripts : Nat → OpenScript) :
    Nat → List YeelightLight → List YeelightLight
  | _, [] => []
  | i, light :: rest => openLight dev light (scripts i) :: openLights dev scripts (i + 1) rest

/-- The body of the loop of `write` (lines 1100-1129) for one light and its colour. -/
def writeLight (getHsv : ColorRgb → Int × Int × Int) (dev : LedDeviceYeelight)
    (light : YeelightLight) (color : ColorRgb) (frame : FrameScript) : Trace :=
  if light.isReady then
    let probe := light.isInMusicMode false frame.music frame.streamConnected
    let negotiated : Trace :=
      if !probe.rc then
        let music := probe.light.setMusicMode true dev._musicModeServerAddress
          dev._musicModeServerPort frame.music
        match frame.newConnection with
        | some socket => ⟨music.light.setStreamSocket (some socket), music.events, music.built⟩
        | none => ⟨music.light.setInError, music.events, music.built⟩
      else ⟨probe.light, [], []⟩
    let sent :=
      if dev._outputColorModel = 1 then negotiated.light.setColorRGB color frame.color
      else negotiated.light.setColorHSV getHsv color frame.color
    ⟨sent.light, negotiated.events ++ sent.events, negotiated.built ++ sent.built⟩
  else
    ⟨light, [], []⟩

/-- The loop of `write` over the lights: the light at position `idx` gets the colour
`ledValues.at(idx)` and the script `frames idx`. -/
def writeLoop (getHsv : ColorRgb → Int × Int × Int) (dev : LedDeviceYeelight)
    (ledValues : List ColorRgb) (frames : Nat → FrameScript) :
    Nat → List YeelightLight → WriteFrame
  | _, [] => ⟨some 0, [], [], []⟩
  | idx, light :: rest =>
    match ledValues[idx]? with
    | none => ⟨none, light :: rest, [], []⟩
    | some color =>
      let first := writeLight getHsv dev light color (frames idx)
      let others := writeLoop getHsv dev ledValues frames (idx + 1) rest
      ⟨others.rc, first.light :: others.lights, first.events ++ others.events,
        first.built ++ others.built⟩

/-- Member function `write` (lines 1091-1136): the outcome and the device afterwards. -/
def write (getHsv : ColorRgb → Int × Int × Int) (dev : LedDeviceYeelight)
    (ledValues : List ColorRgb) (frames : Nat → FrameScript) :
    WriteFrame × LedDeviceYeelight :=
  let frame := writeLoop getHsv dev ledValues frames 0 dev._lights
  (frame, { dev with _lights := frame.lights })

end LedDeviceYeelight

/-- Member function `open` (lines 935-988): the return value and the device afterwards, `none`
when an address parsing of `init` fails. -/
def LedDeviceYeelight.open (dev : LedDeviceYeelight) (script : InitScript)
    (server : ServerScript) (scripts : Nat → OpenScript) : Option (Int × LedDeviceYeelight) :=
  let dev0 := { dev with _deviceReady := false }
  match dev0.init dev0._devConfig script with
  | none => none
  | some (isInitOK, dev1) =>
    if isInitOK then
      if !dev1._lights.isEmpty then
        let served := dev1.openMusicModeServer server
        if served.1 then
          let dev2 := { served.2 with
            _lights := LedDeviceYeelight.openLights served.2 scripts 0 served.2._lights }
          if !dev2._lights.isEmpty then
            some (0, { dev2 with _deviceReady := true }.setEnable true)
          else
            some (-1, dev2.setInError)
        else some (-1, served.2)
      else some (-1, dev1)
    else some (-1, dev1)

/-! ## The colour conversion of Qt -/

/-- Modelled from the spec: `QColor::getHsv` of Qt is not in the sources. It is the standard
cylindrical transform as Qt computes it on 16-bit channels (a channel `c` is held as
`c * 257`): the value is the greatest channel, the saturation is the spread over the greatest
channel scaled to `0..65535` and rounded, the hue is an angle in hundredths of a degree,
rounded; saturation and value are returned shifted down by 8 bits and the hue in whole
degrees, `-1` for a colour without spread. -/
def qColorGetHsv (color : ColorRgb) : Int × Int × Int :=
  let r : Int := color.red.val
  let g : Int := color.green.val
  let b : Int := color.blue.val
  let mx := max r (max g b)
  let mn := min r (min g b)
  let delta := mx - mn
  let value := (mx * 257) / 256
  if delta = 0 then (-1, 0, value)
  else
    let saturation := ((2 * 65535 * delta + mx) / (2 * mx)) / 256
    let sector :=
      if r = mx then g - b
      else if g = mx then 2 * delta + (b - r)
      else 4 * delta + (r - g)
    let turned := if sector < 0 then sector + 6 * delta else sector
    let hue := ((12000 * turned + delta) / (2 * delta)) / 100
    (hue, saturation, value)

/-! ## Concrete inputs -/

/-- A newly constructed light. -/
def demoLight : YeelightLight := YeelightLight.ctor 0 "192.168.0.10" API_DEFAULT_PORT

/-- The response line with the given id and the result array holding the string ok. -/
def okLine (id : Int) : ResponseLine :=
  some (JsonValue.object [("id", JsonValue.number id),
    ("result", JsonValue.array [JsonValue.string "ok"])])

/-- A socket that takes the command and answers with `okLine id`. -/
def okSocket (id : Int) : SocketScript := ⟨true, 64, true, [[okLine id]]⟩

/-- The double `0.5`. -/
def Double.half : Double := ⟨1, -1⟩

/-- The light of the counterexample to C2: brightness floor 150, ceiling 100, factor 1.0. -/
def floor150Light : YeelightLight := demoLight.setBrightnessConfig 150 100 false 0 Double.one

/-- A light with floor 0, ceiling 200 and factor 2.0. -/
def ceiling200Light : YeelightLight := demoLight.setBrightnessConfig 0 200 false 0 ⟨2, 0⟩

/-- A light with floor 0, ceiling 100 and factor -1.0. -/
def negativeFactorLight : YeelightLight := demoLight.setBrightnessConfig 0 100 false 0 ⟨-1, 0⟩

/-- A light with floor 0, ceiling -5 and factor 1.0. -/
def negativeCeilingLight : YeelightLight :=
  demoLight.setBrightnessConfig 0 (-5) false 0 Double.one

/-- A light with floor 50 above its ceiling 40, factor 1.0. -/
def floorAboveCeilingLight : YeelightLight :=
  demoLight.setBrightnessConfig 50 40 false 0 Double.one

/-- The light of the witness of C2: floor 10, ceiling 90, factor 1.0. -/
def range10to90Light : YeelightLight := demoLight.setBrightnessConfig 10 90 false 0 Double.one

/-- The light of the counterexample to C3: floor 10, ceiling 90, factor 0.5. -/
def halfFactorLight : YeelightLight := demoLight.setBrightnessConfig 10 90 false 0 Double.half

/-- The light of the witness of C4: floor 10, switch-off at minimum, 400 ms of extra time. -/
def switchOffLight : YeelightLight := demoLight.setBrightnessConfig 10 100 true 400 Double.one

/-- A notification line: the properties message a device sends on its own. -/
def propsNotification : ResponseLine :=
  some (JsonValue.object [("method", JsonValue.string "props"),
    ("params", JsonValue.object [("power", JsonValue.string "on")])])

/-- A run of calls on a light: open it, read its properties, set a colour, switch it off. -/
def demoCalls : List Op :=
  [Op.callOpen true true, Op.callGetProperties (okSocket 1),
    Op.callSetColorRGB ⟨255, 0, 0⟩ (okSocket 2),
    Op.callSetPower false API_EFFECT.API_EFFECT_SMOOTH API_PARAM_DURATION_POWERONOFF
      API_MODE.API_RGB_MODE (okSocket 3)]

/-- The power-off command of `demoCalls`. -/
def powerOffCommand : Command :=
  ⟨3, "set_power", [JsonValue.string "off", JsonValue.string "smooth",
    JsonValue.number (1000 : Int), JsonValue.number (2 : Int)]⟩

/-- The command of the witnesses of C3 and C5. -/
def red90Command : Command :=
  ⟨1, "set_scene", [JsonValue.string "color", JsonValue.number (16711680 : Int),
    JsonValue.number (90 : Int), JsonValue.string "smooth", JsonValue.number (50 : Int)]⟩

/-- The command of the witness of C4. -/
def blackCommand : Command :=
  ⟨1, "set_scene", [JsonValue.string "color", JsonValue.number (1 : Int),
    JsonValue.number (0 : Int), JsonValue.string "smooth", JsonValue.number (450 : Int)]⟩

/-- The document of an error response with the given id and error code. -/
def errorLine (id code : Int) : JsonValue :=
  JsonValue.object [("id", JsonValue.number id),
    ("error", JsonValue.object [("code", JsonValue.number code),
      ("message", JsonValue.string "general error")])]

/-- A configured light: an object with the members ip and name. -/
def configuredLight (ip name : String) : JsonValue :=
  JsonValue.object [("ip", JsonValue.string ip), ("name", JsonValue.string name)]

/-- A configuration with the default settings of the device and the given lights. -/
def demoConfig (lights : List JsonValue) : DeviceConfig :=
  ⟨1, API_EFFECT.API_EFFECT_SMOOTH, 40, 0, 0, false, 100, Double.one, 0, lights⟩

/-- A new device with one configured light. -/
def oneLightDevice : LedDeviceYeelight :=
  LedDeviceYeelight.ctor (demoConfig [configuredLight "192.168.0.10:55443" "desk"])

/-- A new device with three configured lights, the second without a port. -/
def threeLightDevice : LedDeviceYeelight :=
  LedDeviceYeelight.ctor (demoConfig [configuredLight "192.168.0.10:55443" "desk",
    configuredLight "192.168.0.11" "shelf", configuredLight "192.168.0.12:55444" "door"])

/-- The base initialisation succeeds with two LEDs and the discovery finds no light. -/
def twoLedsNoDiscovery : InitScript := ⟨true, 2, "", 0⟩

/-- The base initialisation succeeds with two LEDs and the discovery finds a light. -/
def twoLedsDiscovery : InitScript := ⟨true, 2, "192.168.0.20:55443", 0⟩

/-- A music mode server that listens on port 40000 of the local address 192.168.0.2. -/
def serverUp : ServerScript := ⟨true, some "192.168.0.2", 40000⟩

/-- A light whose connection is not made within the connect timeout. -/
def failOpen : OpenScript := ⟨false, false, okSocket 1⟩

/-- A light that connects and answers the request for its properties. -/
def goodOpen : OpenScript := ⟨true, true, okSocket 1⟩

/-- A light after a successful `open`: ready, without stream socket, not in music mode. -/
def readyLight : YeelightLight := (demoLight.open true true).light

/-- A device in RGB mode with the music mode server up and the given lights. -/
def servedDevice (lights : List YeelightLight) : LedDeviceYeelight :=
  { (oneLightDevice.openMusicModeServer serverUp).2 with
    _outputColorModel := 1, _lights := lights }

/-- A frame in which the light accepts the `set_music` command but no connection arrives at
the music mode server within the timeout. -/
def noConnectionFrame : FrameScript := ⟨false, okSocket 1, none, okSocket 2⟩

/-- A frame in which the light accepts `set_music`, connects to the server (handle 7) and
takes the colour command on the stream socket. -/
def connectionFrame : FrameScript := ⟨false, okSocket 1, some 7, okSocket 2⟩

/-- A light whose sticky error flag is set. -/
def erroredLight : YeelightLight := readyLight.setInError

/-- A light that is in music mode with the stream socket 7. -/
def streamingLight : YeelightLight :=
  { readyLight.setStreamSocket (some 7) with _isInMusicMode := true }

/-- A frame in which the stream socket is connected and takes the colour command. -/
def streamFrame : FrameScript := ⟨true, okSocket 1, none, okSocket 1⟩

/-- A socket that answers the property request with id 1 by a full result array. -/
def propsSocket : SocketScript :=
  ⟨true, 64, true, [[some (JsonValue.object [("id", JsonValue.number 1),
    ("result", JsonValue.array [JsonValue.string "desk", JsonValue.string "color",
      JsonValue.string "on", JsonValue.string "16711680", JsonValue.string "100",
      JsonValue.string "4000", JsonValue.string "18"])])]]⟩

open YeelightLight

/-! ## Lemmas on the double product -/

theorem le_roundHalfEven (n k : Nat) : n / 2 ^ k ≤ roundHalfEven n k := by
  unfold roundHalfEven
  simp only []
  split
  · exact le_refl _
  · split
    · exact Nat.le_succ _
    · split
      · exact le_refl _
      · exact Nat.le_succ _

theorem roundHalfEven_zero (n : Nat) : roundHalfEven n 0 = n := by
  simp [roundHalfEven, Nat.mod_one]

theorem excessBits_pos (fuel n : Nat) (h : 0 < excessBits fuel n) :
    2 ^ 52 ≤ n / 2 ^ excessBits fuel n := by
  induction fuel generalizing n with
  | zero => simp [excessBits] at h
  | succ fuel ih =>
    unfold excessBits at h ⊢
    by_cases hn : n < 2 ^ 53
    · rw [if_pos hn] at h
      exact absurd h (lt_irrefl 0)
    · rw [if_neg hn]
      by_cases hk : 0 < excessBits fuel (n / 2)
      · have h2 := ih (n / 2) hk
        rw [Nat.div_div_eq_div_mul, ← pow_succ'] at h2
        exact h2
      · have hz : excessBits fuel (n / 2) = 0 := by omega
        rw [hz]
        have h53 : (2 : Nat) ^ 53 = 2 * 2 ^ 52 := by norm_num
        have hn2 : 2 * 2 ^ 52 ≤ n := by rw [← h53]; exact not_lt.mp hn
        simp only [zero_add, pow_one]
        omega

/-- A non-negative factor times a non-negative `int` converts to a non-negative `int`. -/
theorem Double.trunc_mulInt_nonneg (f : Double) (x : Int) (hf : f.nonneg) (hx : 0 ≤ x) :
    0 ≤ (f.mulInt x).trunc := by
  have hp : 0 ≤ f.mant * x := mul_nonneg hf hx
  have hm : 0 ≤ (f.mulInt x).mant := by
    simp only [Double.mulInt]
    exact mul_nonneg (Int.sign_nonneg.mpr hp) (Int.ofNat_nonneg _)
  unfold Double.trunc
  split
  · exact mul_nonneg hm (pow_nonneg (by norm_num) _)
  · exact Int.tdiv_nonneg hm (pow_nonneg (by norm_num) _)

/-- A factor of at least `1.0` does not make a non-negative `int` smaller. -/
theorem Double.le_trunc_mulInt (f : Double) (x : Int) (hf : f.oneLe) (hx : 0 ≤ x)
    (hx2 : x ≤ 2 ^ 52) : x ≤ (f.mulInt x).trunc := by
  obtain ⟨m, e⟩ := f
  simp only [Double.oneLe] at hf
  have hm : 0 < m := by
    by_contra hneg
    have h1 : m * 2 ^ e.toNat ≤ 0 :=
      mul_nonpos_of_nonpos_of_nonneg (not_lt.mp hneg) (by positivity)
    have h2 : (0 : Int) < 2 ^ (-e).toNat := by positivity
    omega
  obtain ⟨M, rfl⟩ := Int.eq_ofNat_of_zero_le hm.le
  obtain ⟨n, rfl⟩ := Int.eq_ofNat_of_zero_le hx
  have hM : 0 < M := by exact_mod_cast hm
  by_cases hn : n = 0
  · subst hn
    exact Double.trunc_mulInt_nonneg _ _ hm.le le_rfl
  have hNpos : 0 < M * n := Nat.mul_pos hM (Nat.pos_of_ne_zero hn)
  have hN : ((M : Int) * (n : Int)) = ((M * n : Nat) : Int) := by push_cast; rfl
  have hsign : Int.sign ((M * n : Nat) : Int) = 1 :=
    Int.sign_eq_one_of_pos (by exact_mod_cast hNpos)
  have hR := le_roundHalfEven (M * n) (excessBits (M * n) (M * n))
  have hk := excessBits_pos (M * n) (M * n)
  have hk0 : excessBits (M * n) (M * n) = 0 →
      roundHalfEven (M * n) (excessBits (M * n) (M * n)) = M * n := by
    intro h0; rw [h0]; exact roundHalfEven_zero _
  simp only [Double.mulInt, Double.trunc, hN, Int.natAbs_ofNat, hsign, one_mul]
  generalize excessBits (M * n) (M * n) = k at hR hk hk0 ⊢
  generalize roundHalfEven (M * n) k = R at hR hk hk0 ⊢
  split
  · have hpow : (1 : Int) ≤ 2 ^ (e + (k : Int)).toNat := one_le_pow₀ (by norm_num)
    have hRle : (R : Int) ≤ (R : Int) * 2 ^ (e + (k : Int)).toNat :=
      le_mul_of_one_le_right (Int.ofNat_nonneg R) hpow
    refine le_trans ?_ hRle
    by_cases hkz : k = 0
    · rw [hk0 hkz]
      exact_mod_cast Nat.le_mul_of_pos_left n hM
    · have h52 := le_trans (hk (Nat.pos_of_ne_zero hkz)) hR
      have h52i : ((2 : Int) ^ 52) ≤ (R : Int) := by exact_mod_cast h52
      exact le_trans hx2 h52i
  · obtain ⟨d, hd⟩ : ∃ d : Nat, -(e + (k : Int)) = (d : Int) :=
      Int.eq_ofNat_of_zero_le (by omega)
    have he : e = -((d + k : Nat) : Int) := by push_cast; omega
    rw [hd, Int.toNat_ofNat]
    subst he
    simp only [neg_neg, Int.toNat_ofNat, Int.toNat_neg_nat, pow_zero, mul_one] at hf
    have hfN : 2 ^ (d + k) ≤ M := by exact_mod_cast hf
    have h2d : ((2 : Int) ^ d) = ((2 ^ d : Nat) : Int) := by push_cast; rfl
    rw [h2d, ← Int.ofNat_tdiv]
    have hgoal : n ≤ R / 2 ^ d := by
      refine le_trans ?_ (Nat.div_le_div_right hR)
      rw [Nat.div_div_eq_div_mul, Nat.le_div_iff_mul_le (by positivity)]
      calc n * (2 ^ k * 2 ^ d) = 2 ^ (d + k) * n := by rw [pow_add]; ring
        _ ≤ M * n := Nat.mul_le_mul_right n hfN
    exact_mod_cast hgoal

theorem excessBits_of_lt (fuel n : Nat) (h : n < 2 ^ 53) : excessBits fuel n = 0 := by
  cases fuel with
  | zero => rfl
  | succ fuel => simp only [excessBits, if_pos h]

/-- When the exact product fits the 53-bit significand nothing is rounded: the conversion to
`int` truncates the exact product `f.mant * x * 2 ^ f.exp`. -/
theorem Double.trunc_mulInt_exact (f : Double) (x : Int) (h : (f.mant * x).natAbs < 2 ^ 53) :
    (f.mulInt x).trunc =
      if 0 ≤ f.exp then f.mant * x * 2 ^ f.exp.toNat
      else Int.tdiv (f.mant * x) (2 ^ (-f.exp).toNat) := by
  simp only [Double.mulInt, Double.trunc, excessBits_of_lt _ _ h, roundHalfEven_zero,
    Int.sign_mul_natAbs, Nat.cast_zero, add_zero]

/-- The factor `1.0` leaves an `int` as it is. -/
theorem Double.trunc_one_mulInt (x : Int) (h : x.natAbs < 2 ^ 53) :
    (Double.one.mulInt x).trunc = x := by
  have h1 : (Double.one.mant * x).natAbs < 2 ^ 53 := by
    simpa [Double.one] using h
  rw [Double.trunc_mulInt_exact _ _ h1]
  simp [Double.one]

/-- Within the range of `int` the conversion to `int` is the truncation. -/
theorem Double.toInt_of_fitsInt (d : Double) (h : d.fitsInt) : d.toInt = d.trunc := by
  unfold Double.toInt
  rw [if_pos h]

/-- The conversion to `int` always delivers a value in the range of `int`. -/
theorem Double.isInt32_toInt (d : Double) : isInt32 d.toInt := by
  unfold Double.toInt
  split
  · assumption
  · exact ⟨le_refl _, by norm_num⟩

/-! ## Lemmas on `int` arithmetic -/

theorem wrapInt32_of_range (n : Int) (h1 : -2147483648 ≤ n) (h2 : n ≤ 2147483647) :
    wrapInt32 n = n := by
  unfold wrapInt32
  omega

theorem isInt32_wrapInt32 (n : Int) : isInt32 (wrapInt32 n) := by
  unfold isInt32 wrapInt32
  omega

theorem wrapInt32_wrapInt32_add (a b : Int) : wrapInt32 (wrapInt32 a + b) = wrapInt32 (a + b) := by
  unfold wrapInt32
  omega

/-- Outside the range of `int`: the 2147483648th command of a light gets the id
`-2147483648`, the duration `2147483647 + 1` is sent as `-2147483648`, and the products
`1e10 * 100` and `2^40 * 100` convert to `-2147483648`. -/
theorem int_overflow_samples :
    (({ demoLight with _correlationID := 2147483647 } : YeelightLight).getCommand
      "get_prop" []).1.id = -2147483648 ∧
    rgbDuration ({ demoLight with
      _brightnessMin := 10, _isBrightnessSwitchOffMinimum := true,
      _transitionDuration := 2147483647, _extraTimeDarkness := 1 } : YeelightLight) 0 =
      -2147483648 ∧
    ((⟨10000000000, 0⟩ : Double).mulInt 100).toInt = -2147483648 ∧
    ((⟨1, 40⟩ : Double).mulInt 100).toInt = -2147483648 := by
  refine ⟨by decide, by decide, by decide, by decide⟩

/-! ## The colour commands -/

/-- The commands built by `setColorRGB`: none when the colour parameter equals the last one
sent, else one `set_scene` command with the next correlation id. -/
theorem setColorRGB_built (s : YeelightLight) (color : ColorRgb) (sock : SocketScript) :
    (s.setColorRGB color sock).built =
      if rgbColorParam color ≠ s._colorRgbValue then
        [⟨wrapInt32 (s._correlationID + 1), API_METHOD_SETSCENE, rgbParamlist s color⟩]
      else [] := by
  unfold setColorRGB
  split
  · simp only [apply_ite Outcome.built, ite_self]
    rfl
  · rfl

/-- The commands built by `setColorHSV`. -/
theorem setColorHSV_built (getHsv : ColorRgb → Int × Int × Int) (s : YeelightLight)
    (color : ColorRgb) (sock : SocketScript) :
    (s.setColorHSV getHsv color sock).built =
      if some color ≠ s._color then
        [⟨wrapInt32 (s._correlationID + 1), API_METHOD_SETSCENE,
          hsvParamlist s (getHsv color)⟩]
      else [] := by
  unfold setColorHSV
  split
  · simp only [apply_ite Outcome.built, ite_self]
    rfl
  · rfl

theorem rgbColorParam_eq (color : ColorRgb) :
    rgbColorParam color =
      if color = ⟨0, 0, 0⟩ then 1
      else (color.red.val : Int) * 65536 + (color.green.val : Int) * 256 + (color.blue.val : Int) := by
  obtain ⟨r, g, b⟩ := color
  unfold rgbColorParam
  simp only [ColorRgb.mk.injEq]
  have hr := r.isLt
  have hg := g.isLt
  have hb := b.isLt
  by_cases h : r = 0 ∧ g = 0 ∧ b = 0
  · obtain ⟨rfl, rfl, rfl⟩ := h
    simp
  · rw [if_neg h, if_neg]
    intro h0
    apply h
    refine ⟨Fin.ext ?_, Fin.ext ?_, Fin.ext ?_⟩ <;> simp <;> omega

theorem rgbColorParam_ne_zero (color : ColorRgb) : rgbColorParam color ≠ 0 := by
  unfold rgbColorParam
  simp only []
  split
  · decide
  · assumption

theorem rgbRaw_eq (color : ColorRgb) :
    rgbRaw color = ((max color.red.val (max color.green.val color.blue.val) * 100 / 255 : Nat) : Int) := by
  unfold rgbRaw cDiv
  rw [Int.ofNat_tdiv]
  push_cast
  rfl

theorem rgbRaw_nonneg (color : ColorRgb) : 0 ≤ rgbRaw color := by
  rw [rgbRaw_eq]; exact Int.ofNat_nonneg _

theorem rgbRaw_le (color : ColorRgb) : rgbRaw color ≤ 100 := by
  rw [rgbRaw_eq]
  have hr := color.red.isLt
  have hg := color.green.isLt
  have hb := color.blue.isLt
  have : max color.red.val (max color.green.val color.blue.val) * 100 / 255 ≤ 100 := by
    omega
  exact_mod_cast this

/-- C1: every command that `setColorRGB` builds is a `set_scene` command of class `color`
whose colour parameter is `R * 65536 + G * 256 + B`, except for black `(0,0,0)`, for which it
is 1; the parameter is never 0. -/
theorem C1_setColorRGB_packed_colour (s : YeelightLight) (color : ColorRgb)
    (sock : SocketScript) (cmd : Command) (h : cmd ∈ (s.setColorRGB color sock).built) :
    cmd.method = "set_scene" ∧ cmd.params[0]? = some (JsonValue.string "color") ∧
    ∃ packed : Int, cmd.params[1]? = some (JsonValue.number packed) ∧
      packed = (if color = ⟨0, 0, 0⟩ then 1
        else (color.red.val : Int) * 65536 + (color.green.val : Int) * 256 + (color.blue.val : Int)) ∧
      packed ≠ 0 := by
  rw [setColorRGB_built] at h
  split at h
  · rw [List.mem_singleton] at h
    subst h
    exact ⟨rfl, rfl, rgbColorParam color, rfl, rgbColorParam_eq color, rgbColorParam_ne_zero color⟩
  · exact absurd h (List.not_mem_nil _)

/-- C1 at pure red on a new light: the command carries 16711680. -/
theorem C1_setColorRGB_packed_colour_witness :
    (⟨1, "set_scene", [JsonValue.string "color", JsonValue.number (16711680 : Int),
        JsonValue.number (100 : Int), JsonValue.string "smooth", JsonValue.number (50 : Int)]⟩ : Command)
      ∈ (demoLight.setColorRGB ⟨255, 0, 0⟩ (okSocket 1)).built ∧
    ∃ packed : Int, (some (JsonValue.number (16711680 : Int)) : Option JsonValue) = some (JsonValue.number packed) ∧
      packed = 16711680 ∧ packed ≠ 0 :=
  ⟨List.mem_singleton.mpr rfl,
    (C1_setColorRGB_packed_colour demoLight ⟨255, 0, 0⟩ (okSocket 1) _ (List.mem_singleton.mpr rfl)).2.2⟩

theorem hsvScale_nonneg (v : Int) (hv : 0 ≤ v) : 0 ≤ hsvScale v := by
  unfold hsvScale cDiv
  exact Int.tdiv_nonneg (by omega) (by norm_num)

/-- The brightness of the RGB path lies in `[0,100]` when the configured bounds do and the
factor is not negative. -/
theorem rgbBri_range (s : YeelightLight) (raw : Int) (hraw : 0 ≤ raw)
    (hmin : s._brightnessMin ≤ 100) (hmax0 : 0 ≤ s._brightnessMax)
    (hmax : s._brightnessMax ≤ 100) (hf : s._brightnessFactor.nonneg)
    (hfit : s._brightnessMin ≤ raw →
      (s._brightnessFactor.mulInt (max s._brightnessMin raw)).fitsInt) :
    0 ≤ rgbBri s raw ∧ rgbBri s raw ≤ 100 := by
  unfold rgbBri
  split
  · split
    · exact ⟨le_refl _, by norm_num⟩
    · exact ⟨by omega, hmin⟩
  · rename_i hge
    have hx : 0 ≤ max s._brightnessMin raw := le_trans hraw (le_max_right _ _)
    have hT := Double.trunc_mulInt_nonneg _ _ hf hx
    rw [Double.toInt_of_fitsInt _ (hfit (not_lt.mp hge))]
    exact ⟨le_min hmax0 hT, le_trans (min_le_left _ _) hmax⟩

theorem hsvBri_eq_rgbBri (s : YeelightLight) (bri : Int) : hsvBri s bri = rgbBri s bri := rfl

theorem hsvDuration_eq_rgbDuration (s : YeelightLight) (bri : Int) :
    hsvDuration s bri = rgbDuration s bri := rfl

/-- C2, amended: when the configured `brightnessMin` is at most 100, `brightnessMax` lies in
`[0,100]`, `brightnessFactor` is not negative and the product
`brightnessFactor * max(brightnessMin, raw)` of line 563, truncated, lies in the range of
`int` (so that its conversion to `int` is defined), the brightness that `setColorRGB` puts
into its command lies in `[0,100]`, and so does the brightness that `setColorHSV` puts into
its command (the value component delivered by `QColor::getHsv` lying in `0..255`). -/
theorem C2_brightness_in_0_100 (s : YeelightLight) (color : ColorRgb) (sock : SocketScript)
    (hmin : s._brightnessMin ≤ 100) (hmax0 : 0 ≤ s._brightnessMax)
    (hmax : s._brightnessMax ≤ 100) (hf : s._brightnessFactor.nonneg) :
    ((s._brightnessMin ≤ rgbRaw color →
        (s._brightnessFactor.mulInt (max s._brightnessMin (rgbRaw color))).fitsInt) →
      ∀ cmd ∈ (s.setColorRGB color sock).built,
        ∃ bri : Int, cmd.params[2]? = some (JsonValue.number bri) ∧ 0 ≤ bri ∧ bri ≤ 100) ∧
    (∀ getHsv : ColorRgb → Int × Int × Int,
      0 ≤ (getHsv color).2.2 → (getHsv color).2.2 ≤ 255 →
      (s._brightnessMin ≤ hsvScale (getHsv color).2.2 →
        (s._brightnessFactor.mulInt
          (max s._brightnessMin (hsvScale (getHsv color).2.2))).fitsInt) →
      ∀ cmd ∈ (s.setColorHSV getHsv color sock).built,
        ∃ bri : Int, cmd.params[3]? = some (JsonValue.number bri) ∧ 0 ≤ bri ∧ bri ≤ 100) := by
  constructor
  · intro hfit cmd h
    rw [setColorRGB_built] at h
    split at h
    · rw [List.mem_singleton] at h
      subst h
      exact ⟨rgbBri s (rgbRaw color), rfl,
        rgbBri_range s _ (rgbRaw_nonneg color) hmin hmax0 hmax hf hfit⟩
    · exact absurd h (List.not_mem_nil _)
  · intro getHsv hv _ hfit cmd h
    rw [setColorHSV_built] at h
    split at h
    · rw [List.mem_singleton] at h
      subst h
      exact ⟨hsvBri s (hsvScale (getHsv color).2.2), rfl,
        rgbBri_range s _ (hsvScale_nonneg _ hv) hmin hmax0 hmax hf hfit⟩
    · exact absurd h (List.not_mem_nil _)

/-- C2 fails as stated: with `brightnessMin = 150` (and switch-off at minimum disabled) the
command for black carries the brightness 150, outside `[0,100]`. The other bounds are needed
as well: white is sent with brightness 200 under ceiling 200 and factor 2.0, with -100 under
factor -1.0, and with -5 under ceiling -5. -/
theorem C2_counterexample :
    ((floor150Light.setColorRGB ⟨0, 0, 0⟩ (okSocket 1)).built =
      [⟨1, "set_scene", [JsonValue.string "color", JsonValue.number (1 : Int),
        JsonValue.number (150 : Int), JsonValue.string "smooth", JsonValue.number (50 : Int)]⟩] ∧
    ¬ (∀ cmd ∈ (floor150Light.setColorRGB ⟨0, 0, 0⟩ (okSocket 1)).built,
      ∃ bri : Int, cmd.params[2]? = some (JsonValue.number bri) ∧ 0 ≤ bri ∧ bri ≤ 100)) ∧
    (ceiling200Light.setColorRGB ⟨255, 255, 255⟩ (okSocket 1)).built =
      [⟨1, "set_scene", [JsonValue.string "color", JsonValue.number (16777215 : Int),
        JsonValue.number (200 : Int), JsonValue.string "smooth", JsonValue.number (50 : Int)]⟩] ∧
    (negativeFactorLight.setColorRGB ⟨255, 255, 255⟩ (okSocket 1)).built =
      [⟨1, "set_scene", [JsonValue.string "color", JsonValue.number (16777215 : Int),
        JsonValue.number (-100 : Int), JsonValue.string "smooth", JsonValue.number (50 : Int)]⟩] ∧
    (negativeCeilingLight.setColorRGB ⟨255, 255, 255⟩ (okSocket 1)).built =
      [⟨1, "set_scene", [JsonValue.string "color", JsonValue.number (16777215 : Int),
        JsonValue.number (-5 : Int), JsonValue.string "smooth", JsonValue.number (50 : Int)]⟩] := by
  refine ⟨⟨rfl, fun hall => ?_⟩, rfl, rfl, rfl⟩
  obtain ⟨bri, hb, _, hle⟩ := hall _ (List.mem_singleton.mpr rfl)
  have h150 : ((150 : Int) : ℚ) = (bri : ℚ) := JsonValue.number.inj (Option.some.inj hb)
  have h150i : (150 : Int) = bri := by exact_mod_cast h150
  omega

/-- C2 (amended) at pure red with floor 10, ceiling 90 and factor 1.0: the product 100 fits
an `int`. -/
theorem C2_brightness_in_0_100_witness :
    range10to90Light._brightnessMin ≤ 100 ∧ 0 ≤ range10to90Light._brightnessMax ∧
    range10to90Light._brightnessMax ≤ 100 ∧ range10to90Light._brightnessFactor.nonneg ∧
    (range10to90Light._brightnessFactor.mulInt
      (max range10to90Light._brightnessMin (rgbRaw ⟨255, 0, 0⟩))).fitsInt ∧
    (∀ cmd ∈ (range10to90Light.setColorRGB ⟨255, 0, 0⟩ (okSocket 1)).built,
      ∃ bri : Int, cmd.params[2]? = some (JsonValue.number bri) ∧ 0 ≤ bri ∧ bri ≤ 100) ∧
    (∀ cmd ∈ (range10to90Light.setColorHSV (fun _ => (0, 255, 255)) ⟨255, 0, 0⟩
        (okSocket 1)).built,
      ∃ bri : Int, cmd.params[3]? = some (JsonValue.number bri) ∧ 0 ≤ bri ∧ bri ≤ 100) :=
  ⟨by decide, by decide, by decide, by decide, by decide,
    (C2_brightness_in_0_100 range10to90Light ⟨255, 0, 0⟩ (okSocket 1)
      (by decide) (by decide) (by decide) (by decide)).1 (fun _ => by decide),
    (C2_brightness_in_0_100 range10to90Light ⟨255, 0, 0⟩ (okSocket 1)
      (by decide) (by decide) (by decide) (by decide)).2 (fun _ => (0, 255, 255))
      (by decide) (by decide) (fun _ => by decide)⟩

/-- C3 fails as stated: with floor 10, ceiling 90 and factor 0.5 the colour `(26,0,0)` has the
raw brightness 10, which is not below the floor, and the command carries the brightness 5,
below the floor. A floor above the ceiling breaks the range as well: with floor 50 and
ceiling 40 black is sent with brightness 50. -/
theorem C3_counterexample :
    (rgbRaw ⟨26, 0, 0⟩ = 10 ∧
    ¬ (rgbRaw ⟨26, 0, 0⟩ < halfFactorLight._brightnessMin ∧
        halfFactorLight._isBrightnessSwitchOffMinimum = true) ∧
    (halfFactorLight.setColorRGB ⟨26, 0, 0⟩ (okSocket 1)).built =
      [⟨1, "set_scene", [JsonValue.string "color", JsonValue.number (1703936 : Int),
        JsonValue.number (5 : Int), JsonValue.string "smooth", JsonValue.number (50 : Int)]⟩] ∧
    ¬ (∀ cmd ∈ (halfFactorLight.setColorRGB ⟨26, 0, 0⟩ (okSocket 1)).built,
      ∃ bri : Int, cmd.params[2]? = some (JsonValue.number bri) ∧
        halfFactorLight._brightnessMin ≤ bri ∧ bri ≤ halfFactorLight._brightnessMax)) ∧
    (floorAboveCeilingLight.setColorRGB ⟨0, 0, 0⟩ (okSocket 1)).built =
      [⟨1, "set_scene", [JsonValue.string "color", JsonValue.number (1 : Int),
        JsonValue.number (50 : Int), JsonValue.string "smooth", JsonValue.number (50 : Int)]⟩] := by
  refine ⟨⟨by decide, by decide, rfl, fun hall => ?_⟩, rfl⟩
  obtain ⟨bri, hb, hge, _⟩ := hall _ (List.mem_singleton.mpr rfl)
  have h5 : ((5 : Int) : ℚ) = (bri : ℚ) := JsonValue.number.inj (Option.some.inj hb)
  have h5i : (5 : Int) = bri := by exact_mod_cast h5
  have hmin : halfFactorLight._brightnessMin = 10 := rfl
  omega

/-- C3, amended: outside the forced-darkness case the brightness that `setColorRGB` sends
equals `brightnessMin` when the raw brightness is below it, and is at most `brightnessMax`
when the raw brightness is at least `brightnessMin`; it lies in
`[brightnessMin, brightnessMax]` whenever `brightnessMin <= brightnessMax`,
`brightnessFactor >= 1` and the product `brightnessFactor * max(brightnessMin, raw)` of line
563, truncated, lies in the range of `int` (so that its conversion to `int` is defined). -/
theorem C3_brightness_within_bounds (s : YeelightLight) (color : ColorRgb) (sock : SocketScript)
    (cmd : Command) (raw : Int)
    (hraw : raw = ((max color.red.val (max color.green.val color.blue.val) * 100 / 255 : Nat) : Int))
    (h : cmd ∈ (s.setColorRGB color sock).built)
    (hnd : ¬ (raw < s._brightnessMin ∧ s._isBrightnessSwitchOffMinimum = true)) :
    ∃ bri : Int, cmd.params[2]? = some (JsonValue.number bri) ∧
      (raw < s._brightnessMin → bri = s._brightnessMin) ∧
      (s._brightnessMin ≤ raw → bri ≤ s._brightnessMax) ∧
      (s._brightnessMin ≤ s._brightnessMax → s._brightnessFactor.oneLe →
        (s._brightnessMin ≤ raw →
          (s._brightnessFactor.mulInt (max s._brightnessMin raw)).fitsInt) →
        s._brightnessMin ≤ bri ∧ bri ≤ s._brightnessMax) := by
  rw [setColorRGB_built] at h
  split at h
  · rw [List.mem_singleton] at h
    subst h
    rw [← rgbRaw_eq] at hraw
    subst hraw
    refine ⟨rgbBri s (rgbRaw color), rfl, ?_, ?_, ?_⟩
    · intro hlt
      have hsw : ¬ s._isBrightnessSwitchOffMinimum = true := fun hsw => hnd ⟨hlt, hsw⟩
      simp only [rgbBri, if_pos hlt, if_neg hsw]
    · intro hge
      simp only [rgbBri, if_neg (not_lt.mpr hge)]
      exact min_le_left _ _
    · intro hmm hf hfit
      unfold rgbBri
      split
      · rename_i hlt
        have hsw : ¬ s._isBrightnessSwitchOffMinimum = true := fun hsw => hnd ⟨hlt, hsw⟩
        rw [if_neg hsw]
        exact ⟨le_refl _, hmm⟩
      · rename_i hge
        have hx0 : 0 ≤ max s._brightnessMin (rgbRaw color) :=
          le_trans (rgbRaw_nonneg color) (le_max_right _ _)
        have hx2 : max s._brightnessMin (rgbRaw color) ≤ 2 ^ 52 := by
          have := rgbRaw_le color
          have hle : s._brightnessMin ≤ rgbRaw color := not_lt.mp hge
          refine max_le ?_ ?_ <;> norm_num <;> omega
        have hT := Double.le_trunc_mulInt _ _ hf hx0 hx2
        rw [Double.toInt_of_fitsInt _ (hfit (not_lt.mp hge))]
        exact ⟨le_min hmm (le_trans (le_max_left _ _) hT), min_le_left _ _⟩
  · exact absurd h (List.not_mem_nil _)

/-- C3 (amended) at pure red with floor 10, ceiling 90 and factor 1.0. -/
theorem C3_brightness_within_bounds_witness :
    (100 : Int) = ((max (255 : Fin 256).val (max (0 : Fin 256).val (0 : Fin 256).val) * 100 / 255 : Nat) : Int) ∧
    red90Command ∈ (range10to90Light.setColorRGB ⟨255, 0, 0⟩ (okSocket 1)).built ∧
    ¬ ((100 : Int) < range10to90Light._brightnessMin ∧
        range10to90Light._isBrightnessSwitchOffMinimum = true) ∧
    ∃ bri : Int, red90Command.params[2]? = some (JsonValue.number bri) ∧
      ((100 : Int) < range10to90Light._brightnessMin → bri = range10to90Light._brightnessMin) ∧
      (range10to90Light._brightnessMin ≤ 100 → bri ≤ range10to90Light._brightnessMax) ∧
      (range10to90Light._brightnessMin ≤ range10to90Light._brightnessMax →
        range10to90Light._brightnessFactor.oneLe →
        (range10to90Light._brightnessMin ≤ 100 →
          (range10to90Light._brightnessFactor.mulInt
            (max range10to90Light._brightnessMin 100)).fitsInt) →
        range10to90Light._brightnessMin ≤ bri ∧ bri ≤ range10to90Light._brightnessMax) :=
  ⟨by decide, List.mem_singleton.mpr rfl, by decide,
    C3_brightness_within_bounds range10to90Light ⟨255, 0, 0⟩ (okSocket 1) red90Command 100
      (by decide) (List.mem_singleton.mpr rfl) (by decide)⟩

/-- C4: for a colour whose raw brightness `max(R,G,B) * 100 / 255` is below `brightnessMin`,
the command of `setColorRGB` carries the brightness `brightnessMin` and the base transition
duration when switch-off at minimum is disabled, and the brightness 0 and the base duration
plus the extra darkness time when it is enabled, that sum lying in the range of `int` (the
sum of line 552 is a sum of two `int` values). -/
theorem C4_below_minimum (s : YeelightLight) (color : ColorRgb) (sock : SocketScript)
    (cmd : Command) (raw : Int)
    (hraw : raw = ((max color.red.val (max color.green.val color.blue.val) * 100 / 255 : Nat) : Int))
    (h : cmd ∈ (s.setColorRGB color sock).built) (hlt : raw < s._brightnessMin) :
    ∃ bri duration : Int, cmd.params[2]? = some (JsonValue.number bri) ∧
      cmd.params[4]? = some (JsonValue.number duration) ∧
      (s._isBrightnessSwitchOffMinimum = false →
        bri = s._brightnessMin ∧ duration = s._transitionDuration) ∧
      (s._isBrightnessSwitchOffMinimum = true →
        bri = 0 ∧
        (isInt32 (s._transitionDuration + s._extraTimeDarkness) →
          duration = s._transitionDuration + s._extraTimeDarkness)) := by
  rw [setColorRGB_built] at h
  split at h
  · rw [List.mem_singleton] at h
    subst h
    rw [← rgbRaw_eq] at hraw
    subst hraw
    refine ⟨rgbBri s (rgbRaw color), rgbDuration s (rgbRaw color), rfl, rfl, ?_, ?_⟩
    · intro hsw
      simp [rgbBri, rgbDuration, hlt, hsw]
    · intro hsw
      refine ⟨by simp [rgbBri, hlt, hsw], fun hsum => ?_⟩
      simp only [rgbDuration, if_pos hlt, hsw, if_true]
      exact wrapInt32_of_range _ hsum.1 hsum.2
  · exact absurd h (List.not_mem_nil _)

/-- C4 at black with floor 10 and switch-off at minimum: packed colour 1, brightness 0 and
the duration 50 + 400. -/
theorem C4_below_minimum_witness :
    (0 : Int) = ((max (0 : Fin 256).val (max (0 : Fin 256).val (0 : Fin 256).val) * 100 / 255 : Nat) : Int) ∧
    blackCommand ∈ (switchOffLight.setColorRGB ⟨0, 0, 0⟩ (okSocket 1)).built ∧
    (0 : Int) < switchOffLight._brightnessMin ∧
    ∃ bri duration : Int, blackCommand.params[2]? = some (JsonValue.number bri) ∧
      blackCommand.params[4]? = some (JsonValue.number duration) ∧
      (switchOffLight._isBrightnessSwitchOffMinimum = false →
        bri = switchOffLight._brightnessMin ∧ duration = switchOffLight._transitionDuration) ∧
      (switchOffLight._isBrightnessSwitchOffMinimum = true →
        bri = 0 ∧
        (isInt32 (switchOffLight._transitionDuration + switchOffLight._extraTimeDarkness) →
          duration =
            switchOffLight._transitionDuration + switchOffLight._extraTimeDarkness)) :=
  ⟨by decide, List.mem_singleton.mpr rfl, by decide,
    C4_below_minimum switchOffLight ⟨0, 0, 0⟩ (okSocket 1) blackCommand 0
      (by decide) (List.mem_singleton.mpr rfl) (by decide)⟩

/-- C5: for a colour whose raw brightness `raw = max(R,G,B) * 100 / 255` is at least
`brightnessMin`, when the double product `brightnessFactor * max(brightnessMin, raw)`,
truncated, lies in the range of `int` (so that its conversion to `int` is defined), the
command of `setColorRGB` carries the brightness
`min(brightnessMax, trunc(brightnessFactor * max(brightnessMin, raw)))` and the base
transition duration; the double product is the exact product
`mant * 2 ^ exp * max(brightnessMin, raw)` whenever that fits the 53-bit significand. -/
theorem C5_at_least_minimum (s : YeelightLight) (color : ColorRgb) (sock : SocketScript)
    (cmd : Command) (raw : Int)
    (hraw : raw = ((max color.red.val (max color.green.val color.blue.val) * 100 / 255 : Nat) : Int))
    (h : cmd ∈ (s.setColorRGB color sock).built) (hge : s._brightnessMin ≤ raw)
    (hfit : (s._brightnessFactor.mulInt (max s._brightnessMin raw)).fitsInt) :
    ∃ bri duration : Int, cmd.params[2]? = some (JsonValue.number bri) ∧
      cmd.params[4]? = some (JsonValue.number duration) ∧
      bri = min s._brightnessMax (s._brightnessFactor.mulInt (max s._brightnessMin raw)).trunc ∧
      duration = s._transitionDuration ∧
      ((s._brightnessFactor.mant * max s._brightnessMin raw).natAbs < 2 ^ 53 →
        bri = min s._brightnessMax
          (if 0 ≤ s._brightnessFactor.exp then
            s._brightnessFactor.mant * max s._brightnessMin raw * 2 ^ s._brightnessFactor.exp.toNat
          else
            Int.tdiv (s._brightnessFactor.mant * max s._brightnessMin raw)
              (2 ^ (-s._brightnessFactor.exp).toNat))) := by
  rw [setColorRGB_built] at h
  split at h
  · rw [List.mem_singleton] at h
    subst h
    rw [← rgbRaw_eq] at hraw
    subst hraw
    have hbri : rgbBri s (rgbRaw color) = min s._brightnessMax
        (s._brightnessFactor.mulInt (max s._brightnessMin (rgbRaw color))).trunc := by
      simp only [rgbBri, if_neg (not_lt.mpr hge), Double.toInt_of_fitsInt _ hfit]
    refine ⟨rgbBri s (rgbRaw color), rgbDuration s (rgbRaw color), rfl, rfl, hbri, ?_, ?_⟩
    · simp only [rgbDuration, if_neg (not_lt.mpr hge)]
    · intro h53
      rw [hbri, Double.trunc_mulInt_exact _ _ h53]
  · exact absurd h (List.not_mem_nil _)

/-- C5 at pure red with floor 10, ceiling 90 and factor 1.0: packed colour 16711680, raw
brightness 100, brightness 90. -/
theorem C5_at_least_minimum_witness :
    (100 : Int) = ((max (255 : Fin 256).val (max (0 : Fin 256).val (0 : Fin 256).val) * 100 / 255 : Nat) : Int) ∧
    red90Command ∈ (range10to90Light.setColorRGB ⟨255, 0, 0⟩ (okSocket 1)).built ∧
    range10to90Light._brightnessMin ≤ 100 ∧
    (range10to90Light._brightnessFactor.mulInt
      (max range10to90Light._brightnessMin 100)).fitsInt ∧
    ∃ bri duration : Int, red90Command.params[2]? = some (JsonValue.number bri) ∧
      red90Command.params[4]? = some (JsonValue.number duration) ∧
      bri = min range10to90Light._brightnessMax
        (range10to90Light._brightnessFactor.mulInt (max range10to90Light._brightnessMin 100)).trunc ∧
      duration = range10to90Light._transitionDuration ∧
      ((range10to90Light._brightnessFactor.mant * max range10to90Light._brightnessMin 100).natAbs
          < 2 ^ 53 →
        bri = min range10to90Light._brightnessMax
          (if 0 ≤ range10to90Light._brightnessFactor.exp then
            range10to90Light._brightnessFactor.mant * max range10to90Light._brightnessMin 100 *
              2 ^ range10to90Light._brightnessFactor.exp.toNat
          else
            Int.tdiv (range10to90Light._brightnessFactor.mant * max range10to90Light._brightnessMin 100)
              (2 ^ (-range10to90Light._brightnessFactor.exp).toNat))) :=
  ⟨by decide, List.mem_singleton.mpr rfl, by decide, by decide,
    C5_at_least_minimum range10to90Light ⟨255, 0, 0⟩ (okSocket 1) red90Command 100
      (by decide) (List.mem_singleton.mpr rfl) (by decide) (by decide)⟩

/-! ## The protocol engine -/

theorem setInError_setInError (s : YeelightLight) : s.setInError.setInError = s.setInError := rfl

/-- The function `handleResponse` changes nothing but the error flag, which it can only raise. -/
theorem handleResponse_light (s : YeelightLight) (correlationID : Int) (response : ResponseLine) :
    (s.handleResponse correlationID response).2 = s ∨
      (s.handleResponse correlationID response).2 = s.setInError := by
  unfold handleResponse
  cases response with
  | none => exact Or.inr rfl
  | some jsonDoc =>
    simp only []
    split
    · exact Or.inl rfl
    · split
      · exact Or.inr rfl
      · split
        · exact Or.inl rfl
        · split
          · split
            · exact Or.inr rfl
            · exact Or.inl rfl
          · exact Or.inr rfl

theorem readLines_light (lines : List ResponseLine) (s : YeelightLight) (result : List JsonValue) :
    (readLines lines s result).2.1 = s ∨ (readLines lines s result).2.1 = s.setInError := by
  induction lines generalizing s result with
  | nil => exact Or.inl rfl
  | cons response rest ih =>
    simp only [readLines]
    rcases handleResponse_light s s._correlationID response with h | h
    · rw [h]; exact ih s _
    · rw [h]
      rcases ih s.setInError (s.handleResponse s._correlationID response).1 with h2 | h2
      · exact Or.inr h2
      · exact Or.inr h2

theorem readBatches_light (later : List (List ResponseLine)) (batch : List ResponseLine)
    (s : YeelightLight) (result : List JsonValue) :
    (readBatches later batch s result).2.1 = s ∨
      (readBatches later batch s result).2.1 = s.setInError := by
  induction later generalizing batch s result with
  | nil => simp only [readBatches]; exact readLines_light batch s result
  | cons next later ih =>
    simp only [readBatches]
    rcases readLines_light batch s result with h | h
    · rw [h]; exact ih next s _
    · rw [h]
      rcases ih next s.setInError (readLines batch s result).1 with h2 | h2
      · exact Or.inr h2
      · exact Or.inr h2

/-- The function `writeCommand` changes nothing but the error flag, which it can only raise. -/
theorem writeCommand_light (s : YeelightLight) (sock : SocketScript) (command : Command) :
    (s.writeCommand sock command).light = s ∨
      (s.writeCommand sock command).light = s.setInError := by
  unfold writeCommand
  split
  · split
    · exact Or.inr rfl
    · simp only []
      cases sock.readyRead with
      | nil =>
        simp only []
        split
        · exact Or.inr rfl
        · exact Or.inl rfl
      | cons batch later =>
        simp only []
        split
        · rcases readBatches_light later batch s.setInError [] with h | h
          · exact Or.inr h
          · exact Or.inr h
        · exact readBatches_light later batch s []
  · exact Or.inl rfl

/-- The function `streamCommand` changes nothing but the error flag, which it can only raise. -/
theorem streamCommand_light (s : YeelightLight) (sock : SocketScript) (command : Command) :
    (s.streamCommand sock command).light = s ∨
      (s.streamCommand sock command).light = s.setInError := by
  unfold streamCommand
  split
  · split
    · exact Or.inr rfl
    · split
      · exact Or.inr rfl
      · exact Or.inl rfl
  · exact Or.inl rfl

theorem writeCount_append (a b : List SocketEvent) :
    writeCount (a ++ b) = writeCount a + writeCount b := by
  induction a with
  | nil => simp [writeCount]
  | cons e rest ih =>
    cases e <;> simp [writeCount, ih]
    all_goals omega

theorem writeCount_readLines (lines : List ResponseLine) (s : YeelightLight)
    (result : List JsonValue) : writeCount (readLines lines s result).2.2 = 0 := by
  induction lines generalizing s result with
  | nil => rfl
  | cons response rest ih => simp only [readLines, writeCount]; exact ih _ _

theorem writeCount_readBatches (later : List (List ResponseLine)) (batch : List ResponseLine)
    (s : YeelightLight) (result : List JsonValue) :
    writeCount (readBatches later batch s result).2.2 = 0 := by
  induction later generalizing batch s result with
  | nil =>
    simp only [readBatches, writeCount_append, writeCount_readLines]
    rfl
  | cons next later ih =>
    simp only [readBatches, writeCount_append, writeCount_readLines, writeCount, ih]

/-- A successful `writeCommand` puts exactly one command on the network. -/
theorem writeCount_writeCommand (s : YeelightLight) (sock : SocketScript) (command : Command)
    (h : (s.writeCommand sock command).rc = true) :
    writeCount (s.writeCommand sock command).events = 1 := by
  unfold writeCommand at h ⊢
  split
  · rename_i hopen
    rw [if_pos hopen] at h
    split
    · rename_i hw
      rw [if_pos hw] at h
      exact absurd h Bool.false_ne_true
    · simp only [writeCount]
      cases sock.readyRead with
      | nil => rfl
      | cons batch later => simp only [writeCount, writeCount_readBatches]
  · rename_i hopen
    rw [if_neg hopen] at h
    exact absurd h Bool.false_ne_true

/-- A successful `streamCommand` puts exactly one command on the network. -/
theorem writeCount_streamCommand (s : YeelightLight) (sock : SocketScript) (command : Command)
    (h : (s.streamCommand sock command).rc = true) :
    writeCount (s.streamCommand sock command).events = 1 := by
  unfold streamCommand at h ⊢
  split
  · rename_i hopen
    rw [if_pos hopen] at h
    split
    · rename_i hw
      rw [if_pos hw] at h
      exact absurd h Bool.false_ne_true
    · rename_i hw
      rw [if_neg hw] at h
      split
      · rename_i hb
        rw [if_pos hb] at h
        exact absurd h Bool.false_ne_true
      · rfl
  · rename_i hopen
    rw [if_neg hopen] at h
    exact absurd h Bool.false_ne_true

theorem sendScene_light (s : YeelightLight) (sock : SocketScript) (command : Command) :
    (s.sendScene sock command).light = s ∨ (s.sendScene sock command).light = s.setInError := by
  unfold sendScene
  split
  · exact streamCommand_light s sock command
  · exact writeCommand_light s sock command

theorem writeCount_sendScene (s : YeelightLight) (sock : SocketScript) (command : Command)
    (h : (s.sendScene sock command).rc = true) :
    writeCount (s.sendScene sock command).events = 1 := by
  unfold sendScene at h ⊢
  split
  · rename_i hm
    rw [if_pos hm] at h
    exact writeCount_streamCommand _ _ _ h
  · rename_i hm
    rw [if_neg hm] at h
    exact writeCount_writeCommand _ _ _ h

/-- After a successful `setColorRGB` the light remembers the colour parameter. -/
theorem setColorRGB_colorRgbValue (s : YeelightLight) (color : ColorRgb) (sock : SocketScript)
    (h : (s.setColorRGB color sock).rc = true) :
    (s.setColorRGB color sock).light._colorRgbValue = rgbColorParam color := by
  unfold setColorRGB at h ⊢
  by_cases hne : rgbColorParam color ≠ s._colorRgbValue
  · rw [if_pos hne] at h ⊢
    simp only [] at h ⊢
    split
    · rfl
    · rename_i hrc
      rw [if_neg hrc] at h
      exact absurd h Bool.false_ne_true
  · rw [if_neg hne]
    exact (not_not.mp hne).symm

/-- The function `setColorRGB` with the colour parameter the light remembers does nothing. -/
theorem setColorRGB_same (s : YeelightLight) (color : ColorRgb) (sock : SocketScript)
    (h : s._colorRgbValue = rgbColorParam color) :
    s.setColorRGB color sock = ⟨true, s, [], []⟩ := by
  unfold setColorRGB
  rw [if_neg (not_not.mpr h.symm)]

/-- When `setColorRGB` builds a command and succeeds, that command went on the network. -/
theorem setColorRGB_writeCount (s : YeelightLight) (color : ColorRgb) (sock : SocketScript)
    (h : (s.setColorRGB color sock).rc = true) (hb : (s.setColorRGB color sock).built ≠ []) :
    writeCount (s.setColorRGB color sock).events = 1 := by
  unfold setColorRGB at h hb ⊢
  by_cases hne : rgbColorParam color ≠ s._colorRgbValue
  · rw [if_pos hne] at h ⊢
    simp only [] at h ⊢
    split
    · rename_i hrc
      exact writeCount_sendScene _ _ _ hrc
    · rename_i hrc
      rw [if_neg hrc] at h
      exact absurd h Bool.false_ne_true
  · rw [if_neg hne] at hb
    exact absurd rfl hb

/-- C6: when `setColorRGB` succeeds, a second call with the same colour returns success,
builds no command, makes no socket call and leaves the light, its correlation counter
included, as it is; when the first call built a command, the two calls together build one
command and put one command on the network. -/
theorem C6_same_colour_twice (s : YeelightLight) (color : ColorRgb)
    (first second : SocketScript) (hok : (s.setColorRGB color first).rc = true) :
    (s.setColorRGB color first).light.setColorRGB color second =
      ⟨true, (s.setColorRGB color first).light, [], []⟩ ∧
    ((s.setColorRGB color first).built ≠ [] →
      ((s.setColorRGB color first).built ++
        ((s.setColorRGB color first).light.setColorRGB color second).built).length = 1 ∧
      writeCount ((s.setColorRGB color first).events ++
        ((s.setColorRGB color first).light.setColorRGB color second).events) = 1) := by
  have hsame := setColorRGB_same (s.setColorRGB color first).light color second
    (setColorRGB_colorRgbValue s color first hok)
  refine ⟨hsame, fun hb => ?_⟩
  rw [hsame]
  simp only [List.append_nil]
  refine ⟨?_, setColorRGB_writeCount s color first hok hb⟩
  rw [setColorRGB_built] at hb ⊢
  split
  · rfl
  · rename_i hne
    rw [if_neg hne] at hb
    exact absurd rfl hb

/-- C6 at pure red on a new light whose socket answers the first command. -/
theorem C6_same_colour_twice_witness :
    (demoLight.setColorRGB ⟨255, 0, 0⟩ (okSocket 1)).rc = true ∧
    ((demoLight.setColorRGB ⟨255, 0, 0⟩ (okSocket 1)).light.setColorRGB ⟨255, 0, 0⟩ (okSocket 2) =
      ⟨true, (demoLight.setColorRGB ⟨255, 0, 0⟩ (okSocket 1)).light, [], []⟩ ∧
    ((demoLight.setColorRGB ⟨255, 0, 0⟩ (okSocket 1)).built ≠ [] →
      ((demoLight.setColorRGB ⟨255, 0, 0⟩ (okSocket 1)).built ++
        ((demoLight.setColorRGB ⟨255, 0, 0⟩ (okSocket 1)).light.setColorRGB ⟨255, 0, 0⟩
          (okSocket 2)).built).length = 1 ∧
      writeCount ((demoLight.setColorRGB ⟨255, 0, 0⟩ (okSocket 1)).events ++
        ((demoLight.setColorRGB ⟨255, 0, 0⟩ (okSocket 1)).light.setColorRGB ⟨255, 0, 0⟩
          (okSocket 2)).events) = 1)) :=
  ⟨by decide, C6_same_colour_twice demoLight ⟨255, 0, 0⟩ (okSocket 1) (okSocket 2) (by decide)⟩

/-! ## Correlation ids -/

theorem writeCommand_correlationID (s : YeelightLight) (sock : SocketScript) (command : Command) :
    (s.writeCommand sock command).light._correlationID = s._correlationID := by
  rcases writeCommand_light s sock command with h | h
  · rw [h]
  · rw [h]; rfl

theorem streamCommand_correlationID (s : YeelightLight) (sock : SocketScript)
    (command : Command) :
    (s.streamCommand sock command).light._correlationID = s._correlationID := by
  rcases streamCommand_light s sock command with h | h
  · rw [h]
  · rw [h]; rfl

theorem sendScene_correlationID (s : YeelightLight) (sock : SocketScript) (command : Command) :
    (s.sendScene sock command).light._correlationID = s._correlationID := by
  rcases sendScene_light s sock command with h | h
  · rw [h]
  · rw [h]; rfl

theorem idsFrom_nil (s : YeelightLight) (light : YeelightLight) (events : List SocketEvent)
    (hc : isInt32 s._correlationID) (h : light._correlationID = s._correlationID) :
    IdsFrom s._correlationID ⟨light, events, []⟩ := by
  refine ⟨?_, ?_⟩
  · simp only [List.length_nil, Nat.cast_zero, add_zero]
    rw [h, wrapInt32_of_range _ hc.1 hc.2]
  · intro i cmd hi
    simp at hi

theorem idsFrom_one (s : YeelightLight) (light : YeelightLight) (events : List SocketEvent)
    (cmd : Command) (hid : cmd.id = wrapInt32 (s._correlationID + 1))
    (h : light._correlationID = wrapInt32 (s._correlationID + 1)) :
    IdsFrom s._correlationID ⟨light, events, [cmd]⟩ := by
  refine ⟨by simp [h], ?_⟩
  intro i c hi
  cases i with
  | zero =>
    simp at hi
    subst hi
    simp [hid]
  | succ n => simp at hi

theorem idsFrom_ite {α : Type} (c : Int) (p : Prop) [Decidable p] (a b : Outcome α)
    (ha : IdsFrom c (Trace.ofOutcome a)) (hb : IdsFrom c (Trace.ofOutcome b)) :
    IdsFrom c (Trace.ofOutcome (if p then a else b)) := by
  split
  · exact ha
  · exact hb

theorem setPower_ids (s : YeelightLight) (onFlag : Bool) (effect : API_EFFECT) (duration : Int)
    (mode : API_MODE) (sock : SocketScript) :
    IdsFrom s._correlationID (Trace.ofOutcome (s.setPower onFlag effect duration mode sock)) := by
  unfold setPower
  apply idsFrom_ite
  · apply idsFrom_one
    · rfl
    · exact writeCommand_correlationID _ _ _
  · apply idsFrom_one
    · rfl
    · exact writeCommand_correlationID _ _ _

theorem setMusicMode_ids (s : YeelightLight) (onFlag : Bool) (ipAddress : String) (port : Nat)
    (sock : SocketScript) :
    IdsFrom s._correlationID (Trace.ofOutcome (s.setMusicMode onFlag ipAddress port sock)) := by
  unfold setMusicMode
  apply idsFrom_ite
  · apply idsFrom_one
    · rfl
    · exact writeCommand_correlationID _ _ _
  · apply idsFrom_one
    · rfl
    · exact writeCommand_correlationID _ _ _

theorem getProperties_ids (s : YeelightLight) (sock : SocketScript) :
    IdsFrom s._correlationID (Trace.ofOutcome (s.getProperties sock)) := by
  unfold getProperties
  apply idsFrom_one
  · rfl
  · exact writeCommand_correlationID _ _ _

theorem isInMusicMode_ids (s : YeelightLight) (deviceCheck : Bool) (sock : SocketScript)
    (streamConnected : Bool) (hc : isInt32 s._correlationID) :
    IdsFrom s._correlationID
      (Trace.ofOutcome (s.isInMusicMode deviceCheck sock streamConnected)) := by
  unfold isInMusicMode
  apply idsFrom_ite
  · apply idsFrom_one
    · rfl
    · exact writeCommand_correlationID _ _ _
  · exact idsFrom_nil s _ _ hc rfl

theorem setColorRGB_ids (s : YeelightLight) (color : ColorRgb) (sock : SocketScript)
    (hc : isInt32 s._correlationID) :
    IdsFrom s._correlationID (Trace.ofOutcome (s.setColorRGB color sock)) := by
  unfold setColorRGB
  apply idsFrom_ite
  · apply idsFrom_ite
    · apply idsFrom_one
      · rfl
      · exact sendScene_correlationID _ _ _
    · apply idsFrom_one
      · rfl
      · exact sendScene_correlationID _ _ _
  · exact idsFrom_nil s _ _ hc rfl

theorem setColorHSV_ids (getHsv : ColorRgb → Int × Int × Int) (s : YeelightLight)
    (color : ColorRgb) (sock : SocketScript) (hc : isInt32 s._correlationID) :
    IdsFrom s._correlationID (Trace.ofOutcome (s.setColorHSV getHsv color sock)) := by
  unfold setColorHSV
  apply idsFrom_ite
  · apply idsFrom_ite
    · apply idsFrom_one
      · rfl
      · exact sendScene_correlationID _ _ _
    · apply idsFrom_one
      · rfl
      · exact sendScene_correlationID _ _ _
  · exact idsFrom_nil s _ _ hc rfl

theorem open_ids (s : YeelightLight) (waitForConnected connected : Bool)
    (hc : isInt32 s._correlationID) :
    IdsFrom s._correlationID (Trace.ofOutcome (s.open waitForConnected connected)) := by
  unfold YeelightLight.open
  apply idsFrom_ite
  · apply idsFrom_ite
    · exact idsFrom_nil s _ _ hc rfl
    · exact idsFrom_nil s _ _ hc rfl
  · exact idsFrom_nil s _ _ hc rfl

theorem setTransitionEffect_correlationID (s : YeelightLight) (effect : API_EFFECT)
    (duration : Int) : (s.setTransitionEffect effect duration)._correlationID = s._correlationID := by
  unfold setTransitionEffect
  simp only []
  split <;> split <;> rfl

/-- Every call on a light whose counter is an `int` keeps the correlation ids in step with the
commands it builds. -/
theorem Op.apply_ids (getHsv : ColorRgb → Int × Int × Int) (s : YeelightLight) (op : Op)
    (hc : isInt32 s._correlationID) :
    IdsFrom s._correlationID (op.apply getHsv s) := by
  cases op with
  | callOpen waitForConnected connected => exact open_ids s waitForConnected connected hc
  | callClose => exact idsFrom_nil s _ _ hc rfl
  | callWriteCommand sock command =>
    exact idsFrom_nil s _ _ hc (writeCommand_correlationID _ _ _)
  | callStreamCommand sock command =>
    exact idsFrom_nil s _ _ hc (streamCommand_correlationID _ _ _)
  | callSetHostname hostname port => exact idsFrom_nil s _ _ hc rfl
  | callSetStreamSocket socket => exact idsFrom_nil s _ _ hc rfl
  | callSetPower onFlag effect duration mode sock => exact setPower_ids s _ _ _ _ _
  | callSetColorRGB color sock => exact setColorRGB_ids s color sock hc
  | callSetColorHSV color sock => exact setColorHSV_ids getHsv s color sock hc
  | callSetTransitionEffect effect duration =>
    exact idsFrom_nil s _ _ hc (setTransitionEffect_correlationID s effect duration)
  | callSetBrightnessConfig min max switchoff extraTime factor => exact idsFrom_nil s _ _ hc rfl
  | callSetMusicMode onFlag ipAddress port sock => exact setMusicMode_ids s _ _ _ _
  | callGetProperties sock => exact getProperties_ids s sock
  | callIsInMusicMode deviceCheck sock streamConnected => exact isInMusicMode_ids s _ _ _ hc
  | callSetInError => exact idsFrom_nil s _ _ hc rfl
  | callSetDebuglevel level => exact idsFrom_nil s _ _ hc rfl

/-- Over a sequence of calls the built commands carry consecutive correlation ids, as `int`
values. -/
theorem run_ids (getHsv : ColorRgb → Int × Int × Int) (ops : List Op) (s : YeelightLight)
    (hc : isInt32 s._correlationID) :
    IdsFrom s._correlationID (run getHsv s ops) := by
  induction ops generalizing s with
  | nil => exact idsFrom_nil s _ _ hc rfl
  | cons op ops ih =>
    obtain ⟨h1, h2⟩ := Op.apply_ids getHsv s op hc
    have hc1 : isInt32 (op.apply getHsv s).light._correlationID := by
      rw [h1]; exact isInt32_wrapInt32 _
    obtain ⟨h3, h4⟩ := ih (op.apply getHsv s).light hc1
    simp only [run]
    refine ⟨?_, ?_⟩
    · simp only [List.length_append]
      rw [h3, h1, wrapInt32_wrapInt32_add]
      push_cast
      rw [add_assoc]
    · intro i cmd hi
      by_cases hlt : i < (op.apply getHsv s).built.length
      · rw [List.getElem?_append_left hlt] at hi
        exact h2 i cmd hi
      · rw [List.getElem?_append_right (not_lt.mp hlt)] at hi
        have := h4 _ cmd hi
        rw [this, h1, add_assoc, wrapInt32_wrapInt32_add]
        have hle := not_lt.mp hlt
        push_cast [Nat.cast_sub hle]
        congr 1
        ring

/-- C7: on a newly constructed light, whatever calls are made on it (with whatever methods,
parameters and socket behaviour), as long as no more than 2147483647 commands are built (the
counter is an `int`), the first command built carries the correlation id 1 and each later
one the id of its predecessor plus 1: the command built at position `i` (from 0) carries
`i + 1`, so the ids are unique and strictly increasing. -/
theorem C7_correlation_ids (getHsv : ColorRgb → Int × Int × Int) (extraTime : Int)
    (hostname : String) (port : Nat) (ops : List Op) (i : Nat) (cmd : Command)
    (hlen : (run getHsv (YeelightLight.ctor extraTime hostname port) ops).built.length
      ≤ 2147483647)
    (h : (run getHsv (YeelightLight.ctor extraTime hostname port) ops).built[i]? = some cmd) :
    cmd.id = (i : Int) + 1 ∧
    ∀ (j : Nat) (later : Command), i < j →
      (run getHsv (YeelightLight.ctor extraTime hostname port) ops).built[j]? = some later →
      cmd.id < later.id ∧ (j = i + 1 → later.id = cmd.id + 1) := by
  have hrun := run_ids getHsv ops (YeelightLight.ctor extraTime hostname port)
    (show isInt32 0 from by decide)
  have h0 : (YeelightLight.ctor extraTime hostname port)._correlationID = 0 := rfl
  rw [h0] at hrun
  have hbound : ∀ (k : Nat) (c : Command),
      (run getHsv (YeelightLight.ctor extraTime hostname port) ops).built[k]? = some c →
      c.id = (k : Int) + 1 := by
    intro k c hk
    have hklt : k < (run getHsv (YeelightLight.ctor extraTime hostname port) ops).built.length := by
      by_contra hge
      rw [List.getElem?_eq_none (not_lt.mp hge)] at hk
      exact Option.noConfusion hk
    rw [hrun.2 k c hk, wrapInt32_of_range _ (by omega) (by omega)]
    ring
  have hi := hbound i cmd h
  refine ⟨hi, ?_⟩
  intro j later hij hj
  have hjj := hbound j later hj
  refine ⟨by omega, fun hji => by omega⟩

/-- C7 on a run that opens the light, reads its properties, sets a colour and switches the
power off: the third command built carries the id 3. -/
theorem C7_correlation_ids_witness :
    (run (fun _ => (0, 0, 0)) (YeelightLight.ctor 0 "192.168.0.10" 55443) demoCalls).built.length
      ≤ 2147483647 ∧
    (run (fun _ => (0, 0, 0)) (YeelightLight.ctor 0 "192.168.0.10" 55443) demoCalls).built[2]? =
      some powerOffCommand ∧
    (powerOffCommand.id = ((2 : Nat) : Int) + 1 ∧
    ∀ (j : Nat) (later : Command), 2 < j →
      (run (fun _ => (0, 0, 0)) (YeelightLight.ctor 0 "192.168.0.10" 55443) demoCalls).built[j]? =
        some later →
      powerOffCommand.id < later.id ∧ (j = 2 + 1 → later.id = powerOffCommand.id + 1)) :=
  ⟨by decide, rfl, C7_correlation_ids (fun _ => (0, 0, 0)) 0 "192.168.0.10" 55443 demoCalls 2
    powerOffCommand (by decide) rfl⟩

/-- C8: on a light whose error flag is set, `writeCommand` and `streamCommand` return failure
with an empty result, make no socket call and leave the light, its error flag included, as it
is, for every command and every socket behaviour. -/
theorem C8_error_short_circuit (s : YeelightLight) (sock : SocketScript) (command : Command)
    (h : s._isInError = true) :
    s.writeCommand sock command = ⟨false, [], s, []⟩ ∧
    s.streamCommand sock command = ⟨false, [], s, []⟩ ∧
    (s.writeCommand sock command).light._isInError = true ∧
    (s.streamCommand sock command).light._isInError = true := by
  have hw : s.writeCommand sock command = ⟨false, [], s, []⟩ := by
    unfold writeCommand
    simp [h]
  have hs : s.streamCommand sock command = ⟨false, [], s, []⟩ := by
    unfold streamCommand
    simp [h]
  refine ⟨hw, hs, ?_, ?_⟩
  · rw [hw]; exact h
  · rw [hs]; exact h

/-- C8 on a light put in error, with a socket that would answer. -/
theorem C8_error_short_circuit_witness :
    demoLight.setInError._isInError = true ∧
    (demoLight.setInError.writeCommand (okSocket 1) powerOffCommand =
      ⟨false, [], demoLight.setInError, []⟩ ∧
    demoLight.setInError.streamCommand (okSocket 1) powerOffCommand =
      ⟨false, [], demoLight.setInError, []⟩ ∧
    (demoLight.setInError.writeCommand (okSocket 1) powerOffCommand).light._isInError = true ∧
    (demoLight.setInError.streamCommand (okSocket 1) powerOffCommand).light._isInError = true) :=
  ⟨rfl, C8_error_short_circuit demoLight.setInError (okSocket 1) powerOffCommand rfl⟩

/-- An id member that is not the number `correlationID` is read by `QJsonValue::toInt` as a
value different from `correlationID`, provided `correlationID` is not 0 (the first id sent
is 1). -/
theorem JsonValue.toInt_ne (v : JsonValue) (correlationID : Int) (h0 : correlationID ≠ 0)
    (hv : v ≠ JsonValue.number correlationID) : v.toInt ≠ correlationID := by
  cases v with
  | number q =>
    simp only [JsonValue.toInt]
    by_cases hq : q.den = 1 ∧ -2147483648 ≤ q.num ∧ q.num ≤ 2147483647
    · rw [if_pos hq]
      intro heq
      apply hv
      rw [← heq, Rat.coe_int_num_of_den_eq_one hq.1]
    · rw [if_neg hq]
      exact fun h => h0 h.symm
  | null => exact fun h => h0 h.symm
  | bool b => exact fun h => h0 h.symm
  | string s => exact fun h => h0 h.symm
  | array items => exact fun h => h0 h.symm
  | object members => exact fun h => h0 h.symm

/-- C9: a line that parses to a document without a (non-null) member "method" whose id, as
`QJsonValue::toInt` reads it (0 for a missing or non-integer id), differs from the correlation
id puts the handling light into error state, raising the error flag and changing nothing else
of it, and yields the empty result; in an array of lights only the light at that position
changes. -/
theorem C9_id_mismatch (lights : List YeelightLight) (i : Nat) (s : YeelightLight)
    (correlationID : Int) (jsonDoc : JsonValue) (hi : lights[i]? = some s)
    (hmethod : (jsonDoc.toObject.at "method").isNull = true)
    (hid : (jsonDoc.toObject.at "id").toInt ≠ correlationID) :
    s.handleResponse correlationID (some jsonDoc) = ([], { s with _isInError := true }) ∧
    (handleResponseAt lights i correlationID (some jsonDoc))[i]? =
      some { s with _isInError := true } ∧
    ∀ j : Nat, j ≠ i →
      (handleResponseAt lights i correlationID (some jsonDoc))[j]? = lights[j]? := by
  have hh : s.handleResponse correlationID (some jsonDoc) = ([], { s with _isInError := true }) := by
    unfold handleResponse
    simp only [API_COMMAND_METHOD, API_RESULT_ID, hmethod, Bool.not_true, Bool.false_eq_true,
      if_false, if_pos hid]
    rfl
  have hlt : i < lights.length := by
    rcases Nat.lt_or_ge i lights.length with h | h
    · exact h
    · rw [List.getElem?_eq_none h] at hi
      exact absurd hi (by simp)
  refine ⟨hh, ?_, ?_⟩
  · unfold handleResponseAt
    rw [hi]
    simp only [hh]
    exact List.getElem?_set_self hlt
  · intro j hj
    unfold handleResponseAt
    rw [hi]
    simp only []
    exact List.getElem?_set_ne (Ne.symm hj)

/-- C9 on two lights, the first of which expects the id 1 and reads a response with the
id 7. -/
theorem C9_id_mismatch_witness :
    [demoLight, switchOffLight][0]? = some demoLight ∧
    ((JsonValue.object [("id", JsonValue.number 7),
        ("result", JsonValue.array [JsonValue.string "ok"])]).toObject.at "method").isNull = true ∧
    ((JsonValue.object [("id", JsonValue.number 7),
        ("result", JsonValue.array [JsonValue.string "ok"])]).toObject.at "id").toInt ≠ 1 ∧
    (demoLight.handleResponse 1 (okLine 7) = ([], { demoLight with _isInError := true }) ∧
    (handleResponseAt [demoLight, switchOffLight] 0 1 (okLine 7))[0]? =
      some { demoLight with _isInError := true } ∧
    ∀ j : Nat, j ≠ 0 →
      (handleResponseAt [demoLight, switchOffLight] 0 1 (okLine 7))[j]? =
        [demoLight, switchOffLight][j]?) :=
  ⟨rfl, rfl, by decide,
    C9_id_mismatch [demoLight, switchOffLight] 0 demoLight 1
      (JsonValue.object [("id", JsonValue.number 7),
        ("result", JsonValue.array [JsonValue.string "ok"])]) rfl rfl (by decide)⟩

/-- C10 fails on the code: `writeCommand` assigns the outcome of `handleResponse` to the result
for every line it reads, so a notification read after the matched response replaces the
result array by the empty array. Here the response with the sent id 1 and the result array
holding ok is followed by a notification: `writeCommand` returns success and the empty array.
With the notification first, the result array is returned. -/
theorem C10_result_lost_after_notification :
    (demoLight.getCommand "get_prop" [JsonValue.string "power"]).1.id = 1 ∧
    ((demoLight.getCommand "get_prop" [JsonValue.string "power"]).2.handleResponse 1
      (okLine 1)).1 = [JsonValue.string "ok"] ∧
    ((demoLight.getCommand "get_prop" [JsonValue.string "power"]).2.writeCommand
      ⟨true, 64, true, [[okLine 1, propsNotification]]⟩
      (demoLight.getCommand "get_prop" [JsonValue.string "power"]).1).rc = true ∧
    ((demoLight.getCommand "get_prop" [JsonValue.string "power"]).2.writeCommand
      ⟨true, 64, true, [[okLine 1, propsNotification]]⟩
      (demoLight.getCommand "get_prop" [JsonValue.string "power"]).1).result = [] ∧
    ((demoLight.getCommand "get_prop" [JsonValue.string "power"]).2.writeCommand
      ⟨true, 64, true, [[propsNotification, okLine 1]]⟩
      (demoLight.getCommand "get_prop" [JsonValue.string "power"]).1).result =
        [JsonValue.string "ok"] :=
  ⟨rfl, rfl, rfl, rfl, rfl⟩

/-! ## Read timeout, sticky error flag, device errors -/

/-- C11 fails as stated: the command with id 1 is written on an open light that is not in
error and nothing becomes readable within the read timeout; `writeCommand` returns success
with an empty result and the error flag stays clear. -/
theorem C11_counterexample :
    (demoLight.getCommand "get_prop" [JsonValue.string "power"]).2._isInError = false ∧
    ((demoLight.getCommand "get_prop" [JsonValue.string "power"]).2.writeCommand
      ⟨true, 64, true, []⟩
      (demoLight.getCommand "get_prop" [JsonValue.string "power"]).1).rc = true ∧
    ((demoLight.getCommand "get_prop" [JsonValue.string "power"]).2.writeCommand
      ⟨true, 64, true, []⟩
      (demoLight.getCommand "get_prop" [JsonValue.string "power"]).1).light._isInError = false :=
  ⟨rfl, rfl, rfl⟩

/-- C11, amended: for every command written successfully on a light that is not in error, if no
data becomes readable within the read timeout, `writeCommand` reads no line, leaves the light
as it is (the error flag stays clear) and returns success with an empty result; the socket
calls are the write, the wait for the bytes and one wait of `READ_TIMEOUT` for data. -/
theorem C11_no_data_is_success (s : YeelightLight) (sock : SocketScript) (command : Command)
    (herr : s._isInError = false) (hopen : sock.isOpen = true)
    (hwrite : sock.bytesWritten ≠ -1) (hflush : sock.waitForBytesWritten = true)
    (hread : sock.readyRead = []) :
    s.writeCommand sock command =
      ⟨true, [], s, [SocketEvent.write false command, SocketEvent.waitForBytesWritten false,
        SocketEvent.waitForReadyRead READ_TIMEOUT]⟩ ∧
    (s.writeCommand sock command).light._isInError = false := by
  have hw : s.writeCommand sock command =
      ⟨true, [], s, [SocketEvent.write false command, SocketEvent.waitForBytesWritten false,
        SocketEvent.waitForReadyRead READ_TIMEOUT]⟩ := by
    unfold writeCommand
    simp only [herr, hopen, hflush, hread, Bool.not_false, Bool.and_self, if_true, if_neg hwrite,
      Bool.not_true, Bool.false_eq_true, if_false]
  exact ⟨hw, by rw [hw]; exact herr⟩

/-- C11 (amended) on a new light after its first command is built. -/
theorem C11_no_data_is_success_witness :
    (demoLight.getCommand "get_prop" [JsonValue.string "power"]).2._isInError = false ∧
    (⟨true, 64, true, []⟩ : SocketScript).isOpen = true ∧
    (⟨true, 64, true, []⟩ : SocketScript).bytesWritten ≠ -1 ∧
    (⟨true, 64, true, []⟩ : SocketScript).waitForBytesWritten = true ∧
    (⟨true, 64, true, []⟩ : SocketScript).readyRead = [] ∧
    ((demoLight.getCommand "get_prop" [JsonValue.string "power"]).2.writeCommand
        ⟨true, 64, true, []⟩ (demoLight.getCommand "get_prop" [JsonValue.string "power"]).1 =
      ⟨true, [], (demoLight.getCommand "get_prop" [JsonValue.string "power"]).2,
        [SocketEvent.write false (demoLight.getCommand "get_prop" [JsonValue.string "power"]).1,
          SocketEvent.waitForBytesWritten false, SocketEvent.waitForReadyRead READ_TIMEOUT]⟩ ∧
    ((demoLight.getCommand "get_prop" [JsonValue.string "power"]).2.writeCommand
        ⟨true, 64, true, []⟩
        (demoLight.getCommand "get_prop" [JsonValue.string "power"]).1).light._isInError = false) :=
  ⟨rfl, rfl, by decide, rfl, rfl,
    C11_no_data_is_success _ ⟨true, 64, true, []⟩ _ rfl rfl (by decide) rfl rfl⟩

theorem handleResponse_isInError (s : YeelightLight) (correlationID : Int)
    (response : ResponseLine) (h : s._isInError = true) :
    (s.handleResponse correlationID response).2._isInError = true := by
  rcases handleResponse_light s correlationID response with h1 | h1
  · rw [h1]; exact h
  · rw [h1]; rfl

theorem writeCommand_isInError (s : YeelightLight) (sock : SocketScript) (command : Command)
    (h : s._isInError = true) : (s.writeCommand sock command).light._isInError = true := by
  rcases writeCommand_light s sock command with h1 | h1
  · rw [h1]; exact h
  · rw [h1]; rfl

theorem streamCommand_isInError (s : YeelightLight) (sock : SocketScript) (command : Command)
    (h : s._isInError = true) : (s.streamCommand sock command).light._isInError = true := by
  rcases streamCommand_light s sock command with h1 | h1
  · rw [h1]; exact h
  · rw [h1]; rfl

theorem sendScene_isInError (s : YeelightLight) (sock : SocketScript) (command : Command)
    (h : s._isInError = true) : (s.sendScene sock command).light._isInError = true := by
  rcases sendScene_light s sock command with h1 | h1
  · rw [h1]; exact h
  · rw [h1]; rfl

theorem outcome_ite_isInError {α : Type} (p : Prop) [Decidable p] (a b : Outcome α)
    (ha : a.light._isInError = true) (hb : b.light._isInError = true) :
    (if p then a else b).light._isInError = true := by
  split
  · exact ha
  · exact hb

theorem setPower_isInError (s : YeelightLight) (onFlag : Bool) (effect : API_EFFECT)
    (duration : Int) (mode : API_MODE) (sock : SocketScript) (h : s._isInError = true) :
    (s.setPower onFlag effect duration mode sock).light._isInError = true := by
  unfold setPower
  apply outcome_ite_isInError
  · exact writeCommand_isInError _ _ _ h
  · exact writeCommand_isInError _ _ _ h

theorem setMusicMode_isInError (s : YeelightLight) (onFlag : Bool) (ipAddress : String)
    (port : Nat) (sock : SocketScript) (h : s._isInError = true) :
    (s.setMusicMode onFlag ipAddress port sock).light._isInError = true := by
  unfold setMusicMode
  apply outcome_ite_isInError
  · exact writeCommand_isInError _ _ _ h
  · exact writeCommand_isInError _ _ _ h

theorem getProperties_isInError (s : YeelightLight) (sock : SocketScript)
    (h : s._isInError = true) : (s.getProperties sock).light._isInError = true := by
  unfold getProperties
  exact writeCommand_isInError _ _ _ h

theorem isInMusicMode_isInError (s : YeelightLight) (deviceCheck : Bool) (sock : SocketScript)
    (streamConnected : Bool) (h : s._isInError = true) :
    (s.isInMusicMode deviceCheck sock streamConnected).light._isInError = true := by
  unfold isInMusicMode
  apply outcome_ite_isInError
  · exact writeCommand_isInError _ _ _ h
  · exact h

theorem setColorRGB_isInError (s : YeelightLight) (color : ColorRgb) (sock : SocketScript)
    (h : s._isInError = true) : (s.setColorRGB color sock).light._isInError = true := by
  unfold setColorRGB
  apply outcome_ite_isInError
  · apply outcome_ite_isInError
    · exact sendScene_isInError _ _ _ h
    · exact sendScene_isInError _ _ _ h
  · exact h

theorem setColorHSV_isInError (getHsv : ColorRgb → Int × Int × Int) (s : YeelightLight)
    (color : ColorRgb) (sock : SocketScript) (h : s._isInError = true) :
    (s.setColorHSV getHsv color sock).light._isInError = true := by
  unfold setColorHSV
  apply outcome_ite_isInError
  · apply outcome_ite_isInError
    · exact sendScene_isInError _ _ _ h
    · exact sendScene_isInError _ _ _ h
  · exact h

theorem setTransitionEffect_isInError (s : YeelightLight) (effect : API_EFFECT)
    (duration : Int) : (s.setTransitionEffect effect duration)._isInError = s._isInError := by
  unfold setTransitionEffect
  simp only []
  split <;> split <;> rfl

/-- The outcome of `open`: success exactly when the connection is made in time and the socket
is in the connected state, and the error flag is set exactly on failure. -/
theorem open_rc_flag (s : YeelightLight) (waitForConnected connected : Bool) :
    (s.open waitForConnected connected).rc = (waitForConnected && connected) ∧
    (s.open waitForConnected connected).light._isInError = !(waitForConnected && connected) := by
  cases waitForConnected <;> cases connected <;> exact ⟨rfl, rfl⟩

/-- C12: the error flag is sticky. On a light whose flag is set, no call other than `open`
clears it (whatever the arguments and the behaviour of the sockets), nor does
`handleResponse`; after `open` the flag is clear if and only if `open` returned success, and
a connect timeout or a socket that is not connected afterwards sets the flag and returns
failure. -/
theorem C12_sticky_error (getHsv : ColorRgb → Int × Int × Int) (s : YeelightLight) :
    (∀ op : Op, (∀ w c : Bool, op ≠ Op.callOpen w c) → s._isInError = true →
      (op.apply getHsv s).light._isInError = true) ∧
    (∀ (correlationID : Int) (response : ResponseLine), s._isInError = true →
      (s.handleResponse correlationID response).2._isInError = true) ∧
    (∀ waitForConnected connected : Bool,
      ((s.open waitForConnected connected).light._isInError = false ↔
        (s.open waitForConnected connected).rc = true) ∧
      ((waitForConnected = false ∨ connected = false) →
        (s.open waitForConnected connected).rc = false ∧
        (s.open waitForConnected connected).light._isInError = true)) := by
  refine ⟨?_, fun cid r h => handleResponse_isInError s cid r h, ?_⟩
  · intro op hop h
    cases op with
    | callOpen waitForConnected connected => exact absurd rfl (hop waitForConnected connected)
    | callClose => exact h
    | callWriteCommand sock command => exact writeCommand_isInError s sock command h
    | callStreamCommand sock command => exact streamCommand_isInError s sock command h
    | callSetHostname hostname port => exact h
    | callSetStreamSocket socket => exact h
    | callSetPower onFlag effect duration mode sock => exact setPower_isInError s _ _ _ _ _ h
    | callSetColorRGB color sock => exact setColorRGB_isInError s color sock h
    | callSetColorHSV color sock => exact setColorHSV_isInError getHsv s color sock h
    | callSetTransitionEffect effect duration =>
      exact (setTransitionEffect_isInError s effect duration).trans h
    | callSetBrightnessConfig min max switchoff extraTime factor => exact h
    | callSetMusicMode onFlag ipAddress port sock => exact setMusicMode_isInError s _ _ _ _ h
    | callGetProperties sock => exact getProperties_isInError s sock h
    | callIsInMusicMode deviceCheck sock streamConnected =>
      exact isInMusicMode_isInError s _ _ _ h
    | callSetInError => rfl
    | callSetDebuglevel level => exact h
  · intro waitForConnected connected
    obtain ⟨hrc, hflag⟩ := open_rc_flag s waitForConnected connected
    rw [hrc, hflag]
    cases waitForConnected <;> cases connected <;> simp

/-- C12 on a light in error: reading the properties leaves the flag set. -/
theorem C12_sticky_error_witness :
    (∀ w c : Bool, Op.callGetProperties (okSocket 1) ≠ Op.callOpen w c) ∧
    demoLight.setInError._isInError = true ∧
    ((Op.callGetProperties (okSocket 1)).apply (fun _ => (0, 0, 0))
      demoLight.setInError).light._isInError = true :=
  ⟨fun _ _ h => Op.noConfusion h, rfl,
    (C12_sticky_error (fun _ => (0, 0, 0)) demoLight.setInError).1
      (Op.callGetProperties (okSocket 1)) (fun _ _ h => Op.noConfusion h) rfl⟩

/-- An error code given as an integer number that fits an `int` is read as that integer. -/
theorem variantToInt_int (n : Int) (h1 : -2147483648 ≤ n) (h2 : n ≤ 2147483647) :
    variantToInt (some (JsonValue.number n)) = n := by
  have hfloor : Rat.floor ((n : ℚ) + 1 / 2) = n := by
    show ⌊(n : ℚ) + 1 / 2⌋ = n
    rw [Int.floor_eq_iff]
    constructor
    · linarith
    · norm_num
  simp only [variantToInt, hfloor]
  exact wrapInt32_of_range n h1 h2

/-- C13: for a response whose id matches, that has no result array and has an error object,
the error flag is raised if and only if the error code, as `errorMap.value("code").toInt()`
reads it (an integer code reads as itself), differs from -1; with the code -1 the light is
left as it is; the result is empty in both cases. A matching response with neither a result
array nor an error object raises the error flag. -/
theorem C13_error_object (s : YeelightLight) (correlationID : Int) (jsonDoc : JsonValue)
    (hmethod : (jsonDoc.toObject.at "method").isNull = true)
    (hid : (jsonDoc.toObject.at "id").toInt = correlationID)
    (hresult : (jsonDoc.toObject.contains "result" &&
      (jsonDoc.toObject.at "result").isArray) = false) :
    ((jsonDoc.toObject.contains "error" && (jsonDoc.toObject.at "error").isObject) = true →
      (variantToInt ((jsonDoc.toObject.at "error").toObject.value "code") ≠ -1 →
        s.handleResponse correlationID (some jsonDoc) = ([], { s with _isInError := true })) ∧
      (variantToInt ((jsonDoc.toObject.at "error").toObject.value "code") = -1 →
        s.handleResponse correlationID (some jsonDoc) = ([], s)) ∧
      (∀ n : Int, -2147483648 ≤ n → n ≤ 2147483647 →
        (jsonDoc.toObject.at "error").toObject.value "code" = some (JsonValue.number n) →
        variantToInt ((jsonDoc.toObject.at "error").toObject.value "code") = n)) ∧
    ((jsonDoc.toObject.contains "error" && (jsonDoc.toObject.at "error").isObject) = false →
      s.handleResponse correlationID (some jsonDoc) = ([], { s with _isInError := true })) := by
  have hidn : ¬ (jsonDoc.toObject.at "id").toInt ≠ correlationID := not_not.mpr hid
  refine ⟨fun herr => ⟨?_, ?_, ?_⟩, ?_⟩
  · intro hcode
    unfold handleResponse
    simp only [API_COMMAND_METHOD, API_RESULT_ID, API_RESULT, API_ERROR, API_ERROR_CODE, hmethod,
      Bool.not_true, Bool.false_eq_true, if_false, if_neg hidn, hresult, herr, if_true,
      if_pos hcode]
    rfl
  · intro hcode
    unfold handleResponse
    have hn : ¬ variantToInt ((jsonDoc.toObject.at "error").toObject.value "code") ≠ -1 :=
      not_not.mpr hcode
    simp only [API_COMMAND_METHOD, API_RESULT_ID, API_RESULT, API_ERROR, API_ERROR_CODE, hmethod,
      Bool.not_true, Bool.false_eq_true, if_false, if_neg hidn, hresult, herr, if_true,
      if_neg hn]
  · intro n h1 h2 hval
    rw [hval]
    exact variantToInt_int n h1 h2
  · intro herr
    unfold handleResponse
    simp only [API_COMMAND_METHOD, API_RESULT_ID, API_RESULT, API_ERROR, hmethod,
      Bool.not_true, Bool.false_eq_true, if_false, if_neg hidn, hresult, herr]
    rfl

/-- C13 on the error responses with the codes -1 and -5000 for the sent id 1. -/
theorem C13_error_object_witness :
    ((errorLine 1 (-5000)).toObject.at "method").isNull = true ∧
    ((errorLine 1 (-5000)).toObject.at "id").toInt = 1 ∧
    ((errorLine 1 (-5000)).toObject.contains "result" &&
      ((errorLine 1 (-5000)).toObject.at "result").isArray) = false ∧
    demoLight.handleResponse 1 (some (errorLine 1 (-5000))) =
      ([], { demoLight with _isInError := true }) ∧
    demoLight.handleResponse 1 (some (errorLine 1 (-1))) = ([], demoLight) :=
  ⟨rfl, by decide, rfl,
    ((C13_error_object demoLight 1 (errorLine 1 (-5000)) rfl (by decide) rfl).1 rfl).1
      (by
        rw [show ((errorLine 1 (-5000)).toObject.at "error").toObject.value "code" =
          some (JsonValue.number ((-5000 : Int) : ℚ)) from rfl,
          variantToInt_int _ (by norm_num) (by norm_num)]
        decide),
    ((C13_error_object demoLight 1 (errorLine 1 (-1)) rfl (by decide) rfl).1 rfl).2.1
      (by
        rw [show ((errorLine 1 (-1)).toObject.at "error").toObject.value "code" =
          some (JsonValue.number ((-1 : Int) : ℚ)) from rfl,
          variantToInt_int _ (by norm_num) (by norm_num)])⟩

/-! ## Initialisation of the array -/

theorem appendConfigured_eq (configured : List JsonValue) (addresses : List yeelightAddress) :
    ∀ (count i : Nat) (list : List yeelightAddress), addresses.length = count →
      (∀ j, j < count →
        parseAddress (LedDeviceYeelight.configuredAddress configured (i + j)) = addresses[j]?) →
      LedDeviceYeelight.appendConfigured configured i count list = some (list ++ addresses) := by
  induction addresses with
  | nil =>
    intro count i list hlen _
    subst hlen
    simp [LedDeviceYeelight.appendConfigured]
  | cons a rest ih =>
    intro count i list hlen hparse
    subst hlen
    have h0 := hparse 0 (by simp)
    simp only [Nat.add_zero, List.getElem?_cons_zero] at h0
    simp only [List.length_cons, LedDeviceYeelight.appendConfigured, h0]
    rw [ih rest.length (i + 1) (list ++ [a]) rfl]
    · simp
    · intro j hj
      have := hparse (j + 1) (by simp; omega)
      simpa [Nat.add_assoc, Nat.add_comm 1 j] using this

/-- The state of `init` at the check of the LED count when the base initialisation fails or
the discovery finds no light. -/
theorem init_noDiscovery (dev : LedDeviceYeelight) (deviceConfig : DeviceConfig)
    (script : InitScript)
    (h : script.isInitOK = false ∨ script.discovered.isEmpty = true) :
    dev.init deviceConfig script =
      (if dev._devConfig.lights.length < script.ledCount then
        some (false, ((dev.baseInit script).2.readConfig deviceConfig).setInError)
      else
        match LedDeviceYeelight.appendConfigured dev._devConfig.lights 0 script.ledCount
            dev._lightsAddressList with
        | none => none
        | some list =>
          some (script.isInitOK, LedDeviceYeelight.updateLights script.extraTimeDarkness
            { (dev.baseInit script).2.readConfig deviceConfig with _lightsAddressList := list }
            list)) := by
  have hscrut : (if (dev.baseInit script).1 = true then
      (((dev.baseInit script).2.readConfig deviceConfig).discoverDevice script.discovered).map
        (fun r => r.2)
      else some ((dev.baseInit script).2.readConfig deviceConfig)) =
      some ((dev.baseInit script).2.readConfig deviceConfig) := by
    rcases h with h | h
    · have : (dev.baseInit script).1 = false := h
      rw [if_neg (by rw [this]; exact Bool.false_ne_true)]
    · by_cases hok : (dev.baseInit script).1 = true
      · rw [if_pos hok]
        unfold LedDeviceYeelight.discoverDevice
        rw [if_pos h]
        rfl
      · rw [if_neg hok]
  unfold LedDeviceYeelight.init
  simp only [hscrut]
  rfl

/-- Claim C14, counterexample: one light is configured and the configuration has two LEDs, but
the discovery finds a light, which makes the LED count 1: `init` succeeds, the array is not in
error and two sessions are created. -/
theorem C14_counterexample :
    oneLightDevice._devConfig.lights.length = 1 ∧ twoLedsDiscovery.ledCount = 2 ∧
    (oneLightDevice.init oneLightDevice._devConfig twoLedsDiscovery).map
      (fun r => (r.1, r.2._deviceInError, r.2._lights.map (fun l => (l._host, l._port)))) =
      some (true, false, [("192.168.0.20", 55443), ("192.168.0.10", 55443)]) :=
  ⟨rfl, rfl, rfl⟩

/-- Claim C14, amended: when the base initialisation fails or the discovery finds no light,
the LED count at the check is the one of the configuration, and with fewer configured lights
than LEDs `init` returns false, the array is put in error (not ready, not enabled) and the
sessions and the address list are left as they were. -/
theorem C14_too_few_lights (dev : LedDeviceYeelight) (deviceConfig : DeviceConfig)
    (script : InitScript)
    (hnone : script.isInitOK = false ∨ script.discovered.isEmpty = true)
    (hfew : dev._devConfig.lights.length < script.ledCount) :
    ∃ dev1, dev.init deviceConfig script = some (false, dev1) ∧
      dev1._deviceInError = true ∧ dev1._deviceReady = false ∧ dev1._enabled = false ∧
      dev1._lights = dev._lights ∧ dev1._lightsCount = dev._lightsCount ∧
      dev1._lightsAddressList = dev._lightsAddressList := by
  rw [init_noDiscovery dev deviceConfig script hnone, if_pos hfew]
  exact ⟨_, rfl, rfl, rfl, rfl, rfl, rfl, rfl⟩

/-- C14 (amended) on a new device with one configured light and two LEDs, the discovery
finding nothing. -/
theorem C14_too_few_lights_witness :
    ∃ dev1, oneLightDevice.init oneLightDevice._devConfig twoLedsNoDiscovery = some (false, dev1) ∧
      dev1._deviceInError = true ∧ dev1._deviceReady = false ∧ dev1._enabled = false ∧
      dev1._lights = oneLightDevice._lights ∧ dev1._lightsCount = oneLightDevice._lightsCount ∧
      dev1._lightsAddressList = oneLightDevice._lightsAddressList :=
  C14_too_few_lights oneLightDevice oneLightDevice._devConfig twoLedsNoDiscovery
    (Or.inr rfl) (by decide)

theorem splitParts_ne_nil (sep : Char) (l : List Char) : splitParts sep l ≠ [] := by
  cases l with
  | nil => simp [splitParts]
  | cons c cs =>
    unfold splitParts
    by_cases h : c = sep
    · simp [h]
    · rw [if_neg h]
      split <;> simp

theorem splitParts_noSep (sep : Char) (l : List Char) (h : sep ∉ l) :
    splitParts sep l = [l] := by
  induction l with
  | nil => rfl
  | cons c cs ih =>
    have hc : c ≠ sep := fun e => h (by simp [e])
    have hcs : sep ∉ cs := fun e => h (List.mem_cons_of_mem _ e)
    unfold splitParts
    rw [if_neg hc, ih hcs]

theorem splitParts_append (sep : Char) (a b : List Char) (h : sep ∉ a) :
    splitParts sep (a ++ sep :: b) = a :: splitParts sep b := by
  induction a with
  | nil => simp [splitParts]
  | cons c cs ih =>
    have hc : c ≠ sep := fun e => h (by simp [e])
    have hcs : sep ∉ cs := fun e => h (List.mem_cons_of_mem _ e)
    rw [List.cons_append]
    simp only [splitParts, if_neg hc, ih hcs]

theorem qSplitSkipEmpty_host (data : List Char) (hne : data ≠ []) (hcolon : ':' ∉ data) :
    qSplitSkipEmpty (String.mk data) ':' = [String.mk data] := by
  unfold qSplitSkipEmpty
  rw [show (String.mk data).toList = data from rfl, splitParts_noSep _ _ hcolon]
  cases data with
  | nil => exact absurd rfl hne
  | cons c cs => rfl

theorem qSplitSkipEmpty_host_port (host port : List Char) (hne : host ≠ []) (hport : port ≠ [])
    (hcolon : ':' ∉ host) (hcolon2 : ':' ∉ port) :
    qSplitSkipEmpty (String.mk host ++ ":" ++ String.mk port) ':' =
      [String.mk host, String.mk port] := by
  unfold qSplitSkipEmpty
  rw [show (String.mk host ++ ":" ++ String.mk port).toList = host ++ ':' :: port from by
    simp [String.toList, String.data_append],
    splitParts_append _ _ _ hcolon, splitParts_noSep _ _ hcolon2]
  cases host with
  | nil => exact absurd rfl hne
  | cons c cs =>
    cases port with
    | nil => exact absurd rfl hport
    | cons d ds => rfl

/-- A host without a colon is an address with the default port. -/
theorem parseAddress_host (host : String) (hne : host ≠ "") (hcolon : ':' ∉ host.toList) :
    parseAddress host = some ⟨host, API_DEFAULT_PORT⟩ := by
  cases host with
  | mk data =>
    unfold parseAddress
    rw [qSplitSkipEmpty_host data (fun e => hne (by rw [e])) hcolon]

/-- The text host, colon, port is the address with that host and that port. -/
theorem parseAddress_host_port (host port : String) (hne : host ≠ "") (hport : port ≠ "")
    (hcolon : ':' ∉ host.toList) (hcolon2 : ':' ∉ port.toList) :
    parseAddress (host ++ ":" ++ port) = some ⟨host, qStringToUShort port⟩ := by
  cases host with
  | mk hdata =>
    cases port with
    | mk pdata =>
      unfold parseAddress
      rw [qSplitSkipEmpty_host_port hdata pdata (fun e => hne (by rw [e]))
        (fun e => hport (by rw [e])) hcolon hcolon2]

theorem filterMap_contains (f : yeelightAddress → YeelightLight) (list : List yeelightAddress) :
    ∀ part : List yeelightAddress, (∀ a ∈ part, a ∈ list) →
      part.filterMap (fun address => if list.contains address then some (f address) else none) =
        part.map f := by
  intro part
  induction part with
  | nil => intro _; rfl
  | cons a rest ih =>
    intro h
    have ha : list.contains a = true := by
      rw [List.contains_iff_exists_mem_beq]
      exact ⟨a, h a (List.mem_cons_self _ _), by simp⟩
    rw [List.filterMap_cons, ha, if_pos rfl, List.map_cons,
      ih (fun b hb => h b (List.mem_cons_of_mem _ hb))]

/-- The lights after `updateLights` with the address list of the device itself. -/
theorem updateLights_self (extraTimeDarkness : Int) (dev : LedDeviceYeelight)
    (hlights : dev._lightsAddressList = [] → dev._lights = []) :
    (LedDeviceYeelight.updateLights extraTimeDarkness dev dev._lightsAddressList)._lights =
        dev._lightsAddressList.map
          (fun a => YeelightLight.ctor extraTimeDarkness a.host a.port) ∧
      (LedDeviceYeelight.updateLights extraTimeDarkness dev
        dev._lightsAddressList)._lightsAddressList = dev._lightsAddressList := by
  unfold LedDeviceYeelight.updateLights
  by_cases h : dev._lightsAddressList = []
  · rw [if_neg (by rw [h]; decide)]
    exact ⟨by rw [hlights h, h]; rfl, rfl⟩
  · have hne : (!dev._lightsAddressList.isEmpty) = true := by
      cases hl : dev._lightsAddressList with
      | nil => exact absurd hl h
      | cons _ _ => rfl
    rw [if_pos hne]
    exact ⟨filterMap_contains _ _ _ (fun a ha => ha), rfl⟩

/-- Claim C15, counterexample: with three configured lights and two LEDs, a second call of
`init` on the same device leaves four sessions, and a call during which the discovery finds a
light leaves the discovered light followed by the first configured one. -/
theorem C15_counterexample :
    ((threeLightDevice.init threeLightDevice._devConfig twoLedsNoDiscovery).bind
        (fun r => r.2.init r.2._devConfig twoLedsNoDiscovery)).map
      (fun r => r.2._lights.map (fun l => (l._host, l._port))) =
      some [("192.168.0.10", 55443), ("192.168.0.11", 55443),
        ("192.168.0.10", 55443), ("192.168.0.11", 55443)] ∧
    (threeLightDevice.init threeLightDevice._devConfig twoLedsDiscovery).map
      (fun r => r.2._lights.map (fun l => (l._host, l._port))) =
      some [("192.168.0.20", 55443), ("192.168.0.10", 55443)] :=
  ⟨rfl, rfl⟩

/-- Claim C15, amended: on a device without addresses and sessions (as the constructor leaves
it), when the base initialisation fails or the discovery finds no light, and the first
`ledCount` configured addresses have a host, `init` returns the result of the base
initialisation and leaves exactly `ledCount` new sessions in strip order, session `i` with the
host and port parsed from the configured address `i`; later configured addresses are not
looked at. A host alone gets the port 55443 and host, colon, port gets that port. -/
theorem C15_sessions_from_configured (dev : LedDeviceYeelight) (deviceConfig : DeviceConfig)
    (script : InitScript) (addresses : List yeelightAddress)
    (hnone : script.isInitOK = false ∨ script.discovered.isEmpty = true)
    (hfresh : dev._lightsAddressList = []) (hlights : dev._lights = [])
    (hcount : script.ledCount ≤ dev._devConfig.lights.length)
    (hlen : addresses.length = script.ledCount)
    (hparse : ∀ i, i < script.ledCount →
      parseAddress (LedDeviceYeelight.configuredAddress dev._devConfig.lights i) =
        addresses[i]?) :
    (∃ dev1, dev.init deviceConfig script = some (script.isInitOK, dev1) ∧
      dev1._lights =
        addresses.map (fun a => YeelightLight.ctor script.extraTimeDarkness a.host a.port) ∧
      dev1._lights.length = script.ledCount ∧ dev1._lightsAddressList = addresses) ∧
    (∀ host : String, host ≠ "" → ':' ∉ host.toList →
      parseAddress host = some ⟨host, 55443⟩) ∧
    (∀ host port : String, host ≠ "" → port ≠ "" → ':' ∉ host.toList → ':' ∉ port.toList →
      parseAddress (host ++ ":" ++ port) = some ⟨host, qStringToUShort port⟩) := by
  refine ⟨?_, parseAddress_host, parseAddress_host_port⟩
  rw [init_noDiscovery dev deviceConfig script hnone, if_neg (Nat.not_lt.mpr hcount), hfresh,
    appendConfigured_eq dev._devConfig.lights addresses script.ledCount 0 [] hlen
      (by intro j hj; rw [Nat.zero_add]; exact hparse j hj)]
  have h := updateLights_self script.extraTimeDarkness
    { (dev.baseInit script).2.readConfig deviceConfig with
      _lightsAddressList := [] ++ addresses } (fun _ => hlights)
  refine ⟨_, rfl, h.1, ?_, h.2⟩
  rw [h.1, List.length_map]
  exact hlen

/-- C15 (amended) on a new device with three configured lights and two LEDs: two sessions,
the second with the default port. -/
theorem C15_sessions_from_configured_witness :
    (∃ dev1, threeLightDevice.init threeLightDevice._devConfig twoLedsNoDiscovery =
        some (true, dev1) ∧
      dev1._lights = [YeelightLight.ctor 0 "192.168.0.10" 55443,
        YeelightLight.ctor 0 "192.168.0.11" 55443] ∧
      dev1._lights.length = 2 ∧
      dev1._lightsAddressList = [⟨"192.168.0.10", 55443⟩, ⟨"192.168.0.11", 55443⟩]) ∧
    (∀ host : String, host ≠ "" → ':' ∉ host.toList →
      parseAddress host = some ⟨host, 55443⟩) ∧
    (∀ host port : String, host ≠ "" → port ≠ "" → ':' ∉ host.toList → ':' ∉ port.toList →
      parseAddress (host ++ ":" ++ port) = some ⟨host, qStringToUShort port⟩) :=
  C15_sessions_from_configured threeLightDevice threeLightDevice._devConfig twoLedsNoDiscovery
    [⟨"192.168.0.10", 55443⟩, ⟨"192.168.0.11", 55443⟩] (Or.inr rfl) rfl rfl (by decide) rfl
    (by
      intro i hi
      have hi2 : i < 2 := hi
      interval_cases i <;> rfl)

/-! ## Opening the array -/

theorem openMusicModeServer_lights (dev : LedDeviceYeelight) (server : ServerScript) :
    (dev.openMusicModeServer server).2._lights = dev._lights := by
  unfold LedDeviceYeelight.openMusicModeServer
  cases server.address <;> dsimp only <;> split_ifs <;> rfl

theorem openLights_length (dev : LedDeviceYeelight) (scripts : Nat → OpenScript) :
    ∀ (lights : List YeelightLight) (i : Nat),
      (LedDeviceYeelight.openLights dev scripts i lights).length = lights.length := by
  intro lights
  induction lights with
  | nil => intro i; rfl
  | cons light rest ih =>
    intro i
    simp only [LedDeviceYeelight.openLights, List.length_cons, ih]

/-- A light whose `open` fails is left in error by the loop body of the array `open`. -/
theorem openLight_failed (dev : LedDeviceYeelight) (light : YeelightLight)
    (script : OpenScript)
    (hfail : script.waitForConnected = false ∨ script.connected = false) :
    (LedDeviceYeelight.openLight dev light script)._isInError = true := by
  have hflag : ∀ s : YeelightLight,
      (s.open script.waitForConnected script.connected).light._isInError = true := by
    intro s
    rw [(open_rc_flag s _ _).2]
    rcases hfail with h | h <;> rw [h] <;> simp
  unfold LedDeviceYeelight.openLight
  simp only [isReady, hflag, Bool.not_true, Bool.false_eq_true, if_false]

theorem openLights_failed (dev : LedDeviceYeelight) (scripts : Nat → OpenScript)
    (hfail : ∀ i, (scripts i).waitForConnected = false ∨ (scripts i).connected = false) :
    ∀ (lights : List YeelightLight) (i : Nat),
      ∀ light ∈ LedDeviceYeelight.openLights dev scripts i lights, light._isInError = true := by
  intro lights
  induction lights with
  | nil => intro i light h; simp [LedDeviceYeelight.openLights] at h
  | cons first rest ih =>
    intro i light h
    simp only [LedDeviceYeelight.openLights, List.mem_cons] at h
    rcases h with h | h
    · rw [h]; exact openLight_failed dev first (scripts i) (hfail i)
    · exact ih (i + 1) light h

/-- Claim C16: what the code does. Whenever `init` succeeds with at least one session and the
music mode server comes up, `open` returns 0 and marks the device ready and enabled even if
the `open` of every light fails: the failed sessions stay in the list, each in error. -/
theorem C16_open_with_all_lights_failed (dev : LedDeviceYeelight) (script : InitScript)
    (server : ServerScript) (scripts : Nat → OpenScript) (dev1 : LedDeviceYeelight)
    (hinit : ({ dev with _deviceReady := false }).init dev._devConfig script = some (true, dev1))
    (hlights : dev1._lights ≠ [])
    (hserver : (dev1.openMusicModeServer server).1 = true)
    (hfail : ∀ i, (scripts i).waitForConnected = false ∨ (scripts i).connected = false) :
    ∃ dev2, dev.open script server scripts = some (0, dev2) ∧
      dev2._deviceReady = true ∧ dev2._enabled = true ∧
      dev2._lights.length = dev1._lights.length ∧
      ∀ light ∈ dev2._lights, light.isReady = false := by
  have hne : (!dev1._lights.isEmpty) = true := by
    cases h : dev1._lights with
    | nil => exact absurd h hlights
    | cons _ _ => rfl
  have hlen : (LedDeviceYeelight.openLights (dev1.openMusicModeServer server).2 scripts 0
      (dev1.openMusicModeServer server).2._lights).length = dev1._lights.length := by
    rw [openLights_length, openMusicModeServer_lights]
  have hne2 : (!(LedDeviceYeelight.openLights (dev1.openMusicModeServer server).2 scripts 0
      (dev1.openMusicModeServer server).2._lights).isEmpty) = true := by
    cases h : LedDeviceYeelight.openLights (dev1.openMusicModeServer server).2 scripts 0
        (dev1.openMusicModeServer server).2._lights with
    | nil =>
      rw [h] at hlen
      cases h2 : dev1._lights with
      | nil => exact absurd h2 hlights
      | cons _ _ => rw [h2] at hlen; simp at hlen
    | cons _ _ => rfl
  unfold LedDeviceYeelight.open
  simp only [hinit, if_true, hne, hserver, hne2]
  refine ⟨_, rfl, rfl, rfl, hlen, ?_⟩
  intro light hmem
  have := openLights_failed (dev1.openMusicModeServer server).2 scripts hfail _ 0 light hmem
  simp [isReady, this]

/-- C16 on a new device with one configured light whose connection times out. -/
theorem C16_open_with_all_lights_failed_witness :
    ∃ dev2, oneLightDevice.open ⟨true, 1, "", 0⟩ serverUp (fun _ => failOpen) = some (0, dev2) ∧
      dev2._deviceReady = true ∧ dev2._enabled = true ∧
      dev2._lights.length = 1 ∧
      ∀ light ∈ dev2._lights, light.isReady = false :=
  C16_open_with_all_lights_failed oneLightDevice ⟨true, 1, "", 0⟩ serverUp (fun _ => failOpen)
    ((LedDeviceYeelight.updateLights 0
      { (oneLightDevice.baseInit ⟨true, 1, "", 0⟩).2.readConfig oneLightDevice._devConfig with
        _lightsAddressList := [⟨"192.168.0.10", 55443⟩] } [⟨"192.168.0.10", 55443⟩]))
    rfl (fun h => absurd (congrArg List.length h) (by decide)) rfl (fun _ => Or.inl rfl)

/-! ## Writing a frame -/

theorem sendScene_of_error (s : YeelightLight) (sock : SocketScript) (command : Command)
    (h : s._isInError = true) : s.sendScene sock command = ⟨false, [], s, []⟩ := by
  unfold sendScene streamCommand writeCommand
  simp [h]

/-- On a light in error `setColorRGB` sends nothing and leaves the flags as they are. -/
theorem setColorRGB_of_error (s : YeelightLight) (color : ColorRgb) (sock : SocketScript)
    (h : s._isInError = true) :
    (s.setColorRGB color sock).events = [] ∧
      (s.setColorRGB color sock).light._isInError = true ∧
      (s.setColorRGB color sock).light._isInMusicMode = s._isInMusicMode := by
  unfold setColorRGB
  split
  · dsimp only
    rw [sendScene_of_error _ _ _ (show (s.getCommand _ _).2._isInError = true from h)]
    exact ⟨rfl, h, rfl⟩
  · exact ⟨rfl, h, rfl⟩

/-- On a light in error `setColorHSV` sends nothing and leaves the flags as they are. -/
theorem setColorHSV_of_error (getHsv : ColorRgb → Int × Int × Int) (s : YeelightLight)
    (color : ColorRgb) (sock : SocketScript) (h : s._isInError = true) :
    (s.setColorHSV getHsv color sock).events = [] ∧
      (s.setColorHSV getHsv color sock).light._isInError = true ∧
      (s.setColorHSV getHsv color sock).light._isInMusicMode = s._isInMusicMode := by
  unfold setColorHSV
  split
  · dsimp only
    rw [sendScene_of_error _ _ _ (show (s.getCommand _ _).2._isInError = true from h)]
    exact ⟨rfl, h, rfl⟩
  · exact ⟨rfl, h, rfl⟩

theorem writeCommand_isInMusicMode (s : YeelightLight) (sock : SocketScript)
    (command : Command) : (s.writeCommand sock command).light._isInMusicMode = s._isInMusicMode := by
  rcases writeCommand_light s sock command with hw | hw
  · rw [hw]
  · rw [hw]; rfl

/-- After `setMusicMode(true, ...)` on a light not flagged in music mode, the flag tells
whether the command succeeded. -/
theorem setMusicMode_flag (s : YeelightLight) (ipAddress : String) (port : Nat)
    (sock : SocketScript) (h : s._isInMusicMode = false) :
    (s.setMusicMode true ipAddress port sock).light._isInMusicMode =
      (s.setMusicMode true ipAddress port sock).rc := by
  have key : ∀ (w : WriteOutcome) (b : Command), w.light._isInMusicMode = false →
      (if w.rc = true then
        (⟨true, { w.light with _isInMusicMode := true }, w.events, [b]⟩ : Outcome Bool)
      else ⟨false, w.light, w.events, [b]⟩).light._isInMusicMode =
      (if w.rc = true then
        (⟨true, { w.light with _isInMusicMode := true }, w.events, [b]⟩ : Outcome Bool)
      else ⟨false, w.light, w.events, [b]⟩).rc := by
    intro w b hw
    by_cases hrc : w.rc = true
    · rw [if_pos hrc]
    · rw [if_neg hrc]; exact hw
  exact key _ _ ((writeCommand_isInMusicMode _ _ _).trans h)

theorem writeLight_not_ready (getHsv : ColorRgb → Int × Int × Int) (dev : LedDeviceYeelight)
    (light : YeelightLight) (color : ColorRgb) (frame : FrameScript)
    (h : light.isReady = false) :
    LedDeviceYeelight.writeLight getHsv dev light color frame = ⟨light, [], []⟩ := by
  unfold LedDeviceYeelight.writeLight
  rw [if_neg (by rw [h]; exact Bool.false_ne_true)]

/-- Claim C17, counterexample: a ready light without stream socket accepts `set_music`, but no
connection arrives within the streaming timeout: after the frame the light is flagged in
music mode and its sticky error flag is set, so it is no longer ready. -/
theorem C17_counterexample :
    readyLight.isReady = true ∧
    (readyLight.isInMusicMode false noConnectionFrame.music
      noConnectionFrame.streamConnected).rc = false ∧
    (LedDeviceYeelight.writeLight qColorGetHsv (servedDevice [readyLight]) readyLight
      ⟨255, 0, 0⟩ noConnectionFrame).light._isInMusicMode = true ∧
    (LedDeviceYeelight.writeLight qColorGetHsv (servedDevice [readyLight]) readyLight
      ⟨255, 0, 0⟩ noConnectionFrame).light._isInError = true ∧
    (LedDeviceYeelight.writeLight qColorGetHsv (servedDevice [readyLight]) readyLight
      ⟨255, 0, 0⟩ noConnectionFrame).light.isReady = false :=
  ⟨rfl, rfl, rfl, rfl, rfl⟩

/-- Claim C17, amended: for a ready light that is not in music mode, when `write` issues the
handshake and no connection is accepted within the streaming timeout, the sticky error flag
of the light is raised (it is no longer ready); the socket calls of the frame for this light
are those of the `set_music` command alone, so no colour command is delivered; the light is
flagged in music mode exactly when `set_music` succeeded; and every later `write` skips the
light, so the handshake is not retried. -/
theorem C17_no_stream_connection (getHsv : ColorRgb → Int × Int × Int)
    (dev : LedDeviceYeelight) (s : YeelightLight) (color : ColorRgb) (frame : FrameScript)
    (hready : s.isReady = true)
    (hmusic : (s.isInMusicMode false frame.music frame.streamConnected).rc = false)
    (hnone : frame.newConnection = none) :
    (LedDeviceYeelight.writeLight getHsv dev s color frame).light._isInError = true ∧
    (LedDeviceYeelight.writeLight getHsv dev s color frame).light.isReady = false ∧
    (LedDeviceYeelight.writeLight getHsv dev s color frame).events =
      ((s.isInMusicMode false frame.music frame.streamConnected).light.setMusicMode true
        dev._musicModeServerAddress dev._musicModeServerPort frame.music).events ∧
    (LedDeviceYeelight.writeLight getHsv dev s color frame).light._isInMusicMode =
      ((s.isInMusicMode false frame.music frame.streamConnected).light.setMusicMode true
        dev._musicModeServerAddress dev._musicModeServerPort frame.music).rc ∧
    ∀ (color2 : ColorRgb) (frame2 : FrameScript),
      LedDeviceYeelight.writeLight getHsv dev
          (LedDeviceYeelight.writeLight getHsv dev s color frame).light color2 frame2 =
        ⟨(LedDeviceYeelight.writeLight getHsv dev s color frame).light, [], []⟩ := by
  have hprobe : (s.isInMusicMode false frame.music frame.streamConnected).light._isInMusicMode
      = false := by
    have : (s.isInMusicMode false frame.music frame.streamConnected).light._isInMusicMode =
        (s.isInMusicMode false frame.music frame.streamConnected).rc := rfl
    rw [this, hmusic]
  have hflag := setMusicMode_flag (s.isInMusicMode false frame.music frame.streamConnected).light
    dev._musicModeServerAddress dev._musicModeServerPort frame.music hprobe
  have herr : (((s.isInMusicMode false frame.music frame.streamConnected).light.setMusicMode
      true dev._musicModeServerAddress dev._musicModeServerPort frame.music).light.setInError
      )._isInError = true := rfl
  have hshape : LedDeviceYeelight.writeLight getHsv dev s color frame =
      (if dev._outputColorModel = 1 then
        (⟨((((s.isInMusicMode false frame.music frame.streamConnected).light.setMusicMode
            true dev._musicModeServerAddress dev._musicModeServerPort
            frame.music).light.setInError).setColorRGB color frame.color).light,
          ((s.isInMusicMode false frame.music frame.streamConnected).light.setMusicMode
            true dev._musicModeServerAddress dev._musicModeServerPort frame.music).events ++
          ((((s.isInMusicMode false frame.music frame.streamConnected).light.setMusicMode
            true dev._musicModeServerAddress dev._musicModeServerPort
            frame.music).light.setInError).setColorRGB color frame.color).events,
          ((s.isInMusicMode false frame.music frame.streamConnected).light.setMusicMode
            true dev._musicModeServerAddress dev._musicModeServerPort frame.music).built ++
          ((((s.isInMusicMode false frame.music frame.streamConnected).light.setMusicMode
            true dev._musicModeServerAddress dev._musicModeServerPort
            frame.music).light.setInError).setColorRGB color frame.color).built⟩ : Trace)
      else
        ⟨((((s.isInMusicMode false frame.music frame.streamConnected).light.setMusicMode
            true dev._musicModeServerAddress dev._musicModeServerPort
            frame.music).light.setInError).setColorHSV getHsv color frame.color).light,
          ((s.isInMusicMode false frame.music frame.streamConnected).light.setMusicMode
            true dev._musicModeServerAddress dev._musicModeServerPort frame.music).events ++
          ((((s.isInMusicMode false frame.music frame.streamConnected).light.setMusicMode
            true dev._musicModeServerAddress dev._musicModeServerPort
            frame.music).light.setInError).setColorHSV getHsv color frame.color).events,
          ((s.isInMusicMode false frame.music frame.streamConnected).light.setMusicMode
            true dev._musicModeServerAddress dev._musicModeServerPort frame.music).built ++
          ((((s.isInMusicMode false frame.music frame.streamConnected).light.setMusicMode
            true dev._musicModeServerAddress dev._musicModeServerPort
            frame.music).light.setInError).setColorHSV getHsv color frame.color).built⟩) := by
    unfold LedDeviceYeelight.writeLight
    rw [if_pos hready]
    simp only [hmusic, hnone, Bool.not_false, if_true]
    split <;> rfl
  have hall : (LedDeviceYeelight.writeLight getHsv dev s color frame).light._isInError = true ∧
      (LedDeviceYeelight.writeLight getHsv dev s color frame).events =
        ((s.isInMusicMode false frame.music frame.streamConnected).light.setMusicMode true
          dev._musicModeServerAddress dev._musicModeServerPort frame.music).events ∧
      (LedDeviceYeelight.writeLight getHsv dev s color frame).light._isInMusicMode =
        ((s.isInMusicMode false frame.music frame.streamConnected).light.setMusicMode true
          dev._musicModeServerAddress dev._musicModeServerPort frame.music).rc := by
    rw [hshape]
    by_cases hmodel : dev._outputColorModel = 1
    · rw [if_pos hmodel]
      have h := setColorRGB_of_error _ color frame.color herr
      refine ⟨h.2.1, ?_, ?_⟩
      · show _ ++ _ = _
        rw [h.1, List.append_nil]
      · exact h.2.2.trans hflag
    · rw [if_neg hmodel]
      have h := setColorHSV_of_error getHsv _ color frame.color herr
      refine ⟨h.2.1, ?_, ?_⟩
      · show _ ++ _ = _
        rw [h.1, List.append_nil]
      · exact h.2.2.trans hflag
  have hnot : (LedDeviceYeelight.writeLight getHsv dev s color frame).light.isReady = false := by
    unfold isReady
    rw [hall.1]
    rfl
  exact ⟨hall.1, hnot, hall.2.1, hall.2.2,
    fun color2 frame2 => writeLight_not_ready getHsv dev _ color2 frame2 hnot⟩

/-- C17 (amended) on a ready light that accepts `set_music`: the error flag is set and the
only command on the network is `set_music`. -/
theorem C17_no_stream_connection_witness :
    (LedDeviceYeelight.writeLight qColorGetHsv (servedDevice [readyLight]) readyLight
      ⟨255, 0, 0⟩ noConnectionFrame).light._isInError = true ∧
    (LedDeviceYeelight.writeLight qColorGetHsv (servedDevice [readyLight]) readyLight
      ⟨255, 0, 0⟩ noConnectionFrame).events =
      [SocketEvent.write false ⟨1, "set_music",
          [JsonValue.number (1 : Int), JsonValue.string "192.168.0.2",
            JsonValue.number (40000 : Nat)]⟩,
        SocketEvent.waitForBytesWritten false, SocketEvent.waitForReadyRead READ_TIMEOUT,
        SocketEvent.readLine (okLine 1), SocketEvent.waitForReadyRead 500] :=
  ⟨(C17_no_stream_connection qColorGetHsv (servedDevice [readyLight]) readyLight ⟨255, 0, 0⟩
      noConnectionFrame rfl rfl rfl).1,
    (C17_no_stream_connection qColorGetHsv (servedDevice [readyLight]) readyLight ⟨255, 0, 0⟩
      noConnectionFrame rfl rfl rfl).2.2.1.trans rfl⟩

/-- The loop of `write` from the position `idx` on, when there are enough colours: it returns
0 and the lights, socket calls and commands are those of the loop body, light by light. -/
theorem writeLoop_enough (getHsv : ColorRgb → Int × Int × Int) (dev : LedDeviceYeelight)
    (ledValues : List ColorRgb) (frames : Nat → FrameScript) :
    ∀ (lights : List YeelightLight) (idx : Nat), idx + lights.length ≤ ledValues.length →
      LedDeviceYeelight.writeLoop getHsv dev ledValues frames idx lights =
        ⟨some 0,
          (lights.enumFrom idx).map (fun p => (LedDeviceYeelight.writeLight getHsv dev p.2
            (ledValues.getD p.1 ⟨0, 0, 0⟩) (frames p.1)).light),
          ((lights.enumFrom idx).map (fun p => (LedDeviceYeelight.writeLight getHsv dev p.2
            (ledValues.getD p.1 ⟨0, 0, 0⟩) (frames p.1)).events)).flatten,
          ((lights.enumFrom idx).map (fun p => (LedDeviceYeelight.writeLight getHsv dev p.2
            (ledValues.getD p.1 ⟨0, 0, 0⟩) (frames p.1)).built)).flatten⟩ := by
  intro lights
  induction lights with
  | nil => intro idx _; rfl
  | cons light rest ih =>
    intro idx h
    have hidx : idx < ledValues.length := by
      simp only [List.length_cons] at h; omega
    have hget : ledValues[idx]? = some (ledValues.getD idx ⟨0, 0, 0⟩) := by
      rw [List.getD_eq_getElem?_getD, List.getElem?_eq_getElem hidx]
      rfl
    unfold LedDeviceYeelight.writeLoop
    simp only [hget]
    rw [ih (idx + 1) (by simp only [List.length_cons] at h; omega)]
    simp only [List.enumFrom_cons, List.map_cons, List.flatten_cons]

/-- Claim C18: with at least as many colours as sessions, `write` returns 0 whatever the
sessions do. It runs the loop body on the sessions in index order: session `i` is left as the
body leaves it when given colour `i`, and the socket calls and the built commands of the frame
are those of the bodies in index order. For a session in error the body does nothing, and
the sessions after it still get the colours of their own positions. For a ready session in
music mode the body is `setColorRGB` or `setColorHSV`, as the colour model says, with that
colour. -/
theorem C18_write_frame (getHsv : ColorRgb → Int × Int × Int) (dev : LedDeviceYeelight)
    (ledValues : List ColorRgb) (frames : Nat → FrameScript)
    (hlen : dev._lights.length ≤ ledValues.length) :
    (dev.write getHsv ledValues frames).1.rc = some 0 ∧
    (dev.write getHsv ledValues frames).2._lights = (dev.write getHsv ledValues frames).1.lights ∧
    (dev.write getHsv ledValues frames).1.lights.length = dev._lights.length ∧
    (∀ (i : Nat) (light : YeelightLight) (color : ColorRgb),
      dev._lights[i]? = some light → ledValues[i]? = some color →
      (dev.write getHsv ledValues frames).1.lights[i]? =
        some (LedDeviceYeelight.writeLight getHsv dev light color (frames i)).light) ∧
    (dev.write getHsv ledValues frames).1.events =
      (dev._lights.enum.map (fun p => (LedDeviceYeelight.writeLight getHsv dev p.2
        (ledValues.getD p.1 ⟨0, 0, 0⟩) (frames p.1)).events)).flatten ∧
    (dev.write getHsv ledValues frames).1.built =
      (dev._lights.enum.map (fun p => (LedDeviceYeelight.writeLight getHsv dev p.2
        (ledValues.getD p.1 ⟨0, 0, 0⟩) (frames p.1)).built)).flatten ∧
    (∀ (light : YeelightLight) (color : ColorRgb) (frame : FrameScript),
      light.isReady = false →
      LedDeviceYeelight.writeLight getHsv dev light color frame = ⟨light, [], []⟩) ∧
    (∀ (light : YeelightLight) (color : ColorRgb) (frame : FrameScript),
      light.isReady = true →
      (light.isInMusicMode false frame.music frame.streamConnected).rc = true →
      LedDeviceYeelight.writeLight getHsv dev light color frame =
        if dev._outputColorModel = 1 then
          Trace.ofOutcome ((light.isInMusicMode false frame.music
            frame.streamConnected).light.setColorRGB color frame.color)
        else
          Trace.ofOutcome ((light.isInMusicMode false frame.music
            frame.streamConnected).light.setColorHSV getHsv color frame.color)) := by
  have hloop := writeLoop_enough getHsv dev ledValues frames dev._lights 0
    (by rw [Nat.zero_add]; exact hlen)
  have hwrite : (dev.write getHsv ledValues frames).1 =
      LedDeviceYeelight.writeLoop getHsv dev ledValues frames 0 dev._lights := rfl
  refine ⟨?_, rfl, ?_, ?_, ?_, ?_, ?_, ?_⟩
  · rw [hwrite, hloop]
  · rw [hwrite, hloop]
    simp only [List.length_map, List.enumFrom_length]
  · intro i light color hlight hcolor
    rw [hwrite, hloop]
    simp only [List.getElem?_map, List.getElem?_enumFrom, hlight, Option.map_some',
      Nat.zero_add]
    rw [List.getD_eq_getElem?_getD, hcolor]
    rfl
  · rw [hwrite, hloop]; rfl
  · rw [hwrite, hloop]; rfl
  · intro light color frame h
    exact writeLight_not_ready getHsv dev light color frame h
  · intro light color frame hready hmusic
    unfold LedDeviceYeelight.writeLight
    rw [if_pos hready]
    simp only [hmusic, Bool.not_true, Bool.false_eq_true, if_false, List.nil_append]
    split <;> rfl

/-- C18 on a device with a light in error and a light in music mode: the one command built
carries the colour of the second position. -/
theorem C18_write_frame_witness :
    ((servedDevice [erroredLight, streamingLight]).write qColorGetHsv
      [⟨255, 0, 0⟩, ⟨0, 255, 0⟩] (fun _ => streamFrame)).1.rc = some 0 ∧
    ((servedDevice [erroredLight, streamingLight]).write qColorGetHsv
      [⟨255, 0, 0⟩, ⟨0, 255, 0⟩] (fun _ => streamFrame)).1.built =
      [⟨1, "set_scene", [JsonValue.string "color", JsonValue.number (65280 : Int),
        JsonValue.number (100 : Int), JsonValue.string "smooth", JsonValue.number (50 : Int)]⟩] :=
  ⟨(C18_write_frame qColorGetHsv (servedDevice [erroredLight, streamingLight])
      [⟨255, 0, 0⟩, ⟨0, 255, 0⟩] (fun _ => streamFrame) (by decide)).1,
    (C18_write_frame qColorGetHsv (servedDevice [erroredLight, streamingLight])
      [⟨255, 0, 0⟩, ⟨0, 255, 0⟩] (fun _ => streamFrame) (by decide)).2.2.2.2.2.1.trans rfl⟩

/-! ## Properties -/

theorem lookup_qMapInsert (m : List (String × String)) (key value k : String) :
    (qMapInsert m key value).lookup k = if k = key then some value else m.lookup k := by
  induction m with
  | nil =>
    by_cases h : k = key
    · simp [qMapInsert, List.lookup, h]
    · have hb : (k == key) = false := beq_false_of_ne h
      simp [qMapInsert, List.lookup, h, hb]
  | cons kv rest ih =>
    obtain ⟨k0, v0⟩ := kv
    by_cases h0 : k0 = key
    · subst h0
      by_cases h : k = k0
      · simp [qMapInsert, List.lookup, h]
      · have hb : (k == k0) = false := beq_false_of_ne h
        simp [qMapInsert, List.lookup, h, hb]
    · by_cases h : k = key
      · subst h
        have hne : ¬ k = k0 := fun e => h0 e.symm
        have hb : (k == k0) = false := beq_false_of_ne hne
        simp [qMapInsert, List.lookup, h0, hb, ih]
      · by_cases h1 : k = k0
        · simp [qMapInsert, List.lookup, h0, h1, h]
        · have hb : (k == k0) = false := beq_false_of_ne h1
          simp [qMapInsert, List.lookup, h0, h, hb, ih]

/-- The bag after the loop of `getProperties`, when the names used are distinct: each item is
found under the name of its position, every other key is as before. -/
theorem insertProperties_lookup (propertylist : List JsonValue) (items : List JsonValue)
    (i : Nat) (properties : List (String × String))
    (hdistinct : ∀ a b : Nat, i ≤ a → a < b → b < i + items.length →
      (propertylist.getD a JsonValue.null).toString ≠
        (propertylist.getD b JsonValue.null).toString) :
    (∀ (j : Nat) (item : JsonValue), items[j]? = some item →
      (insertProperties propertylist i items properties).lookup
        (propertylist.getD (i + j) JsonValue.null).toString = some item.toString) ∧
    (∀ key : String,
      (∀ j : Nat, j < items.length → key ≠ (propertylist.getD (i + j) JsonValue.null).toString) →
      (insertProperties propertylist i items properties).lookup key = properties.lookup key) := by
  induction items generalizing i properties with
  | nil =>
    refine ⟨fun j item h => by simp at h, fun key _ => rfl⟩
  | cons first rest ih =>
    have hd : ∀ a b : Nat, i + 1 ≤ a → a < b → b < i + 1 + rest.length →
        (propertylist.getD a JsonValue.null).toString ≠
          (propertylist.getD b JsonValue.null).toString := by
      intro a b ha hab hb
      exact hdistinct a b (by omega) hab (by simp only [List.length_cons]; omega)
    obtain ⟨ih1, ih2⟩ := ih (i + 1)
      (qMapInsert properties (propertylist.getD i JsonValue.null).toString first.toString) hd
    constructor
    · intro j item hj
      cases j with
      | zero =>
        simp only [List.getElem?_cons_zero, Option.some.injEq] at hj
        subst hj
        simp only [insertProperties, Nat.add_zero]
        rw [ih2, lookup_qMapInsert, if_pos rfl]
        intro j hj
        exact hdistinct i (i + 1 + j) (le_refl _) (by omega)
          (by simp only [List.length_cons]; omega)
      | succ j =>
        simp only [List.getElem?_cons_succ] at hj
        simp only [insertProperties]
        have := ih1 j item hj
        rw [show i + (j + 1) = i + 1 + j by omega]
        exact this
    · intro key hkey
      simp only [insertProperties]
      rw [ih2, lookup_qMapInsert, if_neg]
      · have := hkey 0 (by simp)
        simpa using this
      · intro j hj
        have := hkey (j + 1) (by simp only [List.length_cons]; omega)
        rw [show i + (j + 1) = i + 1 + j by omega] at this
        exact this

theorem writeCommand_properties (s : YeelightLight) (sock : SocketScript) (command : Command) :
    (s.writeCommand sock command).light._properties = s._properties := by
  rcases writeCommand_light s sock command with h | h
  · rw [h]
  · rw [h]; rfl

theorem propertyNames_distinct (a b : Nat) (hab : a < b) (hb : b < 7) :
    (([JsonValue.string API_PROP_NAME, JsonValue.string API_PROP_MODEL,
        JsonValue.string API_PROP_POWER, JsonValue.string API_PROP_RGB,
        JsonValue.string API_PROP_BRIGHT, JsonValue.string API_PROP_CT,
        JsonValue.string API_PROP_FWVER] : List JsonValue).getD a JsonValue.null).toString ≠
    (([JsonValue.string API_PROP_NAME, JsonValue.string API_PROP_MODEL,
        JsonValue.string API_PROP_POWER, JsonValue.string API_PROP_RGB,
        JsonValue.string API_PROP_BRIGHT, JsonValue.string API_PROP_CT,
        JsonValue.string API_PROP_FWVER] : List JsonValue).getD b JsonValue.null).toString := by
  interval_cases b <;> interval_cases a <;> decide

theorem propertyNames_getD (i : Nat) (name : String)
    (h : ["name", "model", "power", "rgb", "bright", "ct", "fw_ver"][i]? = some name) :
    (([JsonValue.string API_PROP_NAME, JsonValue.string API_PROP_MODEL,
        JsonValue.string API_PROP_POWER, JsonValue.string API_PROP_RGB,
        JsonValue.string API_PROP_BRIGHT, JsonValue.string API_PROP_CT,
        JsonValue.string API_PROP_FWVER] : List JsonValue).getD i JsonValue.null).toString =
      name := by
  have hi : i < 7 := by
    by_contra hge
    rw [List.getElem?_eq_none (by simp; omega)] at h
    exact absurd h (by simp)
  interval_cases i <;> simp at h <;> subst h <;> rfl

/-- C19: `getProperties` builds the `get_prop` command for the names name, model, power, rgb,
bright, ct, fw_ver in this order; for a returned result array of at most 7 items, the bag of
the light afterwards holds, under the name at position `i` of that list, the string value of
the item at position `i` of the result, and every key that is not among the first names (as
many as there are items) is as before; model, firmware version, power, rgb value, brightness
and colour temperature of the light are the values the bag holds under model, fw_ver, power,
rgb, bright and ct. -/
theorem C19_getProperties (s : YeelightLight) (sock : SocketScript) (result : List JsonValue)
    (hresult : result = ((s.getCommand "get_prop" [JsonValue.string "name",
        JsonValue.string "model", JsonValue.string "power", JsonValue.string "rgb",
        JsonValue.string "bright", JsonValue.string "ct", JsonValue.string "fw_ver"]).2.writeCommand
      sock (s.getCommand "get_prop" [JsonValue.string "name",
        JsonValue.string "model", JsonValue.string "power", JsonValue.string "rgb",
        JsonValue.string "bright", JsonValue.string "ct", JsonValue.string "fw_ver"]).1).result)
    (hlen : result.length ≤ 7) :
    (s.getProperties sock).built = [⟨wrapInt32 (s._correlationID + 1), "get_prop",
      [JsonValue.string "name", JsonValue.string "model", JsonValue.string "power",
        JsonValue.string "rgb", JsonValue.string "bright", JsonValue.string "ct",
        JsonValue.string "fw_ver"]⟩] ∧
    (∀ (i : Nat) (item : JsonValue) (name : String), result[i]? = some item →
      ["name", "model", "power", "rgb", "bright", "ct", "fw_ver"][i]? = some name →
      (s.getProperties sock).light._properties.lookup name = some item.toString) ∧
    (∀ key : String,
      key ∉ ["name", "model", "power", "rgb", "bright", "ct", "fw_ver"].take result.length →
      (s.getProperties sock).light._properties.lookup key = s._properties.lookup key) ∧
    (s.getProperties sock).light._model =
      qMapValue (s.getProperties sock).light._properties "model" ∧
    (s.getProperties sock).light._fw_ver =
      qMapValue (s.getProperties sock).light._properties "fw_ver" ∧
    (s.getProperties sock).light._power =
      qMapValue (s.getProperties sock).light._properties "power" ∧
    (s.getProperties sock).light._colorRgbValue =
      qStringToInt (qMapValue (s.getProperties sock).light._properties "rgb") ∧
    (s.getProperties sock).light._bright =
      qStringToInt (qMapValue (s.getProperties sock).light._properties "bright") ∧
    (s.getProperties sock).light._ct =
      qStringToInt (qMapValue (s.getProperties sock).light._properties "ct") := by
  have hprops : (s.getProperties sock).light._properties =
      insertProperties [JsonValue.string API_PROP_NAME, JsonValue.string API_PROP_MODEL,
        JsonValue.string API_PROP_POWER, JsonValue.string API_PROP_RGB,
        JsonValue.string API_PROP_BRIGHT, JsonValue.string API_PROP_CT,
        JsonValue.string API_PROP_FWVER] 0 result s._properties := by
    have hw := writeCommand_properties
      (s.getCommand API_METHOD_GETPROP [JsonValue.string API_PROP_NAME,
        JsonValue.string API_PROP_MODEL, JsonValue.string API_PROP_POWER,
        JsonValue.string API_PROP_RGB, JsonValue.string API_PROP_BRIGHT,
        JsonValue.string API_PROP_CT, JsonValue.string API_PROP_FWVER]).2 sock
      (s.getCommand API_METHOD_GETPROP [JsonValue.string API_PROP_NAME,
        JsonValue.string API_PROP_MODEL, JsonValue.string API_PROP_POWER,
        JsonValue.string API_PROP_RGB, JsonValue.string API_PROP_BRIGHT,
        JsonValue.string API_PROP_CT, JsonValue.string API_PROP_FWVER]).1
    have hbase : (s.getCommand API_METHOD_GETPROP [JsonValue.string API_PROP_NAME,
        JsonValue.string API_PROP_MODEL, JsonValue.string API_PROP_POWER,
        JsonValue.string API_PROP_RGB, JsonValue.string API_PROP_BRIGHT,
        JsonValue.string API_PROP_CT, JsonValue.string API_PROP_FWVER]).2._properties =
        s._properties := rfl
    rw [hbase] at hw
    rw [hresult, ← hw]
    rfl
  obtain ⟨h1, h2⟩ := insertProperties_lookup
    [JsonValue.string API_PROP_NAME, JsonValue.string API_PROP_MODEL,
      JsonValue.string API_PROP_POWER, JsonValue.string API_PROP_RGB,
      JsonValue.string API_PROP_BRIGHT, JsonValue.string API_PROP_CT,
      JsonValue.string API_PROP_FWVER] result 0 s._properties
    (fun a b _ hab hb => propertyNames_distinct a b hab (by omega))
  refine ⟨rfl, ?_, ?_, rfl, rfl, rfl, rfl, rfl, rfl⟩
  · intro i item name hi hname
    rw [hprops]
    have := h1 i item hi
    rw [Nat.zero_add, propertyNames_getD i name hname] at this
    exact this
  · intro key hkey
    rw [hprops]
    apply h2
    intro j hj heq
    apply hkey
    rw [Nat.zero_add] at heq
    have hj7 : j < 7 := by omega
    rw [List.mem_take_iff_getElem]
    refine ⟨j, by simp; omega, ?_⟩
    subst heq
    interval_cases j <;> rfl

/-- C19 on a ready light whose socket answers with seven values. -/
theorem C19_getProperties_witness :
    (readyLight.getProperties propsSocket).light._properties.lookup "rgb" = some "16711680" ∧
    (readyLight.getProperties propsSocket).light._properties.lookup "fw_ver" = some "18" ∧
    (readyLight.getProperties propsSocket).light._colorRgbValue = 16711680 :=
  ⟨(C19_getProperties readyLight propsSocket
      [JsonValue.string "desk", JsonValue.string "color", JsonValue.string "on",
        JsonValue.string "16711680", JsonValue.string "100", JsonValue.string "4000",
        JsonValue.string "18"] rfl (by decide)).2.1 3 (JsonValue.string "16711680") "rgb" rfl rfl,
    (C19_getProperties readyLight propsSocket
      [JsonValue.string "desk", JsonValue.string "color", JsonValue.string "on",
        JsonValue.string "16711680", JsonValue.string "100", JsonValue.string "4000",
        JsonValue.string "18"] rfl (by decide)).2.1 6 (JsonValue.string "18") "fw_ver" rfl rfl,
    (C19_getProperties readyLight propsSocket
      [JsonValue.string "desk", JsonValue.string "color", JsonValue.string "on",
        JsonValue.string "16711680", JsonValue.string "100", JsonValue.string "4000",
        JsonValue.string "18"] rfl (by decide)).2.2.2.2.2.2.1.trans rfl⟩

/-! ## The two colour paths -/

theorem hsvScale_le (v : Int) (h0 : 0 ≤ v) (h1 : v ≤ 255) : hsvScale v ≤ 100 := by
  unfold hsvScale cDiv
  rw [Int.tdiv_eq_ediv (by omega) (by norm_num)]
  omega

theorem saturation_range (mx delta : Int) (hpos : 0 < mx) (h0 : 0 ≤ delta) (h1 : delta ≤ mx) :
    0 ≤ (2 * 65535 * delta + mx) / (2 * mx) / 256 ∧
      (2 * 65535 * delta + mx) / (2 * mx) / 256 ≤ 255 := by
  have hq0 : 0 ≤ (2 * 65535 * delta + mx) / (2 * mx) :=
    Int.ediv_nonneg (by omega) (by omega)
  have hq : (2 * 65535 * delta + mx) / (2 * mx) < 65536 := by
    apply Int.ediv_lt_of_lt_mul (by omega)
    omega
  constructor <;> omega

/-- The contract of `QColor::getHsv` that the HSV path relies on: the value is the greatest
channel, the saturation lies in `0..255`, and a colour with three equal channels has the
hue `-1`. -/
theorem qColorGetHsv_contract (color : ColorRgb) :
    (qColorGetHsv color).2.2 =
      ((max color.red.val (max color.green.val color.blue.val) : Nat) : Int) ∧
    0 ≤ (qColorGetHsv color).2.1 ∧ (qColorGetHsv color).2.1 ≤ 255 ∧
    (color.red = color.green → color.green = color.blue → (qColorGetHsv color).1 = -1) := by
  have hr := color.red.isLt
  have hg := color.green.isLt
  have hb := color.blue.isLt
  have hmax : ((max color.red.val (max color.green.val color.blue.val) : Nat) : Int) =
      max (color.red.val : Int) (max (color.green.val : Int) (color.blue.val : Int)) := by
    push_cast; rfl
  have hvalue : ∀ mx : Int, 0 ≤ mx → mx ≤ 255 → mx * 257 / 256 = mx := by
    intro mx h0 h1; omega
  have hmx0 : 0 ≤ max (color.red.val : Int) (max (color.green.val : Int) (color.blue.val : Int)) :=
    le_max_of_le_left (by omega)
  have hmx1 : max (color.red.val : Int) (max (color.green.val : Int) (color.blue.val : Int))
      ≤ 255 := by
    apply max_le (by omega) (max_le (by omega) (by omega))
  have hmn0 : 0 ≤ min (color.red.val : Int) (min (color.green.val : Int)
      (color.blue.val : Int)) := le_min (by omega) (le_min (by omega) (by omega))
  have hle : min (color.red.val : Int) (min (color.green.val : Int) (color.blue.val : Int)) ≤
      max (color.red.val : Int) (max (color.green.val : Int) (color.blue.val : Int)) :=
    le_trans (min_le_left _ _) (le_max_left _ _)
  unfold qColorGetHsv
  dsimp only
  split
  · rename_i hd
    refine ⟨?_, le_refl _, by norm_num, fun _ _ => rfl⟩
    rw [hmax]
    exact hvalue _ hmx0 hmx1
  · rename_i hd
    have hsat := saturation_range
      (max (color.red.val : Int) (max (color.green.val : Int) (color.blue.val : Int)))
      (max (color.red.val : Int) (max (color.green.val : Int) (color.blue.val : Int)) -
        min (color.red.val : Int) (min (color.green.val : Int) (color.blue.val : Int)))
      (by omega) (by omega) (by omega)
    refine ⟨?_, hsat.1, hsat.2, ?_⟩
    · rw [hmax]
      exact hvalue _ hmx0 hmx1
    · intro h1 h2
      exfalso
      apply hd
      rw [h1, h2]
      simp

/-- The state after `setColorHSV` for a colour other than the last one sent: on success the
light remembers the colour and is marked off, and out of music mode, exactly when the
brightness sent is 0; on failure the remembered colour and the on/off mark stay. -/
theorem setColorHSV_state (getHsv : ColorRgb → Int × Int × Int) (s : YeelightLight)
    (color : ColorRgb) (sock : SocketScript) (hnew : some color ≠ s._color) :
    ((s.setColorHSV getHsv color sock).rc = true →
      (s.setColorHSV getHsv color sock).light._color = some color ∧
      (s.setColorHSV getHsv color sock).light._isOn =
        (if hsvBri s (hsvScale (getHsv color).2.2) = 0 then false else true) ∧
      (hsvBri s (hsvScale (getHsv color).2.2) = 0 →
        (s.setColorHSV getHsv color sock).light._isInMusicMode = false)) ∧
    ((s.setColorHSV getHsv color sock).rc = false →
      (s.setColorHSV getHsv color sock).light._color = s._color ∧
      (s.setColorHSV getHsv color sock).light._isOn = s._isOn) := by
  have key : ∀ (w : WriteOutcome) (b : Command) (bri : Int),
      w.light._color = s._color → w.light._isOn = s._isOn →
      (((if w.rc = true then
          (⟨true, { w.light with
            _isOn := if bri = 0 then false else true
            _isInMusicMode := if bri = 0 then false else w.light._isInMusicMode
            _color := some color }, w.events, [b]⟩ : Outcome Bool)
        else ⟨false, w.light, w.events, [b]⟩).rc = true →
        (if w.rc = true then
          (⟨true, { w.light with
            _isOn := if bri = 0 then false else true
            _isInMusicMode := if bri = 0 then false else w.light._isInMusicMode
            _color := some color }, w.events, [b]⟩ : Outcome Bool)
        else ⟨false, w.light, w.events, [b]⟩).light._color = some color ∧
        (if w.rc = true then
          (⟨true, { w.light with
            _isOn := if bri = 0 then false else true
            _isInMusicMode := if bri = 0 then false else w.light._isInMusicMode
            _color := some color }, w.events, [b]⟩ : Outcome Bool)
        else ⟨false, w.light, w.events, [b]⟩).light._isOn =
          (if bri = 0 then false else true) ∧
        (bri = 0 →
          (if w.rc = true then
            (⟨true, { w.light with
              _isOn := if bri = 0 then false else true
              _isInMusicMode := if bri = 0 then false else w.light._isInMusicMode
              _color := some color }, w.events, [b]⟩ : Outcome Bool)
          else ⟨false, w.light, w.events, [b]⟩).light._isInMusicMode = false)) ∧
      ((if w.rc = true then
          (⟨true, { w.light with
            _isOn := if bri = 0 then false else true
            _isInMusicMode := if bri = 0 then false else w.light._isInMusicMode
            _color := some color }, w.events, [b]⟩ : Outcome Bool)
        else ⟨false, w.light, w.events, [b]⟩).rc = false →
        (if w.rc = true then
          (⟨true, { w.light with
            _isOn := if bri = 0 then false else true
            _isInMusicMode := if bri = 0 then false else w.light._isInMusicMode
            _color := some color }, w.events, [b]⟩ : Outcome Bool)
        else ⟨false, w.light, w.events, [b]⟩).light._color = s._color ∧
        (if w.rc = true then
          (⟨true, { w.light with
            _isOn := if bri = 0 then false else true
            _isInMusicMode := if bri = 0 then false else w.light._isInMusicMode
            _color := some color }, w.events, [b]⟩ : Outcome Bool)
        else ⟨false, w.light, w.events, [b]⟩).light._isOn = s._isOn)) := by
    intro w b bri hcolor hon
    by_cases hrc : w.rc = true
    · rw [if_pos hrc]
      exact ⟨fun _ => ⟨rfl, rfl, fun h0 => if_pos h0⟩, fun h => Bool.noConfusion h⟩
    · rw [if_neg hrc]
      exact ⟨fun h => Bool.noConfusion h, fun _ => ⟨hcolor, hon⟩⟩
  have hlight := sendScene_light
    (s.getCommand API_METHOD_SETSCENE (hsvParamlist s (getHsv color))).2 sock
    (s.getCommand API_METHOD_SETSCENE (hsvParamlist s (getHsv color))).1
  have hcolor : ((s.getCommand API_METHOD_SETSCENE (hsvParamlist s (getHsv color))).2.sendScene
      sock (s.getCommand API_METHOD_SETSCENE (hsvParamlist s (getHsv color))).1).light._color =
      s._color := by
    rcases hlight with h | h
    · rw [h]; rfl
    · rw [h]; rfl
  have hon : ((s.getCommand API_METHOD_SETSCENE (hsvParamlist s (getHsv color))).2.sendScene
      sock (s.getCommand API_METHOD_SETSCENE (hsvParamlist s (getHsv color))).1).light._isOn =
      s._isOn := by
    rcases hlight with h | h
    · rw [h]; rfl
    · rw [h]; rfl
  unfold setColorHSV
  rw [if_pos hnew]
  exact key _ _ _ hcolor hon

/-- The command that `setColorHSV` builds is the command it sends: the return value and the
socket calls are those of `sendScene` with that command on the light with the counter
advanced; for the colour last sent nothing is built or sent and the call succeeds. -/
theorem setColorHSV_sent (getHsv : ColorRgb → Int × Int × Int) (s : YeelightLight)
    (color : ColorRgb) (sock : SocketScript) :
    (∀ cmd ∈ (s.setColorHSV getHsv color sock).built,
      (s.setColorHSV getHsv color sock).rc =
        ((s.getCommand cmd.method cmd.params).2.sendScene sock cmd).rc ∧
      (s.setColorHSV getHsv color sock).events =
        ((s.getCommand cmd.method cmd.params).2.sendScene sock cmd).events) ∧
    (some color = s._color → s.setColorHSV getHsv color sock = ⟨true, s, [], []⟩) := by
  have key : ∀ (w : WriteOutcome) (b : Command) (light : YeelightLight),
      (if w.rc = true then (⟨true, light, w.events, [b]⟩ : Outcome Bool)
        else ⟨false, w.light, w.events, [b]⟩).rc = w.rc ∧
      (if w.rc = true then (⟨true, light, w.events, [b]⟩ : Outcome Bool)
        else ⟨false, w.light, w.events, [b]⟩).events = w.events := by
    intro w b light
    by_cases hrc : w.rc = true
    · rw [if_pos hrc]; exact ⟨hrc.symm, rfl⟩
    · rw [if_neg hrc]; exact ⟨(Bool.eq_false_iff.mpr hrc).symm, rfl⟩
  constructor
  · intro cmd hmem
    rw [setColorHSV_built] at hmem
    split at hmem
    · rename_i hnew
      rw [List.mem_singleton] at hmem
      subst hmem
      unfold setColorHSV
      rw [if_pos hnew]
      exact key _ _ _
    · exact absurd hmem (List.not_mem_nil _)
  · intro hsame
    unfold setColorHSV
    rw [if_neg (not_not.mpr hsame)]

/-- Claim C20: the brightness policy is the same on both colour paths. Given the contract of
`QColor::getHsv` at the colour (the value is the greatest channel, the saturation lies in
`0..255`, three equal channels give the hue `-1`), the rescaled value of the HSV path equals
`max(R,G,B) * 100 / 255` of the RGB path. `setColorRGB` builds a command exactly when the
packed colour differs from the last one sent, and `setColorHSV` exactly when the colour
differs from the last one sent; each does so whatever the other path does, and both commands
carry the same brightness, the same effect and the same duration, namely those that the RGB
policy gives for the colour. The HSV command carries the hue of `getHsv`, with 0 for `-1`
and so for a colour with three equal channels, and its saturation rescaled by `* 100 / 255`,
which lies in `0..100`. The HSV command built is the one sent (through `sendScene`, whose
result the call returns); after a successful HSV command the light remembers the colour and
is marked off, and out of music mode, exactly when the brightness sent is 0; after a failed
one the remembered colour stays; for the colour last sent the call does nothing and
succeeds. -/
theorem C20_same_brightness_policy (getHsv : ColorRgb → Int × Int × Int) (s : YeelightLight)
    (color : ColorRgb) (sockRgb sockHsv : SocketScript)
    (hvalue : (getHsv color).2.2 =
      ((max color.red.val (max color.green.val color.blue.val) : Nat) : Int))
    (hsat : 0 ≤ (getHsv color).2.1 ∧ (getHsv color).2.1 ≤ 255)
    (hhue : color.red = color.green → color.green = color.blue → (getHsv color).1 = -1) :
    hsvScale (getHsv color).2.2 = rgbRaw color ∧
    (s.setColorRGB color sockRgb).built =
      (if rgbColorParam color ≠ s._colorRgbValue then
        [⟨wrapInt32 (s._correlationID + 1), "set_scene",
          [JsonValue.string "color", JsonValue.number (rgbColorParam color),
            JsonValue.number (rgbBri s (rgbRaw color)),
            JsonValue.string s._transitionEffectParam,
            JsonValue.number (rgbDuration s (rgbRaw color))]⟩]
      else []) ∧
    (s.setColorHSV getHsv color sockHsv).built =
      (if some color ≠ s._color then
        [⟨wrapInt32 (s._correlationID + 1), "set_scene",
          [JsonValue.string "hsv",
            JsonValue.number (if (getHsv color).1 = -1 then 0 else (getHsv color).1 : Int),
            JsonValue.number (cDiv ((getHsv color).2.1 * 100) 255),
            JsonValue.number (rgbBri s (rgbRaw color)),
            JsonValue.string s._transitionEffectParam,
            JsonValue.number (rgbDuration s (rgbRaw color))]⟩]
      else []) ∧
    0 ≤ cDiv ((getHsv color).2.1 * 100) 255 ∧ cDiv ((getHsv color).2.1 * 100) 255 ≤ 100 ∧
    (color.red = color.green → color.green = color.blue →
      (if (getHsv color).1 = -1 then 0 else (getHsv color).1 : Int) = 0) ∧
    (some color ≠ s._color →
      ((s.setColorHSV getHsv color sockHsv).rc = true →
        (s.setColorHSV getHsv color sockHsv).light._color = some color ∧
        (s.setColorHSV getHsv color sockHsv).light._isOn =
          (if rgbBri s (rgbRaw color) = 0 then false else true) ∧
        (rgbBri s (rgbRaw color) = 0 →
          (s.setColorHSV getHsv color sockHsv).light._isInMusicMode = false)) ∧
      ((s.setColorHSV getHsv color sockHsv).rc = false →
        (s.setColorHSV getHsv color sockHsv).light._color = s._color ∧
        (s.setColorHSV getHsv color sockHsv).light._isOn = s._isOn)) ∧
    (∀ cmd ∈ (s.setColorHSV getHsv color sockHsv).built,
      (s.setColorHSV getHsv color sockHsv).rc =
        ((s.getCommand cmd.method cmd.params).2.sendScene sockHsv cmd).rc ∧
      (s.setColorHSV getHsv color sockHsv).events =
        ((s.getCommand cmd.method cmd.params).2.sendScene sockHsv cmd).events) ∧
    (some color = s._color → s.setColorHSV getHsv color sockHsv = ⟨true, s, [], []⟩) := by
  have hscale : hsvScale (getHsv color).2.2 = rgbRaw color := by
    rw [hvalue]; rfl
  refine ⟨hscale, ?_, ?_, hsvScale_nonneg _ hsat.1, hsvScale_le _ hsat.1 hsat.2, ?_, ?_,
    (setColorHSV_sent getHsv s color sockHsv).1, (setColorHSV_sent getHsv s color sockHsv).2⟩
  · rw [setColorRGB_built]
    rfl
  · rw [setColorHSV_built]
    unfold hsvParamlist
    rw [hscale, hsvBri_eq_rgbBri, hsvDuration_eq_rgbDuration]
    rfl
  · intro h1 h2
    rw [if_pos (hhue h1 h2)]
  · intro hnew
    have h := setColorHSV_state getHsv s color sockHsv hnew
    rw [hscale, hsvBri_eq_rgbBri] at h
    exact h

/-- C20 at the grey (128,128,128) on a ready light, with the conversion of Qt: both paths
build a command with the brightness 50 and the duration 50, the HSV one with hue 0 and
saturation 0. -/
theorem C20_same_brightness_policy_witness :
    (readyLight.setColorRGB ⟨128, 128, 128⟩ (okSocket 1)).built =
      [⟨1, "set_scene", [JsonValue.string "color", JsonValue.number (8421504 : Int),
        JsonValue.number (50 : Int), JsonValue.string "smooth",
        JsonValue.number (50 : Int)]⟩] ∧
    (readyLight.setColorHSV qColorGetHsv ⟨128, 128, 128⟩ (okSocket 1)).built =
      [⟨1, "set_scene", [JsonValue.string "hsv", JsonValue.number (0 : Int),
        JsonValue.number (0 : Int), JsonValue.number (50 : Int), JsonValue.string "smooth",
        JsonValue.number (50 : Int)]⟩] ∧
    (readyLight.setColorHSV qColorGetHsv ⟨128, 128, 128⟩ (okSocket 1)).light._color =
      some ⟨128, 128, 128⟩ :=
  ⟨(C20_same_brightness_policy qColorGetHsv readyLight ⟨128, 128, 128⟩ (okSocket 1) (okSocket 1)
      (qColorGetHsv_contract _).1
      ⟨(qColorGetHsv_contract _).2.1, (qColorGetHsv_contract _).2.2.1⟩
      (qColorGetHsv_contract _).2.2.2).2.1.trans rfl,
    (C20_same_brightness_policy qColorGetHsv readyLight ⟨128, 128, 128⟩ (okSocket 1) (okSocket 1)
      (qColorGetHsv_contract _).1
      ⟨(qColorGetHsv_contract _).2.1, (qColorGetHsv_contract _).2.2.1⟩
      (qColorGetHsv_contract _).2.2.2).2.2.1.trans rfl,
    (((C20_same_brightness_policy qColorGetHsv readyLight ⟨128, 128, 128⟩ (okSocket 1) (okSocket 1)
      (qColorGetHsv_contract _).1
      ⟨(qColorGetHsv_contract _).2.1, (qColorGetHsv_contract _).2.2.1⟩
      (qColorGetHsv_contract _).2.2.2).2.2.2.2.2.2.1 (by decide)).1 rfl).1⟩

/-- The conversion at some colours. -/
theorem qColorGetHsv_samples : qColorGetHsv ⟨255, 0, 0⟩ = (0, 255, 255) ∧
    qColorGetHsv ⟨255, 128, 0⟩ = (30, 255, 255) ∧ qColorGetHsv ⟨128, 128, 128⟩ = (-1, 0, 128) ∧
    qColorGetHsv ⟨10, 20, 30⟩ = (210, 170, 30) ∧ qColorGetHsv ⟨0, 0, 255⟩ = (240, 255, 255) := by
  decide

end Yeelight
